import Mathlib

/-!
# WebView method dispatch of the Tizen `webview_flutter` plugin

Shallow embedding of `packages/webview_flutter/tizen/src/webview.cc` (the `USE_LWE`
branch, which `webview.h` selects with `#define USE_LWE`).

* `flutter.EncodableValue` is the dynamically typed argument of the method channel.
  An `EncodableMap` (a `std::map`) is a list of entries in iteration order, which
  for a `std::map` is ascending key order.  Functions accept any list; theorems
  that need the `std::map` invariant assume `EncodableMap.UniqueKeys`.
* The embedded engine (`LWE::WebContainer`) is an external library.  It is a
  parameter of the model: `LWE.WebContainer σ` gives the effect of every call on an
  engine instance of state `σ`.  Each call made on the instance is also recorded,
  in order, in the `calls` trace of the outcome.
* C++ `int` values are `Int`, `double` values are their IEEE-754 bit pattern.
* The lambdas that the constructor registers with the engine are functions that
  return the method invocations they send to Dart (`Emitted`).  A `Session`
  replays method calls, `Dispose` and completion callbacks in a given order.
* `enum LWE::KeyValue` is declared in the engine headers; its enumerators are the
  parameter `LWE.KeyValues` of the key mapping.
-/

namespace flutter

/-- A C++ `double`, kept as its IEEE-754 binary64 bit pattern.  The code only
stores, copies and returns doubles. -/
structure Double where
  bits : Nat
deriving DecidableEq, Repr

/-- The `double` the C++ conversion `return -1;` produces: `-1.0`. -/
def Double.negOne : Double := ⟨0xBFF0000000000000⟩

/-- The `std::variant` behind `flutter::EncodableValue`, alternatives in the
order of the variant (the index decides `operator<` between alternatives). -/
inductive EncodableValue where
  | null
  | bool (b : Bool)
  | int32 (i : Int)
  | int64 (i : Int)
  | double (d : Double)
  | string (s : String)
  | uint8List (l : List Nat)
  | int32List (l : List Int)
  | int64List (l : List Int)
  | float64List (l : List Double)
  | list (l : List EncodableValue)
  | map (m : List (EncodableValue × EncodableValue))

instance : Inhabited EncodableValue := ⟨EncodableValue.null⟩

/-- The entries of a `flutter::EncodableMap` in iteration order. -/
abbrev EncodableMap := List (EncodableValue × EncodableValue)

/-- The elements of a `flutter::EncodableList`. -/
abbrev EncodableList := List EncodableValue

namespace EncodableMap

/-- The invariant of `std::map`: no two entries have the same key. -/
def UniqueKeys (m : EncodableMap) : Prop :=
  m.Pairwise (fun a b => a.1 ≠ b.1)

/-- Whether an entry key is the string `key`. -/
def keyIs (key : String) : EncodableValue → Bool
  | .string s => s == key
  | _ => false

/-- Whether an entry key orders before `EncodableValue(key)` under `operator<` of
the variant: a lower alternative index orders first, two strings compare as
`std::string`. -/
def keyBefore (key : String) : EncodableValue → Bool
  | .null => true
  | .bool _ => true
  | .int32 _ => true
  | .int64 _ => true
  | .double _ => true
  | .string s => decide (s < key)
  | _ => false

/-- The call `values[EncodableValue(key)]` of `std::map::operator[]`: the mapped
value, and the map afterwards.  An absent key is inserted with a
value-initialised (`monostate`) value at its place in key order. -/
def subscript (values : EncodableMap) (key : String) : EncodableValue × EncodableMap :=
  match values.find? (fun kv => keyIs key kv.1) with
  | some kv => (kv.2, values)
  | none =>
    (EncodableValue.null,
      values.takeWhile (fun kv => keyBefore key kv.1) ++
        (EncodableValue.string key, EncodableValue.null) ::
          values.dropWhile (fun kv => keyBefore key kv.1))

/-- The call `map.insert(std::make_pair(EncodableValue(key), value))` of
`std::map::insert`: a key already present keeps its entry, a new key is put at
its place in key order. -/
def insert (m : EncodableMap) (key : String) (value : EncodableValue) : EncodableMap :=
  if m.any (fun kv => keyIs key kv.1) then m
  else
    m.takeWhile (fun kv => keyBefore key kv.1) ++
      (EncodableValue.string key, value) :: m.dropWhile (fun kv => keyBefore key kv.1)

/-- The assignment `map[EncodableValue(key)] = value` through
`std::map::operator[]`: the value of a key already present is replaced, a new
key is put at its place in key order. -/
def assign (m : EncodableMap) (key : String) (value : EncodableValue) : EncodableMap :=
  if m.any (fun kv => keyIs key kv.1) then
    m.map (fun kv => if keyIs key kv.1 then (kv.1, value) else kv)
  else
    m.takeWhile (fun kv => keyBefore key kv.1) ++
      (EncodableValue.string key, value) :: m.dropWhile (fun kv => keyBefore key kv.1)

end EncodableMap

/-- The calls a handler can make on a `flutter::MethodResult`.  `Success()`
without a value is `Success null`; `Error(code)` has the default message `""`;
error details are never passed by this code. -/
inductive Reply where
  | Success (value : EncodableValue)
  | Error (error_code : String) (error_message : String)
  | NotImplemented

/-- The result object of one method call, identified by the call it answers. -/
structure MethodResult where
  id : Nat
deriving DecidableEq, Repr

/-- A decoded `flutter::MethodCall`. -/
structure MethodCall where
  method_name : String
  arguments : EncodableValue

end flutter

open flutter

/-- `ExtractStringFromMap` of webview.cc.  The first component is the returned
string; the second is the caller's `arguments` object after the call (it is
taken by const reference, and `operator[]` runs on the local copy `values`). -/
def ExtractStringFromMap (arguments : EncodableValue) (key : String) :
    String × EncodableValue :=
  match arguments with
  | .map m =>
    let values : EncodableMap := m
    let value := (EncodableMap.subscript values key).1
    match value with
    | .string s => (s, arguments)
    | _ => ("", arguments)
  | _ => ("", arguments)

/-- `ExtractIntFromMap` of webview.cc; components as for `ExtractStringFromMap`.
`int` is the `int32_t` alternative of the variant. -/
def ExtractIntFromMap (arguments : EncodableValue) (key : String) :
    Int × EncodableValue :=
  match arguments with
  | .map m =>
    let values : EncodableMap := m
    let value := (EncodableMap.subscript values key).1
    match value with
    | .int32 i => (i, arguments)
    | _ => (-1, arguments)
  | _ => (-1, arguments)

/-- `ExtractDoubleFromMap` of webview.cc; components as for `ExtractStringFromMap`. -/
def ExtractDoubleFromMap (arguments : EncodableValue) (key : String) :
    Double × EncodableValue :=
  match arguments with
  | .map m =>
    let values : EncodableMap := m
    let value := (EncodableMap.subscript values key).1
    match value with
    | .double d => (d, arguments)
    | _ => (Double.negOne, arguments)
  | _ => (Double.negOne, arguments)

/-- The data members of `class NavigationRequestResult`: the url of the pending
navigation, and whether the pointer `webview_` is non-null.  A non-null pointer
is the view that created the object. -/
structure NavigationRequestResult where
  url_ : String
  webview_ : Bool
deriving DecidableEq, Repr

/-- A method invocation sent from the plugin to Dart with
`channel_->InvokeMethod(method, arguments)` or, when a result handler is given,
`channel_->InvokeMethod(method, arguments, on_result)`. -/
structure OutboundCall where
  method : String
  arguments : EncodableValue
  on_result : Option NavigationRequestResult := none

/-- The completion lambda of the `evaluateJavascript` branch,
`[res = result.release()](std::string value) {...}`: its only capture is the
released result pointer (`none` is the null pointer). -/
structure EvaluateJavaScriptCallback where
  res : Option MethodResult
deriving DecidableEq, Repr

/-- Body of the completion lambda: `if (res) { res->Success(EncodableValue(value));
delete res; }`.  Gives the result object that is answered and the reply it gets. -/
def EvaluateJavaScriptCallback.call (cb : EvaluateJavaScriptCallback) (value : String) :
    Option (MethodResult × Reply) :=
  match cb.res with
  | some res => some (res, Reply.Success (EncodableValue.string value))
  | none => none

/-- The lambda `cb` of `RegisterJavaScriptChannelName`, `[this, name](const
std::string& message) -> std::string`; `name` is its captured channel name. -/
structure JavaScriptChannelCallback where
  name : String
deriving DecidableEq, Repr

/-- Body of the channel lambda: one `InvokeMethod("javascriptChannelMessage", args)`
and the returned string.  The map is in key order, `"channel" < "message"`. -/
def JavaScriptChannelCallback.call (cb : JavaScriptChannelCallback) (message : String) :
    List OutboundCall × String :=
  ([{ method := "javascriptChannelMessage"
      arguments := EncodableValue.map
        [(EncodableValue.string "channel", EncodableValue.string cb.name),
         (EncodableValue.string "message", EncodableValue.string message)] }],
   "success")

/-- The lambdas that `DispatchKeyDownEvent` and `DispatchKeyUpEvent` hand to
`AddIdleCallback`, each with the data pointer it is given: the two lambdas of
the XF86Exit / Select / Cancel branch (data is `this`), and the two lambdas that
forward a key (data is a `Param` holding the engine instance and the key
value). -/
inductive IdleCallback where
  | selectKey
  | hidePanel
  | keyDown (key_value : Int)
  | keyUp (key_value : Int)
deriving DecidableEq, Repr

namespace LWE

/-- The enumerators of `LWE::MouseButtonValue` that the plugin passes. -/
inductive MouseButtonValue where
  | NoButton
  | LeftButton
deriving DecidableEq, Repr

/-- The enumerators of `LWE::MouseButtonsValue` that the plugin passes. -/
inductive MouseButtonsValue where
  | NoButtonDown
  | LeftButtonDown
deriving DecidableEq, Repr

/-- The engine settings object (`LWE::Settings`).  The plugin only ever changes
the user-agent string; `others` stands for every other setting. -/
structure Settings where
  user_agent : String
  others : List (String × String)
deriving DecidableEq, Repr

/-- `settings.SetUserAgentString(s)` on a settings object. -/
def Settings.SetUserAgentString (settings : Settings) (s : String) : Settings :=
  { settings with user_agent := s }

/-- The member functions of `LWE::WebContainer` that the dispatcher calls, with
their arguments. -/
inductive Call where
  | LoadURL (url : String)
  | CanGoBack
  | CanGoForward
  | GoBack
  | GoForward
  | Reload
  | GetURL
  | GetTitle
  | EvaluateJavaScript (script : String) (cb : EvaluateJavaScriptCallback)
  | AddJavaScriptInterface (name : String) (method : String) (cb : JavaScriptChannelCallback)
  | RemoveJavascriptInterface (name : String) (method : String)
  | ClearCache
  | ScrollTo (x : Int) (y : Int)
  | ScrollBy (x : Int) (y : Int)
  | GetScrollX
  | GetScrollY
  | GetSettings
  | SetSettings (settings : Settings)
  | Destroy
  | DispatchMouseDownEvent (button : MouseButtonValue) (buttons : MouseButtonsValue)
      (x : Double) (y : Double)
  | DispatchMouseMoveEvent (button : MouseButtonValue) (buttons : MouseButtonsValue)
      (x : Double) (y : Double)
  | DispatchMouseUpEvent (button : MouseButtonValue) (buttons : MouseButtonsValue)
      (x : Double) (y : Double)
  | DispatchKeyDownEvent (key_value : Int)
  | DispatchKeyPressEvent (key_value : Int)
  | DispatchKeyUpEvent (key_value : Int)
  | AddIdleCallback (cb : IdleCallback)
deriving DecidableEq, Repr

/-- The behaviour of the external engine on an instance of state `σ`: `exec`
is the effect of a state-changing call, the other fields are the values the
getters return (`GetScrollX` and `GetScrollY` return a C++ `int`). -/
structure WebContainer (σ : Type) where
  exec : Call → σ → σ
  CanGoBack : σ → Bool
  CanGoForward : σ → Bool
  GetURL : σ → String
  GetTitle : σ → String
  GetScrollX : σ → Int
  GetScrollY : σ → Int
  GetSettings : σ → Settings

end LWE

/-- The fields of `class WebView` (webview.h) that the dispatcher reads or
writes.  `webview_instance_ = none` is the null pointer.  `context_` tells
whether the pointer `context_` is non-null (the constructor sets it to null);
`is_focused_` is what `IsFocused()` of the base class `PlatformView` returns. -/
structure WebView (σ : Type) where
  webview_instance_ : Option σ
  is_mouse_lbutton_down_ : Bool
  has_navigation_delegate_ : Bool
  context_ : Bool := false
  is_focused_ : Bool := false

/-- Abnormal ends of a member function. -/
inductive Fault where
  /-- A thrown `std::invalid_argument(what)`. -/
  | invalid_argument (what : String)
  /-- A dereference of a null pointer, such as a member call through
  `webview_instance_` while it is null. -/
  | null_dereference
deriving DecidableEq, Repr

/-- The calls that the view makes to facilities other than its engine
instance: the Flutter embedder (the texture registrar and the texture id passed
along are fixed when the view is built), the cookie manager singleton of the
engine (`LWE::CookieManager::GetInstance()->ClearCookies()`), and the input
method context `context_`. -/
inductive PlatformCall where
  | FlutterUnregisterExternalTexture
  | ClearCookies
  | ecore_imf_context_reset
  | ecore_imf_context_focus_out
  | ecore_imf_context_input_panel_hide
deriving DecidableEq, Repr

/-- What running a member function of `WebView` did: the view afterwards, the
calls made on `result`, the calls made on the engine instance (both in order),
the exception or fault that left the function, if any, and the calls made into
the Flutter embedder. -/
structure Outcome (σ : Type) where
  view : WebView σ
  replies : List Reply
  calls : List LWE.Call
  fault : Option Fault
  platform : List PlatformCall := []

namespace Outcome

/-- Normal return without any effect. -/
def done {σ : Type} (view : WebView σ) : Outcome σ :=
  { view := view, replies := [], calls := [], fault := none }

/-- Sequencing of statements: the continuation runs only if the first part
ended normally; effects accumulate. -/
def andThen {σ : Type} (o : Outcome σ) (k : WebView σ → Outcome σ) : Outcome σ :=
  match o.fault with
  | some _ => o
  | none =>
    let o2 := k o.view
    { view := o2.view, replies := o.replies ++ o2.replies,
      calls := o.calls ++ o2.calls, fault := o2.fault,
      platform := o.platform ++ o2.platform }

end Outcome

/-- A state-changing call `webview_instance_->c(...)`. -/
def WebView.invoke {σ : Type} (E : LWE.WebContainer σ) (self : WebView σ) (c : LWE.Call) :
    Outcome σ :=
  match self.webview_instance_ with
  | some inst =>
    { view := { self with webview_instance_ := some (E.exec c inst) }
      replies := [], calls := [c], fault := none }
  | none => { view := self, replies := [], calls := [], fault := some Fault.null_dereference }

/-- One iteration of the `for` loop of `WebView::ApplySettings` on the entry
`[key, val]`. -/
def ApplySettings.entry {σ : Type} (E : LWE.WebContainer σ) (self : WebView σ)
    (key val : EncodableValue) : Outcome σ :=
  match key with
  | .string k =>
    if k = "jsMode" then Outcome.done self
    else if k = "hasNavigationDelegate" then
      match val with
      | .bool b => Outcome.done { self with has_navigation_delegate_ := b }
      | _ => Outcome.done self
    else if k = "debuggingEnabled" then Outcome.done self
    else if k = "gestureNavigationEnabled" then Outcome.done self
    else if k = "userAgent" then
      match val with
      | .string s =>
        match self.webview_instance_ with
        | some inst =>
          let settings := E.GetSettings inst
          let settings := settings.SetUserAgentString s
          { view := { self with
              webview_instance_ := some (E.exec (LWE.Call.SetSettings settings) inst) }
            replies := []
            calls := [LWE.Call.GetSettings, LWE.Call.SetSettings settings]
            fault := none }
        | none =>
          { view := self, replies := [], calls := [], fault := some Fault.null_dereference }
      | _ => Outcome.done self
    else
      { view := self, replies := [], calls := []
        fault := some (Fault.invalid_argument ("Unknown WebView setting: " ++ k)) }
  | _ => Outcome.done self

/-- `WebView::ApplySettings`: the entries are visited in the iteration order of
the map; a throw ends the loop and keeps what earlier iterations did. -/
def ApplySettings {σ : Type} (E : LWE.WebContainer σ) (self : WebView σ) :
    EncodableMap → Outcome σ
  | [] => Outcome.done self
  | (key, val) :: rest =>
    (ApplySettings.entry E self key val).andThen (fun view => ApplySettings E view rest)

/-- `WebView::RegisterJavaScriptChannelName`. -/
def RegisterJavaScriptChannelName {σ : Type} (E : LWE.WebContainer σ) (self : WebView σ)
    (name : String) : Outcome σ :=
  let cb : JavaScriptChannelCallback := { name := name }
  self.invoke E (LWE.Call.AddJavaScriptInterface name "postMessage" cb)

/-- The `for` loop of the `addJavascriptChannels` branch over `name_list`. -/
def addJavascriptChannelsLoop {σ : Type} (E : LWE.WebContainer σ) (self : WebView σ) :
    EncodableList → Outcome σ
  | [] => Outcome.done self
  | .string name :: rest =>
    (RegisterJavaScriptChannelName E self name).andThen
      (fun view => addJavascriptChannelsLoop E view rest)
  | _ :: rest => addJavascriptChannelsLoop E self rest

/-- The `for` loop of the `removeJavascriptChannels` branch over `name_list`. -/
def removeJavascriptChannelsLoop {σ : Type} (E : LWE.WebContainer σ) (self : WebView σ) :
    EncodableList → Outcome σ
  | [] => Outcome.done self
  | .string name :: rest =>
    (self.invoke E (LWE.Call.RemoveJavascriptInterface name "postMessage")).andThen
      (fun view => removeJavascriptChannelsLoop E view rest)
  | _ :: rest => removeJavascriptChannelsLoop E self rest

/-- A call on `result` as the last statement of a branch. -/
def WebView.reply {σ : Type} (self : WebView σ) (r : Reply) : Outcome σ :=
  { view := self, replies := [r], calls := [], fault := none }

/-- `WebView::HandleMethodCall` (webview.cc, `USE_LWE`).  `result` is the result
object the caller hands over; `replies` of the outcome are the calls made on it
before the function returns. -/
def HandleMethodCall {σ : Type} (E : LWE.WebContainer σ) (self : WebView σ)
    (method_call : MethodCall) (result : MethodResult) : Outcome σ :=
  match self.webview_instance_ with
  | none => Outcome.done self
  | some inst =>
    let method_name := method_call.method_name
    let arguments := method_call.arguments
    if method_name = "loadUrl" then
      let url := (ExtractStringFromMap arguments "url").1
      (self.invoke E (LWE.Call.LoadURL url)).andThen
        (fun view => view.reply (Reply.Success EncodableValue.null))
    else if method_name = "updateSettings" then
      match arguments with
      | .map settings =>
        if settings.length > 0 then
          let applied := ApplySettings E self settings
          match applied.fault with
          | some (Fault.invalid_argument what) =>
            { view := applied.view
              replies := applied.replies ++ [Reply.Error what ""]
              calls := applied.calls
              fault := none }
          | _ => applied.andThen (fun view => view.reply (Reply.Success EncodableValue.null))
        else self.reply (Reply.Success EncodableValue.null)
      | _ => self.reply (Reply.Success EncodableValue.null)
    else if method_name = "canGoBack" then
      { view := self
        replies := [Reply.Success (EncodableValue.bool (E.CanGoBack inst))]
        calls := [LWE.Call.CanGoBack], fault := none }
    else if method_name = "canGoForward" then
      { view := self
        replies := [Reply.Success (EncodableValue.bool (E.CanGoForward inst))]
        calls := [LWE.Call.CanGoForward], fault := none }
    else if method_name = "goBack" then
      (self.invoke E LWE.Call.GoBack).andThen
        (fun view => view.reply (Reply.Success EncodableValue.null))
    else if method_name = "goForward" then
      (self.invoke E LWE.Call.GoForward).andThen
        (fun view => view.reply (Reply.Success EncodableValue.null))
    else if method_name = "reload" then
      (self.invoke E LWE.Call.Reload).andThen
        (fun view => view.reply (Reply.Success EncodableValue.null))
    else if method_name = "currentUrl" then
      { view := self
        replies := [Reply.Success (EncodableValue.string (E.GetURL inst))]
        calls := [LWE.Call.GetURL], fault := none }
    else if method_name = "evaluateJavascript" then
      match arguments with
      | .string js_string =>
        let cb : EvaluateJavaScriptCallback := { res := some result }
        self.invoke E (LWE.Call.EvaluateJavaScript js_string cb)
      | _ => self.reply (Reply.Error "Invalid Arguments" "Invalid Arguments")
    else if method_name = "addJavascriptChannels" then
      match arguments with
      | .list name_list =>
        (addJavascriptChannelsLoop E self name_list).andThen
          (fun view => view.reply (Reply.Success EncodableValue.null))
      | _ => self.reply (Reply.Success EncodableValue.null)
    else if method_name = "removeJavascriptChannels" then
      match arguments with
      | .list name_list =>
        (removeJavascriptChannelsLoop E self name_list).andThen
          (fun view => view.reply (Reply.Success EncodableValue.null))
      | _ => self.reply (Reply.Success EncodableValue.null)
    else if method_name = "clearCache" then
      (self.invoke E LWE.Call.ClearCache).andThen
        (fun view => view.reply (Reply.Success EncodableValue.null))
    else if method_name = "getTitle" then
      { view := self
        replies := [Reply.Success (EncodableValue.string (E.GetTitle inst))]
        calls := [LWE.Call.GetTitle], fault := none }
    else if method_name = "scrollTo" then
      let x := (ExtractIntFromMap arguments "x").1
      let y := (ExtractIntFromMap arguments "y").1
      (self.invoke E (LWE.Call.ScrollTo x y)).andThen
        (fun view => view.reply (Reply.Success EncodableValue.null))
    else if method_name = "scrollBy" then
      let x := (ExtractIntFromMap arguments "x").1
      let y := (ExtractIntFromMap arguments "y").1
      (self.invoke E (LWE.Call.ScrollBy x y)).andThen
        (fun view => view.reply (Reply.Success EncodableValue.null))
    else if method_name = "getScrollX" then
      { view := self
        replies := [Reply.Success (EncodableValue.int32 (E.GetScrollX inst))]
        calls := [LWE.Call.GetScrollX], fault := none }
    else if method_name = "getScrollY" then
      { view := self
        replies := [Reply.Success (EncodableValue.int32 (E.GetScrollY inst))]
        calls := [LWE.Call.GetScrollY], fault := none }
    else self.reply Reply.NotImplemented

/-- The method names of the dispatch table of `HandleMethodCall`, as the
specification lists them. -/
def dispatchTable : List String :=
  ["loadUrl", "updateSettings", "canGoBack", "canGoForward", "goBack", "goForward",
   "reload", "currentUrl", "getTitle", "evaluateJavascript", "addJavascriptChannels",
   "removeJavascriptChannels", "clearCache", "scrollTo", "scrollBy", "getScrollX",
   "getScrollY"]

/-- The recognized setting names, as the specification lists them. -/
def recognizedSettings : List String :=
  ["jsMode", "hasNavigationDelegate", "debuggingEnabled", "gestureNavigationEnabled",
   "userAgent"]

/-- A small reference engine used to run the model on concrete inputs: it keeps
the scroll position, the settings, the registered script interfaces and the
last requested url. -/
structure RefEngine where
  url : String
  scroll_x : Int
  scroll_y : Int
  settings : LWE.Settings
  interfaces : List (String × String)
deriving DecidableEq, Repr

/-- Effect of a call on the reference engine. -/
def RefEngine.exec (c : LWE.Call) (e : RefEngine) : RefEngine :=
  match c with
  | .LoadURL url => { e with url := url }
  | .ScrollTo x y => { e with scroll_x := x, scroll_y := y }
  | .ScrollBy x y => { e with scroll_x := e.scroll_x + x, scroll_y := e.scroll_y + y }
  | .SetSettings settings => { e with settings := settings }
  | .AddJavaScriptInterface name method _ =>
    { e with interfaces := (name, method) :: e.interfaces.filter (fun i => i ≠ (name, method)) }
  | .RemoveJavascriptInterface name method =>
    { e with interfaces := e.interfaces.filter (fun i => i ≠ (name, method)) }
  | _ => e

/-- The reference engine as an `LWE.WebContainer`. -/
def refEngine : LWE.WebContainer RefEngine where
  exec := RefEngine.exec
  CanGoBack := fun _ => false
  CanGoForward := fun _ => false
  GetURL := fun e => e.url
  GetTitle := fun _ => ""
  GetScrollX := fun e => e.scroll_x
  GetScrollY := fun e => e.scroll_y
  GetSettings := fun e => e.settings

/-- A freshly created reference engine instance. -/
def RefEngine.init : RefEngine :=
  { url := "about:blank", scroll_x := 0, scroll_y := 0
    settings := { user_agent := "", others := [] }, interfaces := [] }

/-- A live view on the reference engine, as the constructor leaves its flags. -/
def refView : WebView RefEngine :=
  { webview_instance_ := some RefEngine.init
    is_mouse_lbutton_down_ := false
    has_navigation_delegate_ := false }

/-- A view whose engine instance is not null. -/
def WebView.Live {σ : Type} (self : WebView σ) : Prop :=
  ∃ inst, self.webview_instance_ = some inst

/-- An outcome of a helper that made no reply, ended normally and left the
engine instance in place. -/
def Outcome.Quiet {σ : Type} (o : Outcome σ) : Prop :=
  o.replies = [] ∧ o.fault = none ∧ o.view.Live

namespace LWE

/-- A value of `enum LWE::KeyValue`, as the integer the enumerator stands for. -/
abbrev KeyValue := Int

/-- The enumerators of `LWE::KeyValue` that the key mapping names, with their
integer values.  The enum is declared in the engine headers, which are not part
of the plugin sources, so the values are a parameter of the model. -/
structure KeyValues where
  ArrowLeftKey : KeyValue
  ArrowRightKey : KeyValue
  ArrowUpKey : KeyValue
  ArrowDownKey : KeyValue
  SpaceKey : KeyValue
  EnterKey : KeyValue
  TabKey : KeyValue
  BackspaceKey : KeyValue
  EscapeKey : KeyValue
  DeleteKey : KeyValue
  AtMarkKey : KeyValue
  UnderScoreMarkKey : KeyValue
  MinusMarkKey : KeyValue
  PlusMarkKey : KeyValue
  EqualitySignKey : KeyValue
  LeftCurlyBracketMarkKey : KeyValue
  LeftSquareBracketKey : KeyValue
  RightCurlyBracketMarkKey : KeyValue
  RightSquareBracketKey : KeyValue
  ColonMarkKey : KeyValue
  SemiColonMarkKey : KeyValue
  DoubleQuoteMarkKey : KeyValue
  SingleQuoteMarkKey : KeyValue
  LessThanMarkKey : KeyValue
  CommaMarkKey : KeyValue
  GreaterThanSignKey : KeyValue
  PeriodKey : KeyValue
  QuestionMarkKey : KeyValue
  SlashKey : KeyValue
  ExclamationMarkKey : KeyValue
  SharpMarkKey : KeyValue
  DollarMarkKey : KeyValue
  PercentMarkKey : KeyValue
  CaretMarkKey : KeyValue
  AmpersandMarkKey : KeyValue
  AsteriskMarkKey : KeyValue
  LeftParenthesisMarkKey : KeyValue
  RightParenthesisMarkKey : KeyValue
  Digit0Key : KeyValue
  LowerAKey : KeyValue
  AKey : KeyValue
  TVVolumeUpKey : KeyValue
  TVVolumeDownKey : KeyValue
  TVMuteKey : KeyValue
  TVChannelUpKey : KeyValue
  TVChannelDownKey : KeyValue
  MediaTrackPreviousKey : KeyValue
  MediaTrackNextKey : KeyValue
  MediaPauseKey : KeyValue
  MediaRecordKey : KeyValue
  MediaPlayKey : KeyValue
  MediaStopKey : KeyValue
  TVInfoKey : KeyValue
  TVReturnKey : KeyValue
  TVRedKey : KeyValue
  TVGreenKey : KeyValue
  TVYellowKey : KeyValue
  TVBlueKey : KeyValue
  TVMenuKey : KeyValue
  TVHomeKey : KeyValue
  TVExitKey : KeyValue
  TVPreviousChannel : KeyValue
  TVChannelList : KeyValue
  TVChannelGuide : KeyValue
  TVSimpleMenu : KeyValue
  TVEManual : KeyValue
  TVExtraApp : KeyValue
  TVSearch : KeyValue
  TVPictureSize : KeyValue
  TVSleep : KeyValue
  TVCaption : KeyValue
  TVMore : KeyValue
  TVBTVoice : KeyValue
  TVColor : KeyValue
  TVPlayBack : KeyValue
  UnidentifiedKey : KeyValue

/-- An `LWE::ResourceError`, by what its getters `GetErrorCode`,
`GetDescription` and `GetUrl` return. -/
structure ResourceError where
  GetErrorCode : Int
  GetDescription : String
  GetUrl : String

end LWE

/-- The C function `strlen` on a key name: the number of bytes before the
terminator.  A key name is a C string; the Lean string holds those bytes. -/
def strlen (s : String) : Nat :=
  (s.data.map Char.utf8Size).sum

/-- `EcoreEventKeyToKeyValue` of webview.cc.  `strcmp(name, s) == 0` is equality
of the strings.  In the one-byte branch `ch` is the only character; the inner
`if` chain has no final `else`, so a character that is no digit and no letter
reaches the `return` at the end of the function. -/
def EcoreEventKeyToKeyValue (K : LWE.KeyValues) (ecore_key_string : String)
    (is_shift_pressed : Bool) : LWE.KeyValue :=
  if ecore_key_string = "Left" then K.ArrowLeftKey
  else if ecore_key_string = "Right" then K.ArrowRightKey
  else if ecore_key_string = "Up" then K.ArrowUpKey
  else if ecore_key_string = "Down" then K.ArrowDownKey
  else if ecore_key_string = "space" then K.SpaceKey
  else if ecore_key_string = "Return" then K.EnterKey
  else if ecore_key_string = "Tab" then K.TabKey
  else if ecore_key_string = "BackSpace" then K.BackspaceKey
  else if ecore_key_string = "Escape" then K.EscapeKey
  else if ecore_key_string = "Delete" then K.DeleteKey
  else if ecore_key_string = "at" then K.AtMarkKey
  else if ecore_key_string = "minus" then
    if is_shift_pressed then K.UnderScoreMarkKey else K.MinusMarkKey
  else if ecore_key_string = "equal" then
    if is_shift_pressed then K.PlusMarkKey else K.EqualitySignKey
  else if ecore_key_string = "bracketleft" then
    if is_shift_pressed then K.LeftCurlyBracketMarkKey else K.LeftSquareBracketKey
  else if ecore_key_string = "bracketright" then
    if is_shift_pressed then K.RightCurlyBracketMarkKey else K.RightSquareBracketKey
  else if ecore_key_string = "semicolon" then
    if is_shift_pressed then K.ColonMarkKey else K.SemiColonMarkKey
  else if ecore_key_string = "apostrophe" then
    if is_shift_pressed then K.DoubleQuoteMarkKey else K.SingleQuoteMarkKey
  else if ecore_key_string = "comma" then
    if is_shift_pressed then K.LessThanMarkKey else K.CommaMarkKey
  else if ecore_key_string = "period" then
    if is_shift_pressed then K.GreaterThanSignKey else K.PeriodKey
  else if ecore_key_string = "slash" then
    if is_shift_pressed then K.QuestionMarkKey else K.SlashKey
  else if strlen ecore_key_string = 1 then
    let ch : Char := ecore_key_string.data.headD (Char.ofNat 0)
    if '0' ≤ ch ∧ ch ≤ '9' then
      if is_shift_pressed then
        if ch = '1' then K.ExclamationMarkKey
        else if ch = '2' then K.AtMarkKey
        else if ch = '3' then K.SharpMarkKey
        else if ch = '4' then K.DollarMarkKey
        else if ch = '5' then K.PercentMarkKey
        else if ch = '6' then K.CaretMarkKey
        else if ch = '7' then K.AmpersandMarkKey
        else if ch = '8' then K.AsteriskMarkKey
        else if ch = '9' then K.LeftParenthesisMarkKey
        else if ch = '0' then K.RightParenthesisMarkKey
        else K.Digit0Key + (ch.toNat : Int) - ('0'.toNat : Int)
      else K.Digit0Key + (ch.toNat : Int) - ('0'.toNat : Int)
    else if 'a' ≤ ch ∧ ch ≤ 'z' then
      if is_shift_pressed then K.LowerAKey + (ch.toNat : Int) - ('a'.toNat : Int) - 32
      else K.LowerAKey + (ch.toNat : Int) - ('a'.toNat : Int)
    else if 'A' ≤ ch ∧ ch ≤ 'Z' then
      if is_shift_pressed then K.AKey + (ch.toNat : Int) - ('A'.toNat : Int) + 32
      else K.AKey + (ch.toNat : Int) - ('A'.toNat : Int)
    else K.UnidentifiedKey
  else if ecore_key_string = "XF86AudioRaiseVolume" then K.TVVolumeUpKey
  else if ecore_key_string = "XF86AudioLowerVolume" then K.TVVolumeDownKey
  else if ecore_key_string = "XF86AudioMute" then K.TVMuteKey
  else if ecore_key_string = "XF86RaiseChannel" then K.TVChannelUpKey
  else if ecore_key_string = "XF86LowerChannel" then K.TVChannelDownKey
  else if ecore_key_string = "XF86AudioRewind" then K.MediaTrackPreviousKey
  else if ecore_key_string = "XF86AudioNext" then K.MediaTrackNextKey
  else if ecore_key_string = "XF86AudioPause" then K.MediaPauseKey
  else if ecore_key_string = "XF86AudioRecord" then K.MediaRecordKey
  else if ecore_key_string = "XF86AudioPlay" then K.MediaPlayKey
  else if ecore_key_string = "XF86AudioStop" then K.MediaStopKey
  else if ecore_key_string = "XF86Info" then K.TVInfoKey
  else if ecore_key_string = "XF86Back" then K.TVReturnKey
  else if ecore_key_string = "XF86Red" then K.TVRedKey
  else if ecore_key_string = "XF86Green" then K.TVGreenKey
  else if ecore_key_string = "XF86Yellow" then K.TVYellowKey
  else if ecore_key_string = "XF86Blue" then K.TVBlueKey
  else if ecore_key_string = "XF86SysMenu" then K.TVMenuKey
  else if ecore_key_string = "XF86Home" then K.TVHomeKey
  else if ecore_key_string = "XF86Exit" then K.TVExitKey
  else if ecore_key_string = "XF86PreviousChannel" then K.TVPreviousChannel
  else if ecore_key_string = "XF86ChannelList" then K.TVChannelList
  else if ecore_key_string = "XF86ChannelGuide" then K.TVChannelGuide
  else if ecore_key_string = "XF86SimpleMenu" then K.TVSimpleMenu
  else if ecore_key_string = "XF86EManual" then K.TVEManual
  else if ecore_key_string = "XF86ExtraApp" then K.TVExtraApp
  else if ecore_key_string = "XF86Search" then K.TVSearch
  else if ecore_key_string = "XF86PictureSize" then K.TVPictureSize
  else if ecore_key_string = "XF86Sleep" then K.TVSleep
  else if ecore_key_string = "XF86Caption" then K.TVCaption
  else if ecore_key_string = "XF86More" then K.TVMore
  else if ecore_key_string = "XF86BTVoice" then K.TVBTVoice
  else if ecore_key_string = "XF86Color" then K.TVColor
  else if ecore_key_string = "XF86PlayBack" then K.TVPlayBack
  else K.UnidentifiedKey

/-- The key names that `EcoreEventKeyToKeyValue` compares its argument with, in
the order of the source. -/
def enumeratedKeyNames : List String :=
  ["Left", "Right", "Up", "Down", "space",
   "Return", "Tab", "BackSpace", "Escape", "Delete",
   "at", "minus", "equal", "bracketleft", "bracketright",
   "semicolon", "apostrophe", "comma", "period", "slash",
   "XF86AudioRaiseVolume", "XF86AudioLowerVolume", "XF86AudioMute", "XF86RaiseChannel", "XF86LowerChannel",
   "XF86AudioRewind", "XF86AudioNext", "XF86AudioPause", "XF86AudioRecord", "XF86AudioPlay",
   "XF86AudioStop", "XF86Info", "XF86Back", "XF86Red", "XF86Green",
   "XF86Yellow", "XF86Blue", "XF86SysMenu", "XF86Home", "XF86Exit",
   "XF86PreviousChannel", "XF86ChannelList", "XF86ChannelGuide", "XF86SimpleMenu", "XF86EManual",
   "XF86ExtraApp", "XF86Search", "XF86PictureSize", "XF86Sleep", "XF86Caption",
   "XF86More", "XF86BTVoice", "XF86Color", "XF86PlayBack"]

/-- A sample table of key codes for running the model on concrete inputs: digits
and letters at their ASCII codes, every other key numbered from 1000 in the
order of first appearance in the source. -/
def refKeyValues : LWE.KeyValues where
  ArrowLeftKey := 1000
  ArrowRightKey := 1001
  ArrowUpKey := 1002
  ArrowDownKey := 1003
  SpaceKey := 1004
  EnterKey := 1005
  TabKey := 1006
  BackspaceKey := 1007
  EscapeKey := 1008
  DeleteKey := 1009
  AtMarkKey := 1010
  UnderScoreMarkKey := 1011
  MinusMarkKey := 1012
  PlusMarkKey := 1013
  EqualitySignKey := 1014
  LeftCurlyBracketMarkKey := 1015
  LeftSquareBracketKey := 1016
  RightCurlyBracketMarkKey := 1017
  RightSquareBracketKey := 1018
  ColonMarkKey := 1019
  SemiColonMarkKey := 1020
  DoubleQuoteMarkKey := 1021
  SingleQuoteMarkKey := 1022
  LessThanMarkKey := 1023
  CommaMarkKey := 1024
  GreaterThanSignKey := 1025
  PeriodKey := 1026
  QuestionMarkKey := 1027
  SlashKey := 1028
  ExclamationMarkKey := 1029
  SharpMarkKey := 1030
  DollarMarkKey := 1031
  PercentMarkKey := 1032
  CaretMarkKey := 1033
  AmpersandMarkKey := 1034
  AsteriskMarkKey := 1035
  LeftParenthesisMarkKey := 1036
  RightParenthesisMarkKey := 1037
  Digit0Key := 48
  LowerAKey := 97
  AKey := 65
  TVVolumeUpKey := 1041
  TVVolumeDownKey := 1042
  TVMuteKey := 1043
  TVChannelUpKey := 1044
  TVChannelDownKey := 1045
  MediaTrackPreviousKey := 1046
  MediaTrackNextKey := 1047
  MediaPauseKey := 1048
  MediaRecordKey := 1049
  MediaPlayKey := 1050
  MediaStopKey := 1051
  TVInfoKey := 1052
  TVReturnKey := 1053
  TVRedKey := 1054
  TVGreenKey := 1055
  TVYellowKey := 1056
  TVBlueKey := 1057
  TVMenuKey := 1058
  TVHomeKey := 1059
  TVExitKey := 1060
  TVPreviousChannel := 1061
  TVChannelList := 1062
  TVChannelGuide := 1063
  TVSimpleMenu := 1064
  TVEManual := 1065
  TVExtraApp := 1066
  TVSearch := 1067
  TVPictureSize := 1068
  TVSleep := 1069
  TVCaption := 1070
  TVMore := 1071
  TVBTVoice := 1072
  TVColor := 1073
  TVPlayBack := 1074
  UnidentifiedKey := 1075

/-- `WebView::Dispose`: the texture is unregistered, then a non-null engine
instance is destroyed and the pointer is set to null. -/
def Dispose {σ : Type} (E : LWE.WebContainer σ) (self : WebView σ) : Outcome σ :=
  let unregistered : Outcome σ :=
    { view := self, replies := [], calls := [], fault := none
      platform := [PlatformCall.FlutterUnregisterExternalTexture] }
  unregistered.andThen (fun view =>
    match view.webview_instance_ with
    | some _ =>
      (view.invoke E LWE.Call.Destroy).andThen
        (fun view => Outcome.done { view with webview_instance_ := none })
    | none => Outcome.done view)

/-- The things that happen to a view over time: Dart calls a method, the host
disposes the view, or the engine invokes a completion callback it was handed by
`EvaluateJavaScript`. -/
inductive Event where
  | methodCall (method_call : MethodCall) (result : MethodResult)
  | dispose
  | completion (cb : EvaluateJavaScriptCallback) (value : String)

/-- A view together with everything observable it has done so far: the replies
delivered, each with the result object it was delivered on, the engine calls
and the embedder calls. -/
structure Session (σ : Type) where
  view : WebView σ
  delivered : List (MethodResult × Reply)
  calls : List LWE.Call
  platform : List PlatformCall

/-- A session that starts at `view` with nothing done yet. -/
def Session.start {σ : Type} (view : WebView σ) : Session σ :=
  { view := view, delivered := [], calls := [], platform := [] }

/-- One event of a session. -/
def Session.step {σ : Type} (E : LWE.WebContainer σ) (s : Session σ) : Event → Session σ
  | .methodCall method_call result =>
    let o := HandleMethodCall E s.view method_call result
    { view := o.view
      delivered := s.delivered ++ o.replies.map (fun r => (result, r))
      calls := s.calls ++ o.calls
      platform := s.platform ++ o.platform }
  | .dispose =>
    let o := Dispose E s.view
    { view := o.view
      delivered := s.delivered
      calls := s.calls ++ o.calls
      platform := s.platform ++ o.platform }
  | .completion cb value =>
    { s with delivered := s.delivered ++ (cb.call value).toList }

/-- A sequence of events, in order. -/
def Session.run {σ : Type} (E : LWE.WebContainer σ) (s : Session σ) (events : List Event) :
    Session σ :=
  events.foldl (Session.step E) s

/-- The enumerators of `enum RequestErrorType` of webview.cc with the values
the C++ enum gives them, counting from 0. -/
inductive RequestErrorType where
  | NoError
  | UnknownError
  | HostLookupError
  | UnsupportedAuthSchemeError
  | AuthenticationError
  | ProxyAuthenticationError
  | ConnectError
  | IOError
  | TimeoutError
  | RedirectLoopError
  | UnsupportedSchemeError
  | FailedSSLHandshakeError
  | BadURLError
  | FileError
  | FileNotFoundError
  | TooManyRequestError
deriving DecidableEq, Repr

/-- The integer value of an enumerator: its position in the declaration. -/
def RequestErrorType.value (t : RequestErrorType) : Int :=
  (t.toCtorIdx : Int)

/-- `ErrorCodeToString` of webview.cc: the `switch` over the enumerators in the
order of the source, then the throw of `std::invalid_argument`. -/
def ErrorCodeToString (error_code : Int) : Except Fault String :=
  if error_code = RequestErrorType.AuthenticationError.value then .ok "authentication"
  else if error_code = RequestErrorType.BadURLError.value then .ok "badUrl"
  else if error_code = RequestErrorType.ConnectError.value then .ok "connect"
  else if error_code = RequestErrorType.FailedSSLHandshakeError.value then
    .ok "failedSslHandshake"
  else if error_code = RequestErrorType.FileError.value then .ok "file"
  else if error_code = RequestErrorType.FileNotFoundError.value then .ok "fileNotFound"
  else if error_code = RequestErrorType.HostLookupError.value then .ok "hostLookup"
  else if error_code = RequestErrorType.IOError.value then .ok "io"
  else if error_code = RequestErrorType.ProxyAuthenticationError.value then
    .ok "proxyAuthentication"
  else if error_code = RequestErrorType.RedirectLoopError.value then .ok "redirectLoop"
  else if error_code = RequestErrorType.TimeoutError.value then .ok "timeout"
  else if error_code = RequestErrorType.TooManyRequestError.value then .ok "tooManyRequests"
  else if error_code = RequestErrorType.UnknownError.value then .ok "unknown"
  else if error_code = RequestErrorType.UnsupportedAuthSchemeError.value then
    .ok "unsupportedAuthScheme"
  else if error_code = RequestErrorType.UnsupportedSchemeError.value then
    .ok "unsupportedScheme"
  else
    let message := "Could not find a string for errorCode: " ++ toString error_code
    .error (Fault.invalid_argument message)

/-- `NavigationRequestResult::LoadUrl`. -/
def NavigationRequestResult.LoadUrl {σ : Type} (E : LWE.WebContainer σ)
    (self : NavigationRequestResult) (webview : WebView σ) : Outcome σ :=
  if self.webview_ then
    match webview.webview_instance_ with
    | some _ => webview.invoke E (LWE.Call.LoadURL self.url_)
    | none => Outcome.done webview
  else Outcome.done webview

/-- `NavigationRequestResult::SuccessInternal(const T* should_load)`; `none` is
a null pointer, which the function dereferences. -/
def NavigationRequestResult.SuccessInternal {σ : Type} (E : LWE.WebContainer σ)
    (self : NavigationRequestResult) (webview : WebView σ)
    (should_load : Option EncodableValue) : Outcome σ :=
  match should_load with
  | none =>
    { view := webview, replies := [], calls := [], fault := some Fault.null_dereference }
  | some (.bool b) =>
    if b then self.LoadUrl E webview else Outcome.done webview
  | some _ => Outcome.done webview

/-- What a handler registered with the engine did when the engine invoked it:
the method invocations sent to Dart, and the value it returned or the exception
that left it. -/
structure Emitted (α : Type) where
  outbound : List OutboundCall
  result : Except Fault α

/-- The lambda given to `RegisterOnPageStartedHandler` in the constructor. -/
def OnPageStartedHandler (url : String) : Emitted Unit :=
  let map : EncodableMap := []
  let map := EncodableMap.insert map "url" (EncodableValue.string url)
  { outbound := [{ method := "onPageStarted", arguments := EncodableValue.map map }]
    result := .ok () }

/-- The lambda given to `RegisterOnPageLoadedHandler` in the constructor. -/
def OnPageLoadedHandler (url : String) : Emitted Unit :=
  let map : EncodableMap := []
  let map := EncodableMap.insert map "url" (EncodableValue.string url)
  { outbound := [{ method := "onPageFinished", arguments := EncodableValue.map map }]
    result := .ok () }

/-- The lambda given to `RegisterOnReceivedErrorHandler` in the constructor.  A
throw of `ErrorCodeToString` leaves the lambda before `InvokeMethod`. -/
def OnReceivedErrorHandler (e : LWE.ResourceError) : Emitted Unit :=
  let map : EncodableMap := []
  let map := EncodableMap.insert map "errorCode" (EncodableValue.int32 e.GetErrorCode)
  let map := EncodableMap.insert map "description" (EncodableValue.string e.GetDescription)
  match ErrorCodeToString e.GetErrorCode with
  | .error fault => { outbound := [], result := .error fault }
  | .ok error_type =>
    let map := EncodableMap.insert map "errorType" (EncodableValue.string error_type)
    let map := EncodableMap.insert map "failingUrl" (EncodableValue.string e.GetUrl)
    { outbound := [{ method := "onWebResourceError", arguments := EncodableValue.map map }]
      result := .ok () }

/-- The lambda given to `RegisterShouldOverrideUrlLoadingHandler` in the
constructor; `self` is the captured `this`. -/
def ShouldOverrideUrlLoadingHandler {σ : Type} (self : WebView σ) (url : String) :
    Emitted Bool :=
  if !self.has_navigation_delegate_ then { outbound := [], result := .ok false }
  else
    let map : EncodableMap := []
    let map := EncodableMap.insert map "url" (EncodableValue.string url)
    let map := EncodableMap.insert map "isForMainFrame" (EncodableValue.bool true)
    let on_result : NavigationRequestResult := { url_ := url, webview_ := true }
    { outbound :=
        [{ method := "navigationRequest", arguments := EncodableValue.map map
           on_result := some on_result }]
      result := .ok true }

/-- The string elements of an `EncodableList`, in order: the elements for which
`std::holds_alternative<std::string>` holds. -/
def stringElements : EncodableList → List String
  | [] => []
  | .string s :: rest => s :: stringElements rest
  | _ :: rest => stringElements rest

/-- `WebView::HandleCookieMethodCall` (webview.cc, `USE_LWE`). -/
def HandleCookieMethodCall {σ : Type} (self : WebView σ) (method_call : MethodCall)
    (_result : MethodResult) : Outcome σ :=
  match self.webview_instance_ with
  | none => self.reply (Reply.Error "Not Webview created" "")
  | some _ =>
    let method_name := method_call.method_name
    if method_name = "clearCookies" then
      { view := self
        replies := [Reply.Success (EncodableValue.bool true)]
        calls := [], fault := none
        platform := [PlatformCall.ClearCookies] }
    else self.reply Reply.NotImplemented

/-- The destructor `WebView::~WebView()`, whose body is `Dispose();`. -/
def WebView_destructor {σ : Type} (E : LWE.WebContainer σ) (self : WebView σ) : Outcome σ :=
  Dispose E self

/-- The arguments of one call of `WebView::Touch`. -/
structure TouchEvent where
  type : Int
  button : Int
  x : Double
  y : Double
  dx : Double
  dy : Double

/-- `WebView::Touch` (webview.cc, `USE_LWE`). -/
def Touch {σ : Type} (E : LWE.WebContainer σ) (self : WebView σ) (type : Int) (_button : Int)
    (x y : Double) (_dx _dy : Double) : Outcome σ :=
  if type = 0 then
    (self.invoke E
      (LWE.Call.DispatchMouseDownEvent LWE.MouseButtonValue.LeftButton
        LWE.MouseButtonsValue.LeftButtonDown x y)).andThen
      (fun view => Outcome.done { view with is_mouse_lbutton_down_ := true })
  else if type = 1 then
    self.invoke E
      (LWE.Call.DispatchMouseMoveEvent
        (if self.is_mouse_lbutton_down_ then LWE.MouseButtonValue.LeftButton
          else LWE.MouseButtonValue.NoButton)
        (if self.is_mouse_lbutton_down_ then LWE.MouseButtonsValue.LeftButtonDown
          else LWE.MouseButtonsValue.NoButtonDown)
        x y)
  else if type = 2 then
    (self.invoke E
      (LWE.Call.DispatchMouseUpEvent LWE.MouseButtonValue.NoButton
        LWE.MouseButtonsValue.NoButtonDown x y)).andThen
      (fun view => Outcome.done { view with is_mouse_lbutton_down_ := false })
  else Outcome.done self

/-- A sequence of `Touch` calls on the same view, in order. -/
def touchAll {σ : Type} (E : LWE.WebContainer σ) (self : WebView σ) :
    List TouchEvent → Outcome σ
  | [] => Outcome.done self
  | e :: rest =>
    (Touch E self e.type e.button e.x e.y e.dx e.dy).andThen
      (fun view => touchAll E view rest)

/-- Whether the most recent event of type 0 (down) or 2 (up) in a sequence of
event types was a down event; `initial` when there was none. -/
def lastButtonEventIsDown (initial : Bool) (types : List Int) : Bool :=
  match types.reverse.find? (fun t => t = 0 ∨ t = 2) with
  | some t => decide (t = 0)
  | none => initial

/-- The fields of an `Ecore_Event_Key` that the plugin reads. -/
structure Ecore_Event_Key where
  keyname : String
  modifiers : Nat

/-- `WebView::HidePanel`. -/
def HidePanel {σ : Type} (self : WebView σ) : Outcome σ :=
  if !self.context_ then Outcome.done self
  else
    { view := self, replies := [], calls := [], fault := none
      platform :=
        [PlatformCall.ecore_imf_context_reset, PlatformCall.ecore_imf_context_focus_out,
         PlatformCall.ecore_imf_context_input_panel_hide] }

/-- `WebView::DispatchKeyDownEvent`.  `key_event->modifiers & 1` is the low bit
of the modifiers. -/
def DispatchKeyDownEvent {σ : Type} (K : LWE.KeyValues) (E : LWE.WebContainer σ)
    (self : WebView σ) (key_event : Ecore_Event_Key) : Outcome σ :=
  let key_name := key_event.keyname
  if !self.is_focused_ then Outcome.done self
  else
    let special : Outcome σ :=
      if key_name = "XF86Exit" ∨ key_name = "Select" ∨ key_name = "Cancel" then
        if key_name = "Select" then
          self.invoke E (LWE.Call.AddIdleCallback IdleCallback.selectKey)
        else self.invoke E (LWE.Call.AddIdleCallback IdleCallback.hidePanel)
      else Outcome.done self
    special.andThen (fun view =>
      let key_value :=
        EcoreEventKeyToKeyValue K key_name (decide (key_event.modifiers % 2 = 1))
      view.invoke E (LWE.Call.AddIdleCallback (IdleCallback.keyDown key_value)))

/-- `WebView::DispatchKeyUpEvent`. -/
def DispatchKeyUpEvent {σ : Type} (K : LWE.KeyValues) (E : LWE.WebContainer σ)
    (self : WebView σ) (key_event : Ecore_Event_Key) : Outcome σ :=
  let key_name := key_event.keyname
  if !self.is_focused_ then Outcome.done self
  else
    let key_value :=
      EcoreEventKeyToKeyValue K key_name (decide (key_event.modifiers % 2 = 1))
    self.invoke E (LWE.Call.AddIdleCallback (IdleCallback.keyUp key_value))

/-- What an idle callback does when the engine runs it: the bodies of the four
lambdas.  The engine instance is reached through the view. -/
def IdleCallback.run {σ : Type} (K : LWE.KeyValues) (E : LWE.WebContainer σ)
    (view : WebView σ) : IdleCallback → Outcome σ
  | .selectKey =>
    let kv := K.EnterKey
    (view.invoke E (LWE.Call.DispatchKeyDownEvent kv)).andThen (fun view =>
      (view.invoke E (LWE.Call.DispatchKeyPressEvent kv)).andThen (fun view =>
        (view.invoke E (LWE.Call.DispatchKeyUpEvent kv)).andThen (fun view =>
          HidePanel view)))
  | .hidePanel => HidePanel view
  | .keyDown key_value =>
    (view.invoke E (LWE.Call.DispatchKeyDownEvent key_value)).andThen (fun view =>
      view.invoke E (LWE.Call.DispatchKeyPressEvent key_value))
  | .keyUp key_value => view.invoke E (LWE.Call.DispatchKeyUpEvent key_value)

/-- The channel names registered with the reference engine: the names that have
a `postMessage` interface. -/
def RefEngine.channelNames (e : RefEngine) : Finset String :=
  ((e.interfaces.filter (fun i => i.2 = "postMessage")).map (fun i => i.1)).toFinset

/-- The values of the enumerators `CameraDeviceState::kPreview` and
`CameraDeviceType::kFront`.  Both enums are declared in camera_device.h, which
is not among the sources, so the values are a parameter; `state_` and `type_`
hold such values. -/
structure CameraEnums where
  kPreview : Int
  kFront : Int

/-- A camera handle (`camera_h`) as returned by `camera_create`. -/
structure CameraHandle where
  id : Nat
deriving DecidableEq, Repr

/-- The behaviour of the camera framework of the platform, whose state is `κ`.
Every function gets the handle it is called with (`none` is a null handle).
The getters give the value that the caller's out-parameter holds after the
call; `camera_stop_preview` tells whether it returned `CAMERA_ERROR_NONE`.
Errors of the other calls are only logged. -/
structure CameraApi (κ : Type) where
  camera_get_device_count : Option CameraHandle → κ → Int
  camera_attr_get_lens_orientation : Option CameraHandle → κ → Int
  camera_get_state : Option CameraHandle → κ → Int
  camera_change_device : Option CameraHandle → Int → κ → κ
  camera_stop_preview : Option CameraHandle → κ → Bool × κ
  camera_unset_media_packet_preview_cb : Option CameraHandle → κ → κ
  camera_destroy : CameraHandle → κ → κ

/-- The calls that `CameraDevice` makes to the camera framework, to its
orientation manager and to the Flutter embedder. -/
inductive CameraCall where
  | camera_get_device_count
  | camera_attr_get_lens_orientation
  | camera_get_state
  | camera_change_device (type : Int)
  | camera_stop_preview
  | camera_unset_media_packet_preview_cb
  | camera_destroy (handle : CameraHandle)
  | OrientationManager_Stop
  | FlutterUnregisterExternalTexture (texture_id : Int)
deriving DecidableEq, Repr

/-- Whether a call is `camera_destroy`. -/
def CameraCall.isDestroy : CameraCall → Bool
  | .camera_destroy _ => true
  | _ => false

/-- Whether a call is `FlutterUnregisterExternalTexture`. -/
def CameraCall.isUnregister : CameraCall → Bool
  | .FlutterUnregisterExternalTexture _ => true
  | _ => false

/-- The data members of `class CameraDevice` that `Dispose` and
`GetAvailableCameras` read or write.  `texture_registrar_` and
`orientation_manager_` tell whether the pointer is non-null. -/
structure CameraDevice where
  handle_ : Option CameraHandle
  state_ : Int
  type_ : Int
  texture_registrar_ : Bool
  texture_id_ : Int
  orientation_manager_ : Bool
deriving DecidableEq, Repr

/-- What running a member function of `CameraDevice` did: the object and the
camera framework afterwards, the calls made, in order, and the returned
value. -/
structure CameraOutcome (κ : Type) (α : Type) where
  device : CameraDevice
  world : κ
  calls : List CameraCall
  ret : α

namespace CameraDevice

/-- `CameraDevice::GetState`. -/
def GetState {κ : Type} (C : CameraApi κ) (self : CameraDevice) (w : κ) :
    CameraOutcome κ Int :=
  { device := self, world := w, calls := [CameraCall.camera_get_state]
    ret := C.camera_get_state self.handle_ w }

/-- `CameraDevice::GetDeviceCount`. -/
def GetDeviceCount {κ : Type} (C : CameraApi κ) (self : CameraDevice) (w : κ) :
    CameraOutcome κ Int :=
  { device := self, world := w, calls := [CameraCall.camera_get_device_count]
    ret := C.camera_get_device_count self.handle_ w }

/-- `CameraDevice::GetLensOrientation`. -/
def GetLensOrientation {κ : Type} (C : CameraApi κ) (self : CameraDevice) (w : κ) :
    CameraOutcome κ Int :=
  { device := self, world := w, calls := [CameraCall.camera_attr_get_lens_orientation]
    ret := C.camera_attr_get_lens_orientation self.handle_ w }

/-- `CameraDevice::ChangeCameraDeviceType`. -/
def ChangeCameraDeviceType {κ : Type} (C : CameraApi κ) (self : CameraDevice) (w : κ)
    (type : Int) : CameraOutcome κ Unit :=
  { device := { self with type_ := type }
    world := C.camera_change_device self.handle_ type w
    calls := [CameraCall.camera_change_device type], ret := () }

/-- `CameraDevice::StopPreview`: on an error of `camera_stop_preview` the
function returns false before `state_` is refreshed. -/
def StopPreview {κ : Type} (C : CameraApi κ) (self : CameraDevice) (w : κ) :
    CameraOutcome κ Bool :=
  let stopped := C.camera_stop_preview self.handle_ w
  if !stopped.1 then
    { device := self, world := stopped.2, calls := [CameraCall.camera_stop_preview]
      ret := false }
  else
    let state := self.GetState C stopped.2
    { device := { self with state_ := state.ret }, world := state.world
      calls := CameraCall.camera_stop_preview :: state.calls, ret := true }

/-- `CameraDevice::UnsetMediaPacketPreviewCb`; the returned flag is not used by
`Dispose`. -/
def UnsetMediaPacketPreviewCb {κ : Type} (C : CameraApi κ) (self : CameraDevice) (w : κ) :
    CameraOutcome κ Unit :=
  { device := self, world := C.camera_unset_media_packet_preview_cb self.handle_ w
    calls := [CameraCall.camera_unset_media_packet_preview_cb], ret := () }

/-- `CameraDevice::DestroyCameraHandle`. -/
def DestroyCameraHandle {κ : Type} (C : CameraApi κ) (self : CameraDevice) (w : κ) :
    CameraOutcome κ Unit :=
  match self.handle_ with
  | some handle =>
    { device := { self with handle_ := none }, world := C.camera_destroy handle w
      calls := [CameraCall.camera_destroy handle], ret := () }
  | none => { device := self, world := w, calls := [], ret := () }

/-- `CameraDevice::Dispose`. -/
def Dispose {κ : Type} (N : CameraEnums) (C : CameraApi κ) (self : CameraDevice) (w : κ) :
    CameraOutcome κ Unit :=
  let preview : CameraOutcome κ Unit :=
    if self.state_ = N.kPreview then
      let stopped := self.StopPreview C w
      let unset := stopped.device.UnsetMediaPacketPreviewCb C stopped.world
      { device := unset.device, world := unset.world
        calls := stopped.calls ++ unset.calls, ret := () }
    else { device := self, world := w, calls := [], ret := () }
  let destroyed := preview.device.DestroyCameraHandle C preview.world
  let orientation : List CameraCall :=
    if destroyed.device.orientation_manager_ then [CameraCall.OrientationManager_Stop]
    else []
  if destroyed.device.texture_registrar_ then
    { device := { destroyed.device with texture_registrar_ := false }
      world := destroyed.world
      calls := preview.calls ++ destroyed.calls ++ orientation ++
        [CameraCall.FlutterUnregisterExternalTexture destroyed.device.texture_id_]
      ret := () }
  else
    { device := destroyed.device, world := destroyed.world
      calls := preview.calls ++ destroyed.calls ++ orientation, ret := () }

/-- The first statement of `Dispose`, the `if (state_ == CameraDeviceState::kPreview)`
block, as one outcome. -/
def Dispose.preview {κ : Type} (N : CameraEnums) (C : CameraApi κ)
    (self : CameraDevice) (w : κ) : CameraOutcome κ Unit :=
  if self.state_ = N.kPreview then
    { device := ((self.StopPreview C w).device.UnsetMediaPacketPreviewCb C
        (self.StopPreview C w).world).device
      world := ((self.StopPreview C w).device.UnsetMediaPacketPreviewCb C
        (self.StopPreview C w).world).world
      calls := (self.StopPreview C w).calls ++
        ((self.StopPreview C w).device.UnsetMediaPacketPreviewCb C
          (self.StopPreview C w).world).calls
      ret := () }
  else { device := self, world := w, calls := [], ret := () }

/-- The given number of calls of `Dispose` in a row; the destructor
`~CameraDevice()` is one more such call. -/
def disposeTimes {κ : Type} (N : CameraEnums) (C : CameraApi κ) :
    Nat → CameraDevice → κ → CameraOutcome κ Unit
  | 0, self, w => { device := self, world := w, calls := [], ret := () }
  | n + 1, self, w =>
    let first := self.Dispose N C w
    let rest := disposeTimes N C n first.device first.world
    { device := rest.device, world := rest.world, calls := first.calls ++ rest.calls
      ret := () }

/-- The body of the `for` loop of `GetAvailableCameras`, run `remaining` times
from the index `i`. -/
def GetAvailableCameras.loop {κ : Type} (N : CameraEnums) (C : CameraApi κ) :
    Nat → Nat → CameraDevice → κ → List EncodableValue
  | 0, _, _, _ => []
  | remaining + 1, i, default_camera, w =>
    let camera : EncodableMap := []
    let camera := EncodableMap.assign camera "name"
      (EncodableValue.string ("camera" ++ toString (i + 1)))
    let angle := default_camera.GetLensOrientation C w
    let camera := EncodableMap.assign camera "sensorOrientation" (EncodableValue.int32 angle.ret)
    let lensFacing := if i = 0 then "back" else "front"
    let camera := EncodableMap.assign camera "lensFacing" (EncodableValue.string lensFacing)
    let changed := angle.device.ChangeCameraDeviceType C angle.world N.kFront
    EncodableValue.map camera ::
      GetAvailableCameras.loop N C remaining (i + 1) changed.device changed.world

/-- `CameraDevice::GetAvailableCameras`.  `default_camera` and `w` are the
local object `default_camera` and the camera framework right after its
construction.  The loop `for (int i = 0; i < count; i++)` runs `count` times
for a positive count and not at all otherwise. -/
def GetAvailableCameras {κ : Type} (N : CameraEnums) (C : CameraApi κ)
    (default_camera : CameraDevice) (w : κ) : EncodableValue :=
  let count := default_camera.GetDeviceCount C w
  EncodableValue.list
    (GetAvailableCameras.loop N C count.ret.toNat 0 count.device count.world)

end CameraDevice

/-- A sample camera framework for running the model on concrete inputs: two
cameras, lens orientation 90, and a counter of the calls that change it. -/
def refCameraApi : CameraApi Nat where
  camera_get_device_count := fun _ _ => 2
  camera_attr_get_lens_orientation := fun _ _ => 90
  camera_get_state := fun _ _ => 1
  camera_change_device := fun _ _ w => w + 1
  camera_stop_preview := fun _ w => (true, w + 1)
  camera_unset_media_packet_preview_cb := fun _ w => w + 1
  camera_destroy := fun _ w => w + 1

/-- Sample enumerator values for running the model. -/
def refCameraEnums : CameraEnums :=
  { kPreview := 3, kFront := 1 }

/-- A sample camera object in preview with a handle, a texture and an
orientation manager. -/
def refCameraDevice : CameraDevice :=
  { handle_ := some ⟨1⟩, state_ := 3, type_ := 0, texture_registrar_ := true
    texture_id_ := 5, orientation_manager_ := true }

/-- The functions of EWebKit that the WebKit branch of webview.cc (the `#else`
branch of `#if defined(USE_LWE)`) calls on `webview_instance_` from its
dispatcher.  `ewk_view_script_execute` is always given the callback
`&WebView::OnEvaluateJavaScript` with a null user data pointer, and
`ewk_view_javascript_message_handler_add` the callback
`&WebView::OnJavaScriptMessage`. -/
inductive EWK.Call where
  | ewk_view_url_set (url : String)
  | ewk_view_back_possible
  | ewk_view_forward_possible
  | ewk_view_back
  | ewk_view_forward
  | ewk_view_reload
  | ewk_view_url_get
  | ewk_view_title_get
  | ewk_view_script_execute (script : String)
  | ewk_view_javascript_message_handler_add (name : String)
  | ewk_view_scroll_set (x : Int) (y : Int)
  | ewk_view_scroll_by (x : Int) (y : Int)
deriving DecidableEq, Repr

/-- The behaviour of EWebKit on a view object of state `τ`: `exec` is the
effect of a call, the other fields are what the getters return for an existing
view object (`Eina_Bool` is an `unsigned char`; the strings are the C strings
the returned pointers refer to). -/
structure EWK.Api (τ : Type) where
  exec : EWK.Call → τ → τ
  ewk_view_back_possible : τ → Int
  ewk_view_forward_possible : τ → Int
  ewk_view_url_get : τ → String
  ewk_view_title_get : τ → String

/-- The fields of `class WebView` in the WebKit branch that its dispatcher
reads or writes; `webview_instance_` is the `Evas_Object*`. -/
structure EWK.WebView (τ : Type) where
  webview_instance_ : Option τ
  has_navigation_delegate_ : Bool

/-- What running a member function of the WebKit `WebView` did. -/
structure EWK.Outcome (τ : Type) where
  view : EWK.WebView τ
  replies : List Reply
  calls : List EWK.Call
  fault : Option Fault

/-- Normal return without any effect. -/
def EWK.Outcome.done {τ : Type} (view : EWK.WebView τ) : EWK.Outcome τ :=
  { view := view, replies := [], calls := [], fault := none }

/-- Sequencing of statements, as `Outcome.andThen`. -/
def EWK.Outcome.andThen {τ : Type} (o : EWK.Outcome τ)
    (k : EWK.WebView τ → EWK.Outcome τ) : EWK.Outcome τ :=
  match o.fault with
  | some _ => o
  | none =>
    let o2 := k o.view
    { view := o2.view, replies := o.replies ++ o2.replies,
      calls := o.calls ++ o2.calls, fault := o2.fault }

/-- A call `ewk_view_...(webview_instance_, ...)` on the view object the
dispatcher has checked to be non-null. -/
def EWK.WebView.invoke {τ : Type} (W : EWK.Api τ) (self : EWK.WebView τ) (c : EWK.Call) :
    EWK.Outcome τ :=
  { view := { self with webview_instance_ := self.webview_instance_.map (W.exec c) }
    replies := [], calls := [c], fault := none }

/-- A call on `result` as the last statement of a branch. -/
def EWK.WebView.reply {τ : Type} (self : EWK.WebView τ) (r : Reply) : EWK.Outcome τ :=
  { view := self, replies := [r], calls := [], fault := none }

/-- One iteration of the `for` loop of `WebView::ApplySettings` of the WebKit
branch: the body of the `userAgent` case is commented out there. -/
def EWK.ApplySettings.entry {τ : Type} (self : EWK.WebView τ)
    (key val : EncodableValue) : EWK.Outcome τ :=
  match key with
  | .string k =>
    if k = "jsMode" then EWK.Outcome.done self
    else if k = "hasNavigationDelegate" then
      match val with
      | .bool b => EWK.Outcome.done { self with has_navigation_delegate_ := b }
      | _ => EWK.Outcome.done self
    else if k = "debuggingEnabled" then EWK.Outcome.done self
    else if k = "gestureNavigationEnabled" then EWK.Outcome.done self
    else if k = "userAgent" then
      match val with
      | .string _ => EWK.Outcome.done self
      | _ => EWK.Outcome.done self
    else
      { view := self, replies := [], calls := []
        fault := some (Fault.invalid_argument ("Unknown WebView setting: " ++ k)) }
  | _ => EWK.Outcome.done self

/-- `WebView::ApplySettings` of the WebKit branch. -/
def EWK.ApplySettings {τ : Type} (self : EWK.WebView τ) : EncodableMap → EWK.Outcome τ
  | [] => EWK.Outcome.done self
  | (key, val) :: rest =>
    (EWK.ApplySettings.entry self key val).andThen
      (fun view => EWK.ApplySettings view rest)

/-- `WebView::RegisterJavaScriptChannelName` of the WebKit branch. -/
def EWK.RegisterJavaScriptChannelName {τ : Type} (W : EWK.Api τ) (self : EWK.WebView τ)
    (name : String) : EWK.Outcome τ :=
  self.invoke W (EWK.Call.ewk_view_javascript_message_handler_add name)

/-- The `for` loop of the `addJavascriptChannels` branch over `name_list`. -/
def EWK.addJavascriptChannelsLoop {τ : Type} (W : EWK.Api τ) (self : EWK.WebView τ) :
    EncodableList → EWK.Outcome τ
  | [] => EWK.Outcome.done self
  | .string name :: rest =>
    (EWK.RegisterJavaScriptChannelName W self name).andThen
      (fun view => EWK.addJavascriptChannelsLoop W view rest)
  | _ :: rest => EWK.addJavascriptChannelsLoop W self rest

/-- `WebView::OnEvaluateJavaScript` of the WebKit branch, the completion callback
given to `ewk_view_script_execute`: its body is empty, so no result object gets
a reply whatever the script's value is. -/
def EWK.OnEvaluateJavaScript (_result : String) : Option (MethodResult × Reply) :=
  none

/-- `WebView::HandleMethodCall` of the WebKit branch. -/
def EWK.HandleMethodCall {τ : Type} (W : EWK.Api τ) (self : EWK.WebView τ)
    (method_call : MethodCall) (_result : MethodResult) : EWK.Outcome τ :=
  match self.webview_instance_ with
  | none => EWK.Outcome.done self
  | some obj =>
    let method_name := method_call.method_name
    let arguments := method_call.arguments
    if method_name = "loadUrl" then
      let url := (ExtractStringFromMap arguments "url").1
      (self.invoke W (EWK.Call.ewk_view_url_set url)).andThen
        (fun view => view.reply (Reply.Success EncodableValue.null))
    else if method_name = "updateSettings" then
      match arguments with
      | .map settings =>
        if settings.length > 0 then
          let applied := EWK.ApplySettings self settings
          match applied.fault with
          | some (Fault.invalid_argument what) =>
            { view := applied.view
              replies := applied.replies ++ [Reply.Error what ""]
              calls := applied.calls
              fault := none }
          | _ => applied.andThen (fun view => view.reply (Reply.Success EncodableValue.null))
        else self.reply (Reply.Success EncodableValue.null)
      | _ => self.reply (Reply.Success EncodableValue.null)
    else if method_name = "canGoBack" then
      { view := self
        replies := [Reply.Success (EncodableValue.int32 (W.ewk_view_back_possible obj))]
        calls := [EWK.Call.ewk_view_back_possible], fault := none }
    else if method_name = "canGoForward" then
      { view := self
        replies := [Reply.Success (EncodableValue.int32 (W.ewk_view_forward_possible obj))]
        calls := [EWK.Call.ewk_view_forward_possible], fault := none }
    else if method_name = "goBack" then
      (self.invoke W EWK.Call.ewk_view_back).andThen
        (fun view => view.reply (Reply.Success EncodableValue.null))
    else if method_name = "goForward" then
      (self.invoke W EWK.Call.ewk_view_forward).andThen
        (fun view => view.reply (Reply.Success EncodableValue.null))
    else if method_name = "reload" then
      (self.invoke W EWK.Call.ewk_view_reload).andThen
        (fun view => view.reply (Reply.Success EncodableValue.null))
    else if method_name = "currentUrl" then
      { view := self
        replies := [Reply.Success (EncodableValue.string (W.ewk_view_url_get obj))]
        calls := [EWK.Call.ewk_view_url_get], fault := none }
    else if method_name = "evaluateJavascript" then
      match arguments with
      | .string js_string => self.invoke W (EWK.Call.ewk_view_script_execute js_string)
      | _ => self.reply (Reply.Error "Invalid Arguments" "Invalid Arguments")
    else if method_name = "addJavascriptChannels" then
      match arguments with
      | .list name_list =>
        (EWK.addJavascriptChannelsLoop W self name_list).andThen
          (fun view => view.reply (Reply.Success EncodableValue.null))
      | _ => self.reply (Reply.Success EncodableValue.null)
    else if method_name = "removeJavascriptChannels" then self.reply Reply.NotImplemented
    else if method_name = "clearCache" then self.reply Reply.NotImplemented
    else if method_name = "getTitle" then
      { view := self
        replies := [Reply.Success (EncodableValue.string (W.ewk_view_title_get obj))]
        calls := [EWK.Call.ewk_view_title_get], fault := none }
    else if method_name = "scrollTo" then
      let x := (ExtractIntFromMap arguments "x").1
      let y := (ExtractIntFromMap arguments "y").1
      (self.invoke W (EWK.Call.ewk_view_scroll_set x y)).andThen
        (fun view => view.reply (Reply.Success EncodableValue.null))
    else if method_name = "scrollBy" then
      let x := (ExtractIntFromMap arguments "x").1
      let y := (ExtractIntFromMap arguments "y").1
      (self.invoke W (EWK.Call.ewk_view_scroll_by x y)).andThen
        (fun view => view.reply (Reply.Success EncodableValue.null))
    else if method_name = "getScrollX" then self.reply Reply.NotImplemented
    else if method_name = "getScrollY" then self.reply Reply.NotImplemented
    else self.reply Reply.NotImplemented

/-- The kind of a call on a result object. -/
inductive ReplyKind where
  | Success
  | Error
  | NotImplemented
deriving DecidableEq, Repr

/-- The kind of a reply. -/
def flutter.Reply.kind : Reply → ReplyKind
  | .Success _ => ReplyKind.Success
  | .Error _ _ => ReplyKind.Error
  | .NotImplemented => ReplyKind.NotImplemented

/-- The method names that the two dispatchers answer with different kinds of
result on a live view. -/
def differingMethods : List String :=
  ["removeJavascriptChannels", "clearCache", "getScrollX", "getScrollY"]

/-- A sample WebKit engine for running the model on concrete inputs: the view
object is the url it shows. -/
def refEwk : EWK.Api String where
  exec := fun c obj =>
    match c with
    | .ewk_view_url_set url => url
    | _ => obj
  ewk_view_back_possible := fun _ => 0
  ewk_view_forward_possible := fun _ => 0
  ewk_view_url_get := fun obj => obj
  ewk_view_title_get := fun _ => ""

/-- A live view on the sample WebKit engine. -/
def refEwkView : EWK.WebView String :=
  { webview_instance_ := some "about:blank", has_navigation_delegate_ := false }

/-- An integer as a decoded method-call argument holds it.
`flutter::EncodableValue` has a 32-bit and a 64-bit integer alternative
(`int32_t` and `int64_t`); the standard method codec hands over an integer in
the 32-bit one exactly when it fits a C++ `int`, and in the 64-bit one
otherwise. -/
def flutter.EncodableValue.ofInteger (n : Int) : EncodableValue :=
  if -2147483648 ≤ n ∧ n ≤ 2147483647 then EncodableValue.int32 n
  else EncodableValue.int64 n

theorem WebView.invoke_live {σ : Type} (E : LWE.WebContainer σ) (self : WebView σ) (inst : σ)
    (c : LWE.Call) (hlive : self.webview_instance_ = some inst) :
    self.invoke E c =
      { view := { self with webview_instance_ := some (E.exec c inst) }
        replies := [], calls := [c], fault := none } := by
  simp [WebView.invoke, hlive]

theorem Outcome.andThen_reply {σ : Type} (o : Outcome σ) (r : Reply) (h : o.Quiet) :
    (o.andThen (fun view => view.reply r)).replies = [r] ∧
    (o.andThen (fun view => view.reply r)).fault = none ∧
    (o.andThen (fun view => view.reply r)).view = o.view ∧
    (o.andThen (fun view => view.reply r)).calls = o.calls := by
  obtain ⟨h1, h2, _⟩ := h
  simp [Outcome.andThen, h1, h2, WebView.reply]

theorem WebView.invoke_quiet {σ : Type} (E : LWE.WebContainer σ) (self : WebView σ)
    (c : LWE.Call) (hlive : self.Live) : (self.invoke E c).Quiet := by
  obtain ⟨inst, hinst⟩ := hlive
  simp [WebView.invoke_live E self inst c hinst, Outcome.Quiet, WebView.Live]

theorem Outcome.andThen_quiet {σ : Type} (o : Outcome σ) (k : WebView σ → Outcome σ)
    (ho : o.Quiet) (hk : (k o.view).Quiet) : (o.andThen k).Quiet := by
  obtain ⟨h1, h2, _⟩ := ho
  obtain ⟨k1, k2, k3⟩ := hk
  simp [Outcome.andThen, h2, h1, k1, k2, k3, Outcome.Quiet]

theorem addJavascriptChannelsLoop_quiet {σ : Type} (E : LWE.WebContainer σ)
    (name_list : EncodableList) :
    ∀ self : WebView σ, self.Live → (addJavascriptChannelsLoop E self name_list).Quiet := by
  induction name_list with
  | nil => intro self h; exact ⟨rfl, rfl, h⟩
  | cons a rest ih =>
    intro self h
    cases a <;> simp only [addJavascriptChannelsLoop] <;> try exact ih self h
    apply Outcome.andThen_quiet
    · exact WebView.invoke_quiet E self _ h
    · exact ih _ (WebView.invoke_quiet E self _ h).2.2

theorem removeJavascriptChannelsLoop_quiet {σ : Type} (E : LWE.WebContainer σ)
    (name_list : EncodableList) :
    ∀ self : WebView σ, self.Live → (removeJavascriptChannelsLoop E self name_list).Quiet := by
  induction name_list with
  | nil => intro self h; exact ⟨rfl, rfl, h⟩
  | cons a rest ih =>
    intro self h
    cases a <;> simp only [removeJavascriptChannelsLoop] <;> try exact ih self h
    apply Outcome.andThen_quiet
    · exact WebView.invoke_quiet E self _ h
    · exact ih _ (WebView.invoke_quiet E self _ h).2.2

/-- On a live view one loop iteration of `ApplySettings` makes no reply, keeps
the engine instance, and either ends normally or throws `invalid_argument`. -/
theorem ApplySettings.entry_live {σ : Type} (E : LWE.WebContainer σ) (self : WebView σ)
    (key val : EncodableValue) (hlive : self.Live) :
    (ApplySettings.entry E self key val).replies = [] ∧
    (ApplySettings.entry E self key val).view.Live ∧
    ((ApplySettings.entry E self key val).fault = none ∨
      ∃ what, (ApplySettings.entry E self key val).fault = some (Fault.invalid_argument what)) := by
  obtain ⟨inst, hinst⟩ := hlive
  unfold ApplySettings.entry
  cases key <;> simp [Outcome.done, WebView.Live, hinst]
  split_ifs <;> (try cases val) <;> simp [Outcome.done, hinst]

theorem ApplySettings_live {σ : Type} (E : LWE.WebContainer σ) (settings : EncodableMap) :
    ∀ self : WebView σ, self.Live →
      (ApplySettings E self settings).replies = [] ∧
      (ApplySettings E self settings).view.Live ∧
      ((ApplySettings E self settings).fault = none ∨
        ∃ what, (ApplySettings E self settings).fault = some (Fault.invalid_argument what)) := by
  induction settings with
  | nil => intro self h; exact ⟨rfl, h, Or.inl rfl⟩
  | cons kv rest ih =>
    intro self h
    obtain ⟨key, val⟩ := kv
    obtain ⟨e1, e2, e3⟩ := ApplySettings.entry_live E self key val h
    simp only [ApplySettings, Outcome.andThen]
    rcases e3 with e3 | ⟨what, e3⟩
    · obtain ⟨r1, r2, r3⟩ := ih _ e2
      simp [e3, e1, r1, r2, r3]
    · simp [e3, e1, e2]

namespace flutter.EncodableMap

theorem keyIs_iff (key : String) (k : EncodableValue) :
    keyIs key k = true ↔ k = EncodableValue.string key := by
  cases k <;> simp [keyIs]

theorem subscript_fst (key : String) (m : EncodableMap) :
    (subscript m key).1 =
      ((m.find? (fun kv => keyIs key kv.1)).map (fun kv => kv.2)).getD EncodableValue.null := by
  unfold subscript
  cases m.find? (fun kv => keyIs key kv.1) <;> rfl

/-- What `operator[]` returns: the value stored under the string key in a map
with unique keys. -/
theorem subscript_of_mem (key : String) (v : EncodableValue) :
    ∀ m : EncodableMap, UniqueKeys m → (EncodableValue.string key, v) ∈ m →
      (subscript m key).1 = v := by
  intro m
  induction m with
  | nil => intro _ h; simp at h
  | cons kv rest ih =>
    intro huniq hmem
    have hu := List.pairwise_cons.mp huniq
    rcases List.mem_cons.mp hmem with h | h
    · subst h
      simp [subscript_fst, List.find?, keyIs]
    · by_cases hk : keyIs key kv.1 = true
      · exact absurd ((keyIs_iff key kv.1).mp hk) (hu.1 _ h)
      · have hk2 : keyIs key kv.1 = false := by simpa using hk
        have := ih hu.2 h
        rw [subscript_fst] at this ⊢
        simpa [List.find?, hk2] using this

/-- What `operator[]` returns is the value-initialised value or the value of an
entry stored under the string key. -/
theorem subscript_cases (key : String) (m : EncodableMap) :
    (subscript m key).1 = EncodableValue.null ∨
      (EncodableValue.string key, (subscript m key).1) ∈ m := by
  unfold subscript
  cases hfind : m.find? (fun kv => keyIs key kv.1) with
  | none => exact Or.inl rfl
  | some kv =>
    right
    have hmem := List.mem_of_find?_eq_some hfind
    have hkey := List.find?_some hfind
    have hk : kv.1 = EncodableValue.string key := (keyIs_iff key kv.1).mp hkey
    have : (EncodableValue.string key, kv.2) = kv := by rw [← hk]
    simpa [this] using hmem

end flutter.EncodableMap

theorem ExtractIntFromMap_stored (m : EncodableMap) (key : String) (i : Int)
    (huniq : EncodableMap.UniqueKeys m)
    (hmem : (EncodableValue.string key, EncodableValue.int32 i) ∈ m) :
    (ExtractIntFromMap (EncodableValue.map m) key).1 = i := by
  simp [ExtractIntFromMap, EncodableMap.subscript_of_mem key _ m huniq hmem]

theorem ExtractIntFromMap_default (arguments : EncodableValue) (key : String)
    (habsent : ∀ m i, arguments = EncodableValue.map m →
      (EncodableValue.string key, EncodableValue.int32 i) ∉ m) :
    (ExtractIntFromMap arguments key).1 = -1 := by
  cases arguments <;> try rfl
  rename_i m
  rcases EncodableMap.subscript_cases key m with h | h
  · simp [ExtractIntFromMap, h]
  · cases hv : (EncodableMap.subscript m key).1 <;> simp [ExtractIntFromMap, hv]
    rw [hv] at h
    exact absurd h (habsent m _ rfl)

theorem ExtractIntFromMap_snd (arguments : EncodableValue) (key : String) :
    (ExtractIntFromMap arguments key).2 = arguments := by
  unfold ExtractIntFromMap
  cases arguments <;> try rfl
  dsimp only
  split <;> rfl

theorem ExtractStringFromMap_stored (m : EncodableMap) (key : String) (s : String)
    (huniq : EncodableMap.UniqueKeys m)
    (hmem : (EncodableValue.string key, EncodableValue.string s) ∈ m) :
    (ExtractStringFromMap (EncodableValue.map m) key).1 = s := by
  simp [ExtractStringFromMap, EncodableMap.subscript_of_mem key _ m huniq hmem]

theorem ExtractStringFromMap_default (arguments : EncodableValue) (key : String)
    (habsent : ∀ m s, arguments = EncodableValue.map m →
      (EncodableValue.string key, EncodableValue.string s) ∉ m) :
    (ExtractStringFromMap arguments key).1 = "" := by
  cases arguments <;> try rfl
  rename_i m
  rcases EncodableMap.subscript_cases key m with h | h
  · simp [ExtractStringFromMap, h]
  · cases hv : (EncodableMap.subscript m key).1 <;> simp [ExtractStringFromMap, hv]
    rw [hv] at h
    exact absurd h (habsent m _ rfl)

theorem ExtractStringFromMap_snd (arguments : EncodableValue) (key : String) :
    (ExtractStringFromMap arguments key).2 = arguments := by
  unfold ExtractStringFromMap
  cases arguments <;> try rfl
  dsimp only
  split <;> rfl

theorem ExtractDoubleFromMap_stored (m : EncodableMap) (key : String) (d : Double)
    (huniq : EncodableMap.UniqueKeys m)
    (hmem : (EncodableValue.string key, EncodableValue.double d) ∈ m) :
    (ExtractDoubleFromMap (EncodableValue.map m) key).1 = d := by
  simp [ExtractDoubleFromMap, EncodableMap.subscript_of_mem key _ m huniq hmem]

theorem ExtractDoubleFromMap_default (arguments : EncodableValue) (key : String)
    (habsent : ∀ m d, arguments = EncodableValue.map m →
      (EncodableValue.string key, EncodableValue.double d) ∉ m) :
    (ExtractDoubleFromMap arguments key).1 = Double.negOne := by
  cases arguments <;> try rfl
  rename_i m
  rcases EncodableMap.subscript_cases key m with h | h
  · simp [ExtractDoubleFromMap, h]
  · cases hv : (EncodableMap.subscript m key).1 <;> simp [ExtractDoubleFromMap, hv]
    rw [hv] at h
    exact absurd h (habsent m _ rfl)

theorem ExtractDoubleFromMap_snd (arguments : EncodableValue) (key : String) :
    (ExtractDoubleFromMap arguments key).2 = arguments := by
  unfold ExtractDoubleFromMap
  cases arguments <;> try rfl
  dsimp only
  split <;> rfl

namespace flutter.EncodableMap

theorem insert_nil (key : String) (v : EncodableValue) :
    insert [] key v = [(EncodableValue.string key, v)] := by
  simp [insert]

/-- Inserting a new string key into a map whose first key is another string. -/
theorem insert_cons_string (k1 : String) (v1 : EncodableValue) (rest : EncodableMap)
    (key : String) (v : EncodableValue) (hne : k1 ≠ key) :
    insert ((EncodableValue.string k1, v1) :: rest) key v =
      if k1 < key then (EncodableValue.string k1, v1) :: insert rest key v
      else if rest.any (fun kv => keyIs key kv.1) then (EncodableValue.string k1, v1) :: rest
      else (EncodableValue.string key, v) :: (EncodableValue.string k1, v1) :: rest := by
  unfold insert
  have hhead : keyIs key (EncodableValue.string k1) = false := by simp [keyIs, hne]
  have hb : keyBefore key (EncodableValue.string k1) = decide (k1 < key) := rfl
  simp only [List.any_cons, hhead, Bool.false_or, List.takeWhile_cons, List.dropWhile_cons, hb]
  by_cases hlt : k1 < key <;>
    by_cases hany : rest.any (fun kv => keyIs key kv.1) = true <;>
    simp [hlt, hany]

end flutter.EncodableMap

/-- The payload map of `navigationRequest` in key order. -/
theorem navigationRequest_map (url : String) :
    EncodableMap.insert (EncodableMap.insert [] "url" (EncodableValue.string url))
        "isForMainFrame" (EncodableValue.bool true) =
      [(EncodableValue.string "isForMainFrame", EncodableValue.bool true),
       (EncodableValue.string "url", EncodableValue.string url)] := by
  rw [EncodableMap.insert_nil, EncodableMap.insert_cons_string _ _ _ _ _ (by decide)]
  simp [(by simp; decide : ¬ "url" < "isForMainFrame")]

/-- The payload map of `javascriptChannelMessage` in key order. -/
theorem javascriptChannelMessage_map (name message : String) :
    EncodableMap.insert (EncodableMap.insert [] "channel" (EncodableValue.string name))
        "message" (EncodableValue.string message) =
      [(EncodableValue.string "channel", EncodableValue.string name),
       (EncodableValue.string "message", EncodableValue.string message)] := by
  rw [EncodableMap.insert_nil, EncodableMap.insert_cons_string _ _ _ _ _ (by decide)]
  simp [(by simp; decide : "channel" < "message"), EncodableMap.insert_nil]

/-- The payload map of `onWebResourceError` in key order. -/
theorem onWebResourceError_map (code : Int) (description error_type url : String) :
    EncodableMap.insert
        (EncodableMap.insert
          (EncodableMap.insert
            (EncodableMap.insert [] "errorCode" (EncodableValue.int32 code))
            "description" (EncodableValue.string description))
          "errorType" (EncodableValue.string error_type))
        "failingUrl" (EncodableValue.string url) =
      [(EncodableValue.string "description", EncodableValue.string description),
       (EncodableValue.string "errorCode", EncodableValue.int32 code),
       (EncodableValue.string "errorType", EncodableValue.string error_type),
       (EncodableValue.string "failingUrl", EncodableValue.string url)] := by
  have h1 : ¬ "errorCode" < "description" := by simp; decide
  have h2 : "description" < "errorType" := by simp; decide
  have h3 : "errorCode" < "errorType" := by simp; decide
  have h4 : "description" < "failingUrl" := by simp; decide
  have h5 : "errorCode" < "failingUrl" := by simp; decide
  have h6 : "errorType" < "failingUrl" := by simp; decide
  simp [EncodableMap.insert_nil, EncodableMap.insert_cons_string, h1, h2, h3, h4, h5, h6]

theorem Outcome.done_andThen {σ : Type} (view : WebView σ) (k : WebView σ → Outcome σ) :
    (Outcome.done view).andThen k = k view := by
  simp [Outcome.done, Outcome.andThen]

theorem Outcome.andThen_assoc {σ : Type} (o : Outcome σ) (f g : WebView σ → Outcome σ) :
    (o.andThen f).andThen g = o.andThen (fun view => (f view).andThen g) := by
  unfold Outcome.andThen
  cases ho : o.fault with
  | some e => simp [ho]
  | none =>
    cases hf : (f o.view).fault with
    | some e => simp [hf]
    | none => simp [hf, List.append_assoc]

theorem Outcome.andThen_of_fault {σ : Type} (o : Outcome σ) (k : WebView σ → Outcome σ)
    (e : Fault) (h : o.fault = some e) : o.andThen k = o := by
  simp [Outcome.andThen, h]

theorem Outcome.andThen_of_ok {σ : Type} (o : Outcome σ) (k : WebView σ → Outcome σ)
    (h : o.fault = none) :
    o.andThen k =
      { view := (k o.view).view, replies := o.replies ++ (k o.view).replies
        calls := o.calls ++ (k o.view).calls, fault := (k o.view).fault
        platform := o.platform ++ (k o.view).platform } := by
  simp [Outcome.andThen, h]

theorem Outcome.andThen_platform {σ : Type} (o : Outcome σ) (k : WebView σ → Outcome σ)
    (ho : o.platform = []) (hk : ∀ view, (k view).platform = []) :
    (o.andThen k).platform = [] := by
  unfold Outcome.andThen
  cases o.fault <;> simp [ho, hk]

/-- The settings loop makes no call into the embedder. -/
theorem ApplySettings.entry_platform {σ : Type} (E : LWE.WebContainer σ) (self : WebView σ)
    (key val : EncodableValue) : (ApplySettings.entry E self key val).platform = [] := by
  unfold ApplySettings.entry
  cases key <;> try rfl
  dsimp only
  split_ifs <;> try rfl
  · cases val <;> rfl
  · cases val <;> try rfl
    cases self.webview_instance_ <;> rfl

theorem ApplySettings_platform {σ : Type} (E : LWE.WebContainer σ) (settings : EncodableMap) :
    ∀ self : WebView σ, (ApplySettings E self settings).platform = [] := by
  induction settings with
  | nil => intro self; rfl
  | cons kv rest ih =>
    intro self
    obtain ⟨key, val⟩ := kv
    simp only [ApplySettings]
    exact Outcome.andThen_platform _ _ (ApplySettings.entry_platform E self key val) ih

/-- An entry whose key is a string outside the recognized names throws and
changes nothing. -/
theorem ApplySettings.entry_unrecognized {σ : Type} (E : LWE.WebContainer σ)
    (self : WebView σ) (k : String) (val : EncodableValue) (hk : k ∉ recognizedSettings) :
    ApplySettings.entry E self (EncodableValue.string k) val =
      { view := self, replies := [], calls := []
        fault := some (Fault.invalid_argument ("Unknown WebView setting: " ++ k)) } := by
  simp only [recognizedSettings, List.mem_cons, List.mem_singleton, not_or, List.mem_nil_iff,
    not_false_eq_true, and_true] at hk
  obtain ⟨h1, h2, h3, h4, h5⟩ := hk
  simp [ApplySettings.entry, h1, h2, h3, h4, h5]

/-- An entry whose key is not an unrecognized string ends normally on a live view. -/
theorem ApplySettings.entry_ok {σ : Type} (E : LWE.WebContainer σ) (self : WebView σ)
    (key val : EncodableValue) (hlive : self.Live)
    (hk : ∀ k, key = EncodableValue.string k → k ∈ recognizedSettings) :
    (ApplySettings.entry E self key val).Quiet := by
  obtain ⟨e1, e2, e3⟩ := ApplySettings.entry_live E self key val hlive
  refine ⟨e1, ?_, e2⟩
  rcases e3 with e3 | ⟨what, e3⟩
  · exact e3
  · cases key <;> try (simp [ApplySettings.entry, Outcome.done] at e3)
    rename_i k
    have hrec := hk k rfl
    simp only [recognizedSettings, List.mem_cons, List.mem_singleton, List.mem_nil_iff,
      or_false] at hrec
    obtain ⟨inst, hinst⟩ := hlive
    rcases hrec with h | h | h | h | h <;> subst h <;>
      cases val <;> simp [ApplySettings.entry, Outcome.done, hinst] at e3

theorem ApplySettings_ok {σ : Type} (E : LWE.WebContainer σ) (settings : EncodableMap) :
    ∀ self : WebView σ, self.Live →
      (∀ kv ∈ settings, ∀ k, kv.1 = EncodableValue.string k → k ∈ recognizedSettings) →
      (ApplySettings E self settings).Quiet := by
  induction settings with
  | nil => intro self h _; exact ⟨rfl, rfl, h⟩
  | cons kv rest ih =>
    intro self h hk
    obtain ⟨key, val⟩ := kv
    simp only [ApplySettings]
    have he := ApplySettings.entry_ok E self key val h (hk (key, val) (List.mem_cons_self _ _))
    exact Outcome.andThen_quiet _ _ he
      (ih _ he.2.2 (fun kv hkv => hk kv (List.mem_cons_of_mem _ hkv)))

theorem ApplySettings_append {σ : Type} (E : LWE.WebContainer σ) (a b : EncodableMap) :
    ∀ self : WebView σ,
      ApplySettings E self (a ++ b) =
        (ApplySettings E self a).andThen (fun view => ApplySettings E view b) := by
  induction a with
  | nil => intro self; simp [ApplySettings, Outcome.done_andThen]
  | cons kv rest ih =>
    intro self
    obtain ⟨key, val⟩ := kv
    simp only [List.cons_append, ApplySettings, Outcome.andThen_assoc]
    congr 1
    funext view
    exact ih view

/-- The loop throws at the first entry whose key is an unrecognized string;
the view and the engine calls are those of the entries before it. -/
theorem ApplySettings_first_unrecognized {σ : Type} (E : LWE.WebContainer σ)
    (self : WebView σ) (front back : EncodableMap) (k : String) (v : EncodableValue)
    (hlive : self.Live)
    (hfront : ∀ kv ∈ front, ∀ k1, kv.1 = EncodableValue.string k1 → k1 ∈ recognizedSettings)
    (hk : k ∉ recognizedSettings) :
    ApplySettings E self (front ++ (EncodableValue.string k, v) :: back) =
      { view := (ApplySettings E self front).view
        replies := []
        calls := (ApplySettings E self front).calls
        fault := some (Fault.invalid_argument ("Unknown WebView setting: " ++ k)) } := by
  obtain ⟨q1, q2, _⟩ := ApplySettings_ok E front self hlive hfront
  rw [ApplySettings_append, Outcome.andThen_of_ok _ _ q2]
  simp only [ApplySettings, ApplySettings.entry_unrecognized E _ k v hk]
  simp [Outcome.andThen, q1, ApplySettings_platform E front self]

/-- The `updateSettings` branch when the loop throws at the first unrecognized
string key: the exception is caught and answered with Error. -/
theorem HandleMethodCall_updateSettings_throw {σ : Type} (E : LWE.WebContainer σ)
    (self : WebView σ) (result : MethodResult) (front back : EncodableMap) (k : String)
    (v : EncodableValue) (hlive : self.Live)
    (hfront : ∀ kv ∈ front, ∀ k1, kv.1 = EncodableValue.string k1 → k1 ∈ recognizedSettings)
    (hk : k ∉ recognizedSettings) :
    HandleMethodCall E self
        { method_name := "updateSettings"
          arguments := EncodableValue.map (front ++ (EncodableValue.string k, v) :: back) }
        result =
      { view := (ApplySettings E self front).view
        replies := [Reply.Error ("Unknown WebView setting: " ++ k) ""]
        calls := (ApplySettings E self front).calls
        fault := none } := by
  obtain ⟨inst, hinst⟩ := hlive
  have happ := ApplySettings_first_unrecognized E self front back k v ⟨inst, hinst⟩ hfront hk
  simp [HandleMethodCall, hinst, happ]

/-- The `updateSettings` branch when the loop ends normally: Success, and the
view and engine calls are those of the loop. -/
theorem HandleMethodCall_updateSettings_ok {σ : Type} (E : LWE.WebContainer σ)
    (self : WebView σ) (result : MethodResult) (settings : EncodableMap) (hlive : self.Live)
    (hq : (ApplySettings E self settings).Quiet) :
    HandleMethodCall E self
        { method_name := "updateSettings", arguments := EncodableValue.map settings } result =
      { view := (ApplySettings E self settings).view
        replies := [Reply.Success EncodableValue.null]
        calls := (ApplySettings E self settings).calls
        fault := none } := by
  obtain ⟨inst, hinst⟩ := hlive
  obtain ⟨q1, q2, _⟩ := hq
  cases settings with
  | nil => simp [HandleMethodCall, hinst, WebView.reply, ApplySettings, Outcome.done]
  | cons kv rest =>
    simp [HandleMethodCall, hinst, q2, q1, WebView.reply, Outcome.andThen,
      ApplySettings_platform E (kv :: rest) self]

/-- An entry under another key leaves the navigation-delegate flag alone. -/
theorem ApplySettings.entry_flag_frame {σ : Type} (E : LWE.WebContainer σ)
    (self : WebView σ) (key val : EncodableValue)
    (hkey : key ≠ EncodableValue.string "hasNavigationDelegate") :
    (ApplySettings.entry E self key val).view.has_navigation_delegate_ =
      self.has_navigation_delegate_ := by
  unfold ApplySettings.entry
  cases key <;> try rfl
  rename_i k
  have hk : k ≠ "hasNavigationDelegate" := fun h => hkey (by rw [h])
  simp only [hk, if_false]
  split_ifs <;> try rfl
  cases val <;> try rfl
  cases self.webview_instance_ <;> rfl

/-- An entry under another key leaves the engine instance alone. -/
theorem ApplySettings.entry_instance_frame {σ : Type} (E : LWE.WebContainer σ)
    (self : WebView σ) (key val : EncodableValue)
    (hkey : key ≠ EncodableValue.string "userAgent") :
    (ApplySettings.entry E self key val).view.webview_instance_ = self.webview_instance_ := by
  unfold ApplySettings.entry
  cases key <;> try rfl
  rename_i k
  have hk : k ≠ "userAgent" := fun h => hkey (by rw [h])
  simp only [hk, if_false]
  split_ifs <;> try rfl
  cases val <;> rfl

theorem Outcome.andThen_view_cases {σ : Type} (o : Outcome σ) (k : WebView σ → Outcome σ) :
    (o.andThen k).view = o.view ∨ (o.andThen k).view = (k o.view).view := by
  unfold Outcome.andThen
  cases o.fault <;> simp

theorem ApplySettings_flag_frame {σ : Type} (E : LWE.WebContainer σ)
    (settings : EncodableMap) :
    ∀ self : WebView σ,
      (∀ kv ∈ settings, kv.1 ≠ EncodableValue.string "hasNavigationDelegate") →
      (ApplySettings E self settings).view.has_navigation_delegate_ =
        self.has_navigation_delegate_ := by
  induction settings with
  | nil => intro self _; rfl
  | cons kv rest ih =>
    intro self h
    obtain ⟨key, val⟩ := kv
    have hhead := ApplySettings.entry_flag_frame E self key val (h (key, val) (List.mem_cons_self _ _))
    have hrest := ih (ApplySettings.entry E self key val).view
      (fun kv hkv => h kv (List.mem_cons_of_mem _ hkv))
    simp only [ApplySettings]
    rcases Outcome.andThen_view_cases (ApplySettings.entry E self key val)
      (fun view => ApplySettings E view rest) with hv | hv
    · rw [hv, hhead]
    · rw [hv, hrest, hhead]

theorem ApplySettings_instance_frame {σ : Type} (E : LWE.WebContainer σ)
    (settings : EncodableMap) :
    ∀ self : WebView σ,
      (∀ kv ∈ settings, kv.1 ≠ EncodableValue.string "userAgent") →
      (ApplySettings E self settings).view.webview_instance_ = self.webview_instance_ := by
  induction settings with
  | nil => intro self _; rfl
  | cons kv rest ih =>
    intro self h
    obtain ⟨key, val⟩ := kv
    have hhead := ApplySettings.entry_instance_frame E self key val
      (h (key, val) (List.mem_cons_self _ _))
    have hrest := ih (ApplySettings.entry E self key val).view
      (fun kv hkv => h kv (List.mem_cons_of_mem _ hkv))
    simp only [ApplySettings]
    rcases Outcome.andThen_view_cases (ApplySettings.entry E self key val)
      (fun view => ApplySettings E view rest) with hv | hv
    · rw [hv, hhead]
    · rw [hv, hrest, hhead]

/-- After a loop that ended normally the flag is the boolean stored under
hasNavigationDelegate. -/
theorem ApplySettings_flag {σ : Type} (E : LWE.WebContainer σ) (b : Bool)
    (settings : EncodableMap) :
    ∀ self : WebView σ, EncodableMap.UniqueKeys settings →
      (EncodableValue.string "hasNavigationDelegate", EncodableValue.bool b) ∈ settings →
      (ApplySettings E self settings).fault = none →
      (ApplySettings E self settings).view.has_navigation_delegate_ = b := by
  induction settings with
  | nil => intro _ _ h; simp at h
  | cons kv rest ih =>
    intro self huniq hmem hfault
    obtain ⟨key, val⟩ := kv
    have hu := List.pairwise_cons.mp huniq
    simp only [ApplySettings] at hfault ⊢
    cases hentry : (ApplySettings.entry E self key val).fault with
    | some e =>
      rw [Outcome.andThen_of_fault _ _ e hentry] at hfault
      rw [hentry] at hfault
      cases hfault
    | none =>
      rw [Outcome.andThen_of_ok _ _ hentry] at hfault ⊢
      simp only at hfault ⊢
      rcases List.mem_cons.mp hmem with heq | hin
      · have hk : key = EncodableValue.string "hasNavigationDelegate" := by
          rw [Prod.mk.injEq] at heq; exact heq.1.symm
        have hv : val = EncodableValue.bool b := by
          rw [Prod.mk.injEq] at heq; exact heq.2.symm
        subst hk hv
        rw [ApplySettings_flag_frame E rest _ (fun kv hkv => (hu.1 kv hkv).symm)]
        simp [ApplySettings.entry, Outcome.done]
      · exact ih _ hu.2 hin hfault

/-- After a loop that ended normally on a live view, the engine holds the
user-agent string stored under userAgent, for an engine that keeps the settings
object it is given. -/
theorem ApplySettings_userAgent {σ : Type} (E : LWE.WebContainer σ) (s : String)
    (hkeep : ∀ (st : LWE.Settings) (inst : σ),
      E.GetSettings (E.exec (LWE.Call.SetSettings st) inst) = st)
    (settings : EncodableMap) :
    ∀ self : WebView σ, self.Live → EncodableMap.UniqueKeys settings →
      (EncodableValue.string "userAgent", EncodableValue.string s) ∈ settings →
      (ApplySettings E self settings).fault = none →
      ∃ inst1, (ApplySettings E self settings).view.webview_instance_ = some inst1 ∧
        (E.GetSettings inst1).user_agent = s := by
  induction settings with
  | nil => intro _ _ _ h; simp at h
  | cons kv rest ih =>
    intro self hlive huniq hmem hfault
    obtain ⟨key, val⟩ := kv
    have hu := List.pairwise_cons.mp huniq
    simp only [ApplySettings] at hfault ⊢
    cases hentry : (ApplySettings.entry E self key val).fault with
    | some e =>
      rw [Outcome.andThen_of_fault _ _ e hentry] at hfault
      rw [hentry] at hfault
      cases hfault
    | none =>
      rw [Outcome.andThen_of_ok _ _ hentry] at hfault ⊢
      simp only at hfault ⊢
      rcases List.mem_cons.mp hmem with heq | hin
      · have hk : key = EncodableValue.string "userAgent" := by
          rw [Prod.mk.injEq] at heq; exact heq.1.symm
        have hv : val = EncodableValue.string s := by
          rw [Prod.mk.injEq] at heq; exact heq.2.symm
        subst hk hv
        obtain ⟨inst, hinst⟩ := hlive
        rw [ApplySettings_instance_frame E rest _ (fun kv hkv => (hu.1 kv hkv).symm)]
        simp [ApplySettings.entry, hinst, hkeep, LWE.Settings.SetUserAgentString]
      · exact ih _ (ApplySettings.entry_live E self key val hlive).2.1 hu.2 hin hfault

/-- C1: on a live view, a method name outside the dispatch table gets exactly the
reply NotImplemented, no engine call is made and the view is unchanged. -/
theorem HandleMethodCall_unrecognized {σ : Type} (E : LWE.WebContainer σ) (self : WebView σ)
    (inst : σ) (method_name : String) (arguments : EncodableValue) (result : MethodResult)
    (hlive : self.webview_instance_ = some inst) (hname : method_name ∉ dispatchTable) :
    HandleMethodCall E self { method_name := method_name, arguments := arguments } result =
      { view := self, replies := [Reply.NotImplemented], calls := [], fault := none } := by
  simp only [dispatchTable, List.mem_cons, List.mem_singleton, not_or, List.mem_nil_iff,
    not_false_eq_true, and_true] at hname
  obtain ⟨h1, h2, h3, h4, h5, h6, h7, h8, h9, h10, h11, h12, h13, h14, h15, h16, h17⟩ := hname
  simp [HandleMethodCall, hlive, h1, h2, h3, h4, h5, h6, h7, h8, h9, h10, h11, h12, h13,
    h14, h15, h16, h17, WebView.reply]

theorem HandleMethodCall_unrecognized_witness :
    HandleMethodCall refEngine refView { method_name := "postUrl", arguments := .null } ⟨0⟩ =
      { view := refView, replies := [Reply.NotImplemented], calls := [], fault := none } :=
  HandleMethodCall_unrecognized refEngine refView RefEngine.init "postUrl" .null ⟨0⟩ rfl
    (by decide)

/-- C4: on a live view, `updateSettings` with a settings map whose keys are all
recognized setting names is answered with Success; on return the flag
has_navigation_delegate_ is the boolean stored under hasNavigationDelegate, and
the user-agent string of the engine is the string stored under userAgent (for an
engine that keeps the settings object it is given). -/
theorem updateSettings_recognized {σ : Type} (E : LWE.WebContainer σ) (self : WebView σ)
    (inst : σ) (settings : EncodableMap) (result : MethodResult)
    (hlive : self.webview_instance_ = some inst)
    (huniq : EncodableMap.UniqueKeys settings)
    (hkeys : ∀ kv ∈ settings, ∃ k, kv.1 = EncodableValue.string k ∧ k ∈ recognizedSettings) :
    (HandleMethodCall E self
      { method_name := "updateSettings", arguments := EncodableValue.map settings }
      result).replies = [Reply.Success EncodableValue.null] ∧
    (HandleMethodCall E self
      { method_name := "updateSettings", arguments := EncodableValue.map settings }
      result).fault = none ∧
    (∀ b, (EncodableValue.string "hasNavigationDelegate", EncodableValue.bool b) ∈ settings →
      (HandleMethodCall E self
        { method_name := "updateSettings", arguments := EncodableValue.map settings }
        result).view.has_navigation_delegate_ = b) ∧
    (∀ s, (EncodableValue.string "userAgent", EncodableValue.string s) ∈ settings →
      (∀ (st : LWE.Settings) (i : σ),
        E.GetSettings (E.exec (LWE.Call.SetSettings st) i) = st) →
      ∃ inst1,
        (HandleMethodCall E self
          { method_name := "updateSettings", arguments := EncodableValue.map settings }
          result).view.webview_instance_ = some inst1 ∧
        (E.GetSettings inst1).user_agent = s) := by
  have hrec : ∀ kv ∈ settings, ∀ k, kv.1 = EncodableValue.string k →
      k ∈ recognizedSettings := by
    intro kv hkv k hk
    obtain ⟨k1, hk1, hmem⟩ := hkeys kv hkv
    rw [hk1] at hk
    injection hk with hk
    exact hk ▸ hmem
  have hq := ApplySettings_ok E settings self ⟨inst, hlive⟩ hrec
  rw [HandleMethodCall_updateSettings_ok E self result settings ⟨inst, hlive⟩ hq]
  refine ⟨rfl, rfl, ?_, ?_⟩
  · intro b hb
    exact ApplySettings_flag E b settings self huniq hb hq.2.1
  · intro s hs hkeep
    exact ApplySettings_userAgent E s hkeep settings self ⟨inst, hlive⟩ huniq hs hq.2.1

theorem updateSettings_recognized_witness :
    EncodableMap.UniqueKeys
      [(EncodableValue.string "hasNavigationDelegate", EncodableValue.bool true),
       (EncodableValue.string "jsMode", EncodableValue.int32 1),
       (EncodableValue.string "userAgent", EncodableValue.string "Tizen")] ∧
    (HandleMethodCall refEngine refView
      { method_name := "updateSettings"
        arguments := EncodableValue.map
          [(EncodableValue.string "hasNavigationDelegate", EncodableValue.bool true),
           (EncodableValue.string "jsMode", EncodableValue.int32 1),
           (EncodableValue.string "userAgent", EncodableValue.string "Tizen")] }
      ⟨0⟩).replies = [Reply.Success EncodableValue.null] ∧
    (HandleMethodCall refEngine refView
      { method_name := "updateSettings"
        arguments := EncodableValue.map
          [(EncodableValue.string "hasNavigationDelegate", EncodableValue.bool true),
           (EncodableValue.string "jsMode", EncodableValue.int32 1),
           (EncodableValue.string "userAgent", EncodableValue.string "Tizen")] }
      ⟨0⟩).view.has_navigation_delegate_ = true ∧
    ∃ inst1,
      (HandleMethodCall refEngine refView
        { method_name := "updateSettings"
          arguments := EncodableValue.map
            [(EncodableValue.string "hasNavigationDelegate", EncodableValue.bool true),
             (EncodableValue.string "jsMode", EncodableValue.int32 1),
             (EncodableValue.string "userAgent", EncodableValue.string "Tizen")] }
        ⟨0⟩).view.webview_instance_ = some inst1 ∧
      (refEngine.GetSettings inst1).user_agent = "Tizen" :=
  have huniq : EncodableMap.UniqueKeys
      [(EncodableValue.string "hasNavigationDelegate", EncodableValue.bool true),
       (EncodableValue.string "jsMode", EncodableValue.int32 1),
       (EncodableValue.string "userAgent", EncodableValue.string "Tizen")] := by
    simp [EncodableMap.UniqueKeys]
  have h := updateSettings_recognized refEngine refView RefEngine.init
    [(EncodableValue.string "hasNavigationDelegate", EncodableValue.bool true),
     (EncodableValue.string "jsMode", EncodableValue.int32 1),
     (EncodableValue.string "userAgent", EncodableValue.string "Tizen")] ⟨0⟩ rfl huniq
    (by simp [recognizedSettings])
  ⟨huniq, h.1, h.2.2.1 true (by simp), h.2.2.2 "Tizen" (by simp) (fun _ _ => rfl)⟩

/-- C5: settings application is not rolled back.  On a live view whose flag is
false, `updateSettings` with hasNavigationDelegate = true and the unknown key
zzz is answered with Error and leaves the flag true; in general, when the loop
throws at the first unrecognized key, the view and the engine calls are those
of applying the entries that precede it in the key order of the map. -/
theorem updateSettings_no_rollback {σ : Type} (E : LWE.WebContainer σ) (self : WebView σ)
    (inst : σ) (result : MethodResult) (hlive : self.webview_instance_ = some inst) :
    (self.has_navigation_delegate_ = false →
      (HandleMethodCall E self
        { method_name := "updateSettings"
          arguments := EncodableValue.map
            [(EncodableValue.string "hasNavigationDelegate", EncodableValue.bool true),
             (EncodableValue.string "zzz", EncodableValue.int32 0)] }
        result).replies = [Reply.Error "Unknown WebView setting: zzz" ""] ∧
      (HandleMethodCall E self
        { method_name := "updateSettings"
          arguments := EncodableValue.map
            [(EncodableValue.string "hasNavigationDelegate", EncodableValue.bool true),
             (EncodableValue.string "zzz", EncodableValue.int32 0)] }
        result).view.has_navigation_delegate_ ≠ self.has_navigation_delegate_) ∧
    (∀ (front back : EncodableMap) (k : String) (v : EncodableValue),
      (∀ kv ∈ front, ∀ k1, kv.1 = EncodableValue.string k1 → k1 ∈ recognizedSettings) →
      k ∉ recognizedSettings →
      (HandleMethodCall E self
        { method_name := "updateSettings"
          arguments := EncodableValue.map (front ++ (EncodableValue.string k, v) :: back) }
        result).replies = [Reply.Error ("Unknown WebView setting: " ++ k) ""] ∧
      (HandleMethodCall E self
        { method_name := "updateSettings"
          arguments := EncodableValue.map (front ++ (EncodableValue.string k, v) :: back) }
        result).view = (ApplySettings E self front).view ∧
      (HandleMethodCall E self
        { method_name := "updateSettings"
          arguments := EncodableValue.map (front ++ (EncodableValue.string k, v) :: back) }
        result).calls = (ApplySettings E self front).calls ∧
      (ApplySettings E self front).fault = none) := by
  constructor
  · intro hflag
    simp [HandleMethodCall, hlive, ApplySettings, ApplySettings.entry, Outcome.andThen,
      Outcome.done, hflag]
  · intro front back k v hfront hk
    rw [HandleMethodCall_updateSettings_throw E self result front back k v ⟨inst, hlive⟩
      hfront hk]
    exact ⟨rfl, rfl, rfl, (ApplySettings_ok E front self ⟨inst, hlive⟩ hfront).2.1⟩

theorem updateSettings_no_rollback_witness :
    refView.has_navigation_delegate_ = false ∧
    (HandleMethodCall refEngine refView
      { method_name := "updateSettings"
        arguments := EncodableValue.map
          [(EncodableValue.string "hasNavigationDelegate", EncodableValue.bool true),
           (EncodableValue.string "zzz", EncodableValue.int32 0)] }
      ⟨0⟩).replies = [Reply.Error "Unknown WebView setting: zzz" ""] ∧
    (HandleMethodCall refEngine refView
      { method_name := "updateSettings"
        arguments := EncodableValue.map
          [(EncodableValue.string "hasNavigationDelegate", EncodableValue.bool true),
           (EncodableValue.string "zzz", EncodableValue.int32 0)] }
      ⟨0⟩).view.has_navigation_delegate_ ≠ refView.has_navigation_delegate_ ∧
    (HandleMethodCall refEngine refView
      { method_name := "updateSettings"
        arguments := EncodableValue.map
          ([(EncodableValue.string "hasNavigationDelegate", EncodableValue.bool true)] ++
            (EncodableValue.string "zzz", EncodableValue.int32 0) :: []) }
      ⟨0⟩).view =
      (ApplySettings refEngine refView
        [(EncodableValue.string "hasNavigationDelegate", EncodableValue.bool true)]).view :=
  have h := updateSettings_no_rollback refEngine refView RefEngine.init ⟨0⟩ rfl
  ⟨rfl, (h.1 rfl).1, (h.1 rfl).2,
    (h.2 [(EncodableValue.string "hasNavigationDelegate", EncodableValue.bool true)] []
      "zzz" (EncodableValue.int32 0) (by simp [recognizedSettings]) (by decide)).2.1⟩

/-- C6: the three argument extractors always return a value: the stored int,
string or double when the argument is a map whose entry for the key has that
type, and -1, the empty string or -1.0 in every other case; the caller's
argument is the same afterwards. -/
theorem Extract_total (arguments : EncodableValue) (key : String) :
    ((∀ m i, arguments = EncodableValue.map m → EncodableMap.UniqueKeys m →
        (EncodableValue.string key, EncodableValue.int32 i) ∈ m →
        (ExtractIntFromMap arguments key).1 = i) ∧
      ((∀ m i, arguments = EncodableValue.map m →
        (EncodableValue.string key, EncodableValue.int32 i) ∉ m) →
        (ExtractIntFromMap arguments key).1 = -1) ∧
      (ExtractIntFromMap arguments key).2 = arguments) ∧
    ((∀ m s, arguments = EncodableValue.map m → EncodableMap.UniqueKeys m →
        (EncodableValue.string key, EncodableValue.string s) ∈ m →
        (ExtractStringFromMap arguments key).1 = s) ∧
      ((∀ m s, arguments = EncodableValue.map m →
        (EncodableValue.string key, EncodableValue.string s) ∉ m) →
        (ExtractStringFromMap arguments key).1 = "") ∧
      (ExtractStringFromMap arguments key).2 = arguments) ∧
    ((∀ m d, arguments = EncodableValue.map m → EncodableMap.UniqueKeys m →
        (EncodableValue.string key, EncodableValue.double d) ∈ m →
        (ExtractDoubleFromMap arguments key).1 = d) ∧
      ((∀ m d, arguments = EncodableValue.map m →
        (EncodableValue.string key, EncodableValue.double d) ∉ m) →
        (ExtractDoubleFromMap arguments key).1 = Double.negOne) ∧
      (ExtractDoubleFromMap arguments key).2 = arguments) := by
  refine ⟨⟨?_, ?_, ?_⟩, ⟨?_, ?_, ?_⟩, ⟨?_, ?_, ?_⟩⟩
  · intro m i harg huniq hmem
    subst harg
    exact ExtractIntFromMap_stored m key i huniq hmem
  · exact ExtractIntFromMap_default arguments key
  · exact ExtractIntFromMap_snd arguments key
  · intro m s harg huniq hmem
    subst harg
    exact ExtractStringFromMap_stored m key s huniq hmem
  · exact ExtractStringFromMap_default arguments key
  · exact ExtractStringFromMap_snd arguments key
  · intro m d harg huniq hmem
    subst harg
    exact ExtractDoubleFromMap_stored m key d huniq hmem
  · exact ExtractDoubleFromMap_default arguments key
  · exact ExtractDoubleFromMap_snd arguments key

theorem Extract_total_witness :
    EncodableMap.UniqueKeys
      [(EncodableValue.string "x", EncodableValue.int32 10),
       (EncodableValue.string "y", EncodableValue.int32 20)] ∧
    (ExtractIntFromMap (EncodableValue.map
      [(EncodableValue.string "x", EncodableValue.int32 10),
       (EncodableValue.string "y", EncodableValue.int32 20)]) "y").1 = 20 ∧
    (ExtractStringFromMap (EncodableValue.map
      [(EncodableValue.string "x", EncodableValue.int32 10),
       (EncodableValue.string "y", EncodableValue.int32 20)]) "y").1 = "" :=
  have huniq : EncodableMap.UniqueKeys
      [(EncodableValue.string "x", EncodableValue.int32 10),
       (EncodableValue.string "y", EncodableValue.int32 20)] := by
    simp [EncodableMap.UniqueKeys]
  ⟨huniq,
   (Extract_total _ "y").1.1 _ 20 rfl huniq (by simp),
   (Extract_total _ "y").2.1.2.1 (fun m s harg => by
      injection harg with hm
      subst hm
      simp)⟩

/-- C7: on a live view and for every argument, `loadUrl`, `scrollTo` and
`scrollBy` are answered with Success.  `loadUrl` makes the single engine call
LoadURL with the string stored under url, or with the empty string when there
is none; `scrollTo` and `scrollBy` make the single engine call ScrollTo or
ScrollBy with the ints stored under x and y, each replaced by -1 on its own when
there is none. -/
theorem HandleMethodCall_permissive_arguments {σ : Type} (E : LWE.WebContainer σ)
    (self : WebView σ) (inst : σ) (arguments : EncodableValue) (result : MethodResult)
    (hlive : self.webview_instance_ = some inst) :
    (∃ url,
      HandleMethodCall E self { method_name := "loadUrl", arguments := arguments } result =
        { view := { self with webview_instance_ := some (E.exec (LWE.Call.LoadURL url) inst) }
          replies := [Reply.Success EncodableValue.null]
          calls := [LWE.Call.LoadURL url], fault := none } ∧
      (∀ m s, arguments = EncodableValue.map m → EncodableMap.UniqueKeys m →
        (EncodableValue.string "url", EncodableValue.string s) ∈ m → url = s) ∧
      ((∀ m s, arguments = EncodableValue.map m →
        (EncodableValue.string "url", EncodableValue.string s) ∉ m) → url = "")) ∧
    (∃ x y,
      HandleMethodCall E self { method_name := "scrollTo", arguments := arguments } result =
        { view := { self with
            webview_instance_ := some (E.exec (LWE.Call.ScrollTo x y) inst) }
          replies := [Reply.Success EncodableValue.null]
          calls := [LWE.Call.ScrollTo x y], fault := none } ∧
      HandleMethodCall E self { method_name := "scrollBy", arguments := arguments } result =
        { view := { self with
            webview_instance_ := some (E.exec (LWE.Call.ScrollBy x y) inst) }
          replies := [Reply.Success EncodableValue.null]
          calls := [LWE.Call.ScrollBy x y], fault := none } ∧
      (∀ m i, arguments = EncodableValue.map m → EncodableMap.UniqueKeys m →
        (EncodableValue.string "x", EncodableValue.int32 i) ∈ m → x = i) ∧
      ((∀ m i, arguments = EncodableValue.map m →
        (EncodableValue.string "x", EncodableValue.int32 i) ∉ m) → x = -1) ∧
      (∀ m i, arguments = EncodableValue.map m → EncodableMap.UniqueKeys m →
        (EncodableValue.string "y", EncodableValue.int32 i) ∈ m → y = i) ∧
      ((∀ m i, arguments = EncodableValue.map m →
        (EncodableValue.string "y", EncodableValue.int32 i) ∉ m) → y = -1)) := by
  constructor
  · refine ⟨(ExtractStringFromMap arguments "url").1, ?_, ?_, ?_⟩
    · simp [HandleMethodCall, hlive, WebView.invoke, Outcome.andThen, WebView.reply]
    · intro m s harg huniq hmem
      subst harg
      exact ExtractStringFromMap_stored m "url" s huniq hmem
    · exact ExtractStringFromMap_default arguments "url"
  · refine ⟨(ExtractIntFromMap arguments "x").1, (ExtractIntFromMap arguments "y").1,
      ?_, ?_, ?_, ?_, ?_, ?_⟩
    · simp [HandleMethodCall, hlive, WebView.invoke, Outcome.andThen, WebView.reply]
    · simp [HandleMethodCall, hlive, WebView.invoke, Outcome.andThen, WebView.reply]
    · intro m i harg huniq hmem
      subst harg
      exact ExtractIntFromMap_stored m "x" i huniq hmem
    · exact ExtractIntFromMap_default arguments "x"
    · intro m i harg huniq hmem
      subst harg
      exact ExtractIntFromMap_stored m "y" i huniq hmem
    · exact ExtractIntFromMap_default arguments "y"

theorem HandleMethodCall_permissive_arguments_witness :
    HandleMethodCall refEngine refView
        { method_name := "scrollBy"
          arguments := EncodableValue.map
            [(EncodableValue.string "x", EncodableValue.string "7"),
             (EncodableValue.string "y", EncodableValue.int32 7)] } ⟨0⟩ =
      { view := { refView with
          webview_instance_ := some (refEngine.exec (LWE.Call.ScrollBy (-1) 7) RefEngine.init) }
        replies := [Reply.Success EncodableValue.null]
        calls := [LWE.Call.ScrollBy (-1) 7], fault := none } := by
  obtain ⟨x, y, _, hby, _, hx, hy, _⟩ :=
    (HandleMethodCall_permissive_arguments refEngine refView RefEngine.init
      (EncodableValue.map
        [(EncodableValue.string "x", EncodableValue.string "7"),
         (EncodableValue.string "y", EncodableValue.int32 7)]) ⟨0⟩ rfl).2
  have hx1 : x = -1 := hx (fun m i harg => by
    injection harg with hm
    subst hm
    simp)
  have hy1 : y = 7 := hy _ 7 rfl (by simp [EncodableMap.UniqueKeys]) (by simp)
  rw [hby, hx1, hy1]

/-- C8 (counterexample): the integer 2147483648 does not fit a C++ `int`, so
the map carries it in the 64-bit alternative; `ExtractIntFromMap` then gives
-1, and after `scrollTo` with x = 2147483648 and y = 20 on the sample engine,
whose ScrollTo sets the position that GetScrollX and GetScrollY read,
`getScrollX` is answered with Success(-1) and not with Success(2147483648). -/
theorem scrollTo_beyond_int_range :
    (∀ (i : RefEngine) (p q : Int),
      refEngine.GetScrollX (refEngine.exec (LWE.Call.ScrollTo p q) i) = p ∧
      refEngine.GetScrollY (refEngine.exec (LWE.Call.ScrollTo p q) i) = q) ∧
    (HandleMethodCall refEngine refView
      { method_name := "scrollTo"
        arguments := EncodableValue.map
          [(EncodableValue.string "x", EncodableValue.ofInteger 2147483648),
           (EncodableValue.string "y", EncodableValue.ofInteger 20)] } ⟨0⟩).calls =
      [LWE.Call.ScrollTo (-1) 20] ∧
    (HandleMethodCall refEngine
      (HandleMethodCall refEngine refView
        { method_name := "scrollTo"
          arguments := EncodableValue.map
            [(EncodableValue.string "x", EncodableValue.ofInteger 2147483648),
             (EncodableValue.string "y", EncodableValue.ofInteger 20)] } ⟨0⟩).view
      { method_name := "getScrollX", arguments := EncodableValue.null } ⟨1⟩).replies =
      [Reply.Success (EncodableValue.int32 (-1))] ∧
    Reply.Success (EncodableValue.int32 (-1)) ≠
      Reply.Success (EncodableValue.ofInteger 2147483648) := by
  have hwide : EncodableValue.ofInteger 2147483648 = EncodableValue.int64 2147483648 := by
    simp [EncodableValue.ofInteger]
  have hfit : EncodableValue.ofInteger 20 = EncodableValue.int32 20 := by
    simp [EncodableValue.ofInteger]
  rw [hwide, hfit]
  refine ⟨fun _ _ _ => ⟨rfl, rfl⟩, ?_, ?_, ?_⟩
  · simp [HandleMethodCall, refView, WebView.invoke, Outcome.andThen, WebView.reply,
      ExtractIntFromMap, EncodableMap.subscript, EncodableMap.keyIs]
  · simp [HandleMethodCall, refView, WebView.invoke, Outcome.andThen, WebView.reply,
      ExtractIntFromMap, EncodableMap.subscript, EncodableMap.keyIs, refEngine, RefEngine.exec]
  · intro h
    cases h

/-- C8 (amended): on a live view, for all integers x and y that fit a C++
`int` (from -2147483648 to 2147483647) and an engine whose ScrollTo sets the
position that GetScrollX and GetScrollY read, `scrollTo` with the map
(x: x, y: y) is answered with Success, and on the view it leaves `getScrollX`
is answered with Success(x) and `getScrollY` with Success(y); `getScrollX`
leaves the view as it was.  For an integer x that does not fit, `scrollTo`
calls ScrollTo with -1 in its place. -/
theorem scrollTo_then_getScroll {σ : Type} (E : LWE.WebContainer σ) (self : WebView σ)
    (inst : σ) (x y : Int) (a b : EncodableValue) (r0 r1 r2 : MethodResult)
    (hlive : self.webview_instance_ = some inst)
    (hx : -2147483648 ≤ x ∧ x ≤ 2147483647) (hy : -2147483648 ≤ y ∧ y ≤ 2147483647)
    (hX : ∀ (i : σ) (p q : Int), E.GetScrollX (E.exec (LWE.Call.ScrollTo p q) i) = p)
    (hY : ∀ (i : σ) (p q : Int), E.GetScrollY (E.exec (LWE.Call.ScrollTo p q) i) = q) :
    (HandleMethodCall E self
      { method_name := "scrollTo"
        arguments := EncodableValue.map
          [(EncodableValue.string "x", EncodableValue.ofInteger x),
           (EncodableValue.string "y", EncodableValue.ofInteger y)] } r0).replies =
      [Reply.Success EncodableValue.null] ∧
    (HandleMethodCall E
      (HandleMethodCall E self
        { method_name := "scrollTo"
          arguments := EncodableValue.map
            [(EncodableValue.string "x", EncodableValue.ofInteger x),
             (EncodableValue.string "y", EncodableValue.ofInteger y)] } r0).view
      { method_name := "getScrollX", arguments := a } r1).replies =
      [Reply.Success (EncodableValue.ofInteger x)] ∧
    (HandleMethodCall E
      (HandleMethodCall E self
        { method_name := "scrollTo"
          arguments := EncodableValue.map
            [(EncodableValue.string "x", EncodableValue.ofInteger x),
             (EncodableValue.string "y", EncodableValue.ofInteger y)] } r0).view
      { method_name := "getScrollX", arguments := a } r1).view =
      (HandleMethodCall E self
        { method_name := "scrollTo"
          arguments := EncodableValue.map
            [(EncodableValue.string "x", EncodableValue.ofInteger x),
             (EncodableValue.string "y", EncodableValue.ofInteger y)] } r0).view ∧
    (HandleMethodCall E
      (HandleMethodCall E
        self
        { method_name := "scrollTo"
          arguments := EncodableValue.map
            [(EncodableValue.string "x", EncodableValue.ofInteger x),
             (EncodableValue.string "y", EncodableValue.ofInteger y)] } r0).view
      { method_name := "getScrollY", arguments := b } r2).replies =
      [Reply.Success (EncodableValue.ofInteger y)] ∧
    EncodableValue.ofInteger x = EncodableValue.int32 x ∧
    EncodableValue.ofInteger y = EncodableValue.int32 y ∧
    (∀ wide : Int, ¬ (-2147483648 ≤ wide ∧ wide ≤ 2147483647) →
      (HandleMethodCall E self
        { method_name := "scrollTo"
          arguments := EncodableValue.map
            [(EncodableValue.string "x", EncodableValue.ofInteger wide),
             (EncodableValue.string "y", EncodableValue.ofInteger y)] } r0).calls =
        [LWE.Call.ScrollTo (-1) y]) := by
  have hfx : EncodableValue.ofInteger x = EncodableValue.int32 x := by
    simp only [EncodableValue.ofInteger, hx, and_self, if_true]
  have hfy : EncodableValue.ofInteger y = EncodableValue.int32 y := by
    simp only [EncodableValue.ofInteger, hy, and_self, if_true]
  rw [hfx, hfy]
  have huniq : EncodableMap.UniqueKeys
      [(EncodableValue.string "x", EncodableValue.int32 x),
       (EncodableValue.string "y", EncodableValue.int32 y)] := by
    simp [EncodableMap.UniqueKeys]
  have ex := ExtractIntFromMap_stored _ "x" x huniq (by simp)
  have ey := ExtractIntFromMap_stored _ "y" y huniq (by simp)
  refine ⟨?_, ?_, ?_, ?_, rfl, rfl, ?_⟩
  · simp [HandleMethodCall, hlive, WebView.invoke, Outcome.andThen, WebView.reply]
  · simp [HandleMethodCall, hlive, WebView.invoke, Outcome.andThen, WebView.reply, ex, ey, hX]
  · simp [HandleMethodCall, hlive, WebView.invoke, Outcome.andThen, WebView.reply, ex, ey]
  · simp [HandleMethodCall, hlive, WebView.invoke, Outcome.andThen, WebView.reply, ex, ey, hY]
  · intro wide hwide
    have hw : EncodableValue.ofInteger wide = EncodableValue.int64 wide := by
      simp only [EncodableValue.ofInteger, hwide, if_false]
    rw [hw]
    simp [HandleMethodCall, hlive, WebView.invoke, Outcome.andThen, WebView.reply,
      ExtractIntFromMap, EncodableMap.subscript, EncodableMap.keyIs]

theorem scrollTo_then_getScroll_witness :
    (-2147483648 ≤ (10 : Int) ∧ (10 : Int) ≤ 2147483647) ∧
    (-2147483648 ≤ (20 : Int) ∧ (20 : Int) ≤ 2147483647) ∧
    (HandleMethodCall refEngine
      (HandleMethodCall refEngine refView
        { method_name := "scrollTo"
          arguments := EncodableValue.map
            [(EncodableValue.string "x", EncodableValue.ofInteger 10),
             (EncodableValue.string "y", EncodableValue.ofInteger 20)] } ⟨0⟩).view
      { method_name := "getScrollX", arguments := EncodableValue.null } ⟨1⟩).replies =
      [Reply.Success (EncodableValue.ofInteger 10)] ∧
    (HandleMethodCall refEngine
      (HandleMethodCall refEngine refView
        { method_name := "scrollTo"
          arguments := EncodableValue.map
            [(EncodableValue.string "x", EncodableValue.ofInteger 10),
             (EncodableValue.string "y", EncodableValue.ofInteger 20)] } ⟨0⟩).view
      { method_name := "getScrollY", arguments := EncodableValue.null } ⟨2⟩).replies =
      [Reply.Success (EncodableValue.ofInteger 20)] :=
  have h := scrollTo_then_getScroll refEngine refView RefEngine.init 10 20
    EncodableValue.null EncodableValue.null ⟨0⟩ ⟨1⟩ ⟨2⟩ rfl (by decide) (by decide)
    (fun _ _ _ => rfl) (fun _ _ _ => rfl)
  ⟨by decide, by decide, h.2.1, h.2.2.2.1⟩

/-- C9: on a live view, `evaluateJavascript` with an argument that is not a
string is answered with Error("Invalid Arguments", "Invalid Arguments"); no
engine call is made, so the script is not evaluated, and the view is unchanged. -/
theorem evaluateJavascript_invalid_arguments {σ : Type} (E : LWE.WebContainer σ)
    (self : WebView σ) (inst : σ) (arguments : EncodableValue) (result : MethodResult)
    (hlive : self.webview_instance_ = some inst)
    (hshape : ∀ s, arguments ≠ EncodableValue.string s) :
    HandleMethodCall E self
        { method_name := "evaluateJavascript", arguments := arguments } result =
      { view := self
        replies := [Reply.Error "Invalid Arguments" "Invalid Arguments"]
        calls := [], fault := none } := by
  cases arguments <;> simp [HandleMethodCall, hlive, WebView.reply]
  rename_i s
  exact absurd rfl (hshape s)

theorem evaluateJavascript_invalid_arguments_witness :
    (∀ s, EncodableValue.int32 42 ≠ EncodableValue.string s) ∧
    HandleMethodCall refEngine refView
        { method_name := "evaluateJavascript", arguments := EncodableValue.int32 42 } ⟨0⟩ =
      { view := refView
        replies := [Reply.Error "Invalid Arguments" "Invalid Arguments"]
        calls := [], fault := none } :=
  ⟨(fun _ h => by cases h),
   evaluateJavascript_invalid_arguments refEngine refView RefEngine.init
    (EncodableValue.int32 42) ⟨0⟩ rfl (fun _ h => by cases h)⟩

/-- C10: on a live view, `evaluateJavascript` with a string script makes no
reply before it returns and makes the single engine call EvaluateJavaScript with
that script and one completion callback; calling that callback with a string v
answers the result object of this call with exactly Success(v). -/
theorem evaluateJavascript_async {σ : Type} (E : LWE.WebContainer σ) (self : WebView σ)
    (inst : σ) (js_string : String) (result : MethodResult)
    (hlive : self.webview_instance_ = some inst) :
    ∃ cb : EvaluateJavaScriptCallback,
      HandleMethodCall E self
          { method_name := "evaluateJavascript"
            arguments := EncodableValue.string js_string } result =
        { view := { self with
            webview_instance_ :=
              some (E.exec (LWE.Call.EvaluateJavaScript js_string cb) inst) }
          replies := []
          calls := [LWE.Call.EvaluateJavaScript js_string cb]
          fault := none } ∧
      ∀ v : String, cb.call v = some (result, Reply.Success (EncodableValue.string v)) := by
  refine ⟨{ res := some result }, ?_, fun v => rfl⟩
  simp [HandleMethodCall, hlive, WebView.invoke]

theorem evaluateJavascript_async_witness :
    ∃ cb : EvaluateJavaScriptCallback,
      (HandleMethodCall refEngine refView
          { method_name := "evaluateJavascript"
            arguments := EncodableValue.string "1+1" } ⟨7⟩).replies = [] ∧
      (HandleMethodCall refEngine refView
          { method_name := "evaluateJavascript"
            arguments := EncodableValue.string "1+1" } ⟨7⟩).calls =
        [LWE.Call.EvaluateJavaScript "1+1" cb] ∧
      cb.call "2" = some (⟨7⟩, Reply.Success (EncodableValue.string "2")) := by
  obtain ⟨cb, hcall, hcb⟩ :=
    evaluateJavascript_async refEngine refView RefEngine.init "1+1" ⟨7⟩ rfl
  exact ⟨cb, by rw [hcall], by rw [hcall], hcb "2"⟩

theorem Char.le_iff_toNat (a b : Char) : a ≤ b ↔ a.toNat ≤ b.toNat := by
  rw [Char.le_def, UInt32.le_def]
  rfl

theorem Char.utf8Size_of_ascii (c : Char) (h : c.toNat ≤ 127) : c.utf8Size = 1 := by
  have h1 : c.val ≤ UInt32.ofNatCore 127 Char.utf8Size.proof_1 := by
    rw [UInt32.le_def]
    exact h
  simp only [Char.utf8Size, h1, if_true]

/-- The three ranges tested by the key mapping are the alphanumeric characters. -/
theorem Char.isAlphanum_iff_ranges (c : Char) :
    c.isAlphanum = true ↔
      ('0' ≤ c ∧ c ≤ '9') ∨ ('a' ≤ c ∧ c ≤ 'z') ∨ ('A' ≤ c ∧ c ≤ 'Z') := by
  simp only [Char.isAlphanum, Char.isAlpha, Char.isUpper, Char.isLower, Char.isDigit,
    Bool.or_eq_true, Bool.and_eq_true, decide_eq_true_eq, ge_iff_le, Char.le_def]
  constructor
  · rintro ((h | h) | h)
    · exact Or.inr (Or.inr h)
    · exact Or.inr (Or.inl h)
    · exact Or.inl h
  · rintro (h | h | h)
    · exact Or.inr h
    · exact Or.inl (Or.inr h)
    · exact Or.inl (Or.inl h)

theorem strlen_singleton (c : Char) : strlen (String.singleton c) = c.utf8Size := by
  simp [strlen, String.singleton, String.push]

/-- A key name of one byte is a single character. -/
theorem strlen_eq_one (s : String) (h : strlen s = 1) :
    ∃ c, s = String.singleton c ∧ s.data.headD (Char.ofNat 0) = c := by
  obtain ⟨cs⟩ := s
  cases cs with
  | nil => simp [strlen] at h
  | cons c rest =>
    cases rest with
    | nil => exact ⟨c, by simp [String.singleton, String.push], rfl⟩
    | cons d rest2 =>
      exfalso
      have hc := Char.utf8Size_pos c
      have hd := Char.utf8Size_pos d
      simp [strlen] at h
      omega

theorem enumeratedKeyNames_length : ∀ n ∈ enumeratedKeyNames, n.length ≠ 1 := by
  decide

theorem singleton_not_enumerated (c : Char) : String.singleton c ∉ enumeratedKeyNames := by
  intro hin
  exact enumeratedKeyNames_length _ hin (by simp [String.singleton])

theorem singleton_strlen_head (c : Char) (h : c.toNat ≤ 127) :
    strlen (String.singleton c) = 1 ∧
      (String.singleton c).data.headD (Char.ofNat 0) = c := by
  constructor
  · rw [strlen_singleton, Char.utf8Size_of_ascii c h]
  · simp [String.singleton, String.push]

/-- The key of a one-character name that is a lowercase letter. -/
theorem EcoreEventKeyToKeyValue_lower (K : LWE.KeyValues) (c : Char) (shift : Bool)
    (h : 'a' ≤ c ∧ c ≤ 'z') :
    EcoreEventKeyToKeyValue K (String.singleton c) shift =
      if shift then K.LowerAKey + (c.toNat : Int) - 97 - 32
      else K.LowerAKey + (c.toNat : Int) - 97 := by
  have h1 := (Char.le_iff_toNat _ _).mp h.1
  have h2 := (Char.le_iff_toNat _ _).mp h.2
  have ha : ('a' : Char).toNat = 97 := rfl
  have hz : ('z' : Char).toNat = 122 := rfl
  rw [ha] at h1
  rw [hz] at h2
  obtain ⟨hsize, hhead⟩ := singleton_strlen_head c (by omega)
  have hdigit : ¬ ('0' ≤ c ∧ c ≤ '9') := by
    rw [Char.le_iff_toNat, Char.le_iff_toNat]
    have h9 : ('9' : Char).toNat = 57 := rfl
    rw [h9]
    omega
  have hmem := singleton_not_enumerated c
  simp only [enumeratedKeyNames, List.mem_cons, List.mem_singleton, not_or, List.mem_nil_iff,
    not_false_eq_true, and_true] at hmem
  simp only [EcoreEventKeyToKeyValue, hmem, hsize, hhead, hdigit, h, if_true, if_false,
    and_self, ha, Nat.cast_ofNat]

/-- The key of a one-character name that is an uppercase letter. -/
theorem EcoreEventKeyToKeyValue_upper (K : LWE.KeyValues) (c : Char) (shift : Bool)
    (h : 'A' ≤ c ∧ c ≤ 'Z') :
    EcoreEventKeyToKeyValue K (String.singleton c) shift =
      if shift then K.AKey + (c.toNat : Int) - 65 + 32
      else K.AKey + (c.toNat : Int) - 65 := by
  have h1 := (Char.le_iff_toNat _ _).mp h.1
  have h2 := (Char.le_iff_toNat _ _).mp h.2
  have ha : ('A' : Char).toNat = 65 := rfl
  have hz : ('Z' : Char).toNat = 90 := rfl
  rw [ha] at h1
  rw [hz] at h2
  obtain ⟨hsize, hhead⟩ := singleton_strlen_head c (by omega)
  have hdigit : ¬ ('0' ≤ c ∧ c ≤ '9') := by
    rw [Char.le_iff_toNat, Char.le_iff_toNat]
    have h9 : ('9' : Char).toNat = 57 := rfl
    rw [h9]
    omega
  have hlower : ¬ ('a' ≤ c ∧ c ≤ 'z') := by
    rw [Char.le_iff_toNat, Char.le_iff_toNat]
    have h9 : ('a' : Char).toNat = 97 := rfl
    rw [h9]
    omega
  have hmem := singleton_not_enumerated c
  simp only [enumeratedKeyNames, List.mem_cons, List.mem_singleton, not_or, List.mem_nil_iff,
    not_false_eq_true, and_true] at hmem
  simp only [EcoreEventKeyToKeyValue, hmem, hsize, hhead, hdigit, hlower, h, if_true,
    if_false, and_self, ha, Nat.cast_ofNat]

/-- A name that is none of the compared names and no single digit or letter
reaches the last `return`. -/
theorem EcoreEventKeyToKeyValue_other (K : LWE.KeyValues) (s : String) (shift : Bool)
    (hname : s ∉ enumeratedKeyNames)
    (hchar : ∀ c, s = String.singleton c → c.isAlphanum = false) :
    EcoreEventKeyToKeyValue K s shift = K.UnidentifiedKey := by
  simp only [enumeratedKeyNames, List.mem_cons, List.mem_singleton, not_or, List.mem_nil_iff,
    not_false_eq_true, and_true] at hname
  by_cases hlen : strlen s = 1
  · obtain ⟨c, hs, hhead⟩ := strlen_eq_one s hlen
    have hno := hchar c hs
    have hranges : ¬ (('0' ≤ c ∧ c ≤ '9') ∨ ('a' ≤ c ∧ c ≤ 'z') ∨ ('A' ≤ c ∧ c ≤ 'Z')) := by
      rw [← Char.isAlphanum_iff_ranges, hno]
      simp
    simp only [not_or] at hranges
    obtain ⟨r1, r2, r3⟩ := hranges
    simp only [EcoreEventKeyToKeyValue, hname, hlen, hhead, r1, r2, r3, if_true, if_false]
  · simp only [EcoreEventKeyToKeyValue, hname, hlen, if_false]

/-- The uppercase form of a lowercase ASCII letter lies 32 code points below it. -/
theorem Char.toUpper_toNat_of_lower (c : Char) (h : 'a' ≤ c ∧ c ≤ 'z') :
    c.toUpper.toNat + 32 = c.toNat := by
  have h1 := (Char.le_iff_toNat _ _).mp h.1
  have h2 := (Char.le_iff_toNat _ _).mp h.2
  have ha : ('a' : Char).toNat = 97 := rfl
  have hz : ('z' : Char).toNat = 122 := rfl
  rw [ha] at h1
  rw [hz] at h2
  have hc : c = Char.ofNat c.toNat := (Char.ofNat_toNat c).symm
  generalize c.toNat = n at h1 h2 hc
  subst hc
  interval_cases n <;> rfl

/-- The `evaluateJavascript` branch with a string argument on a live view. -/
theorem HandleMethodCall_evaluateJavascript_string {σ : Type} (E : LWE.WebContainer σ)
    (self : WebView σ) (inst : σ) (js_string : String) (result : MethodResult)
    (hlive : self.webview_instance_ = some inst) :
    HandleMethodCall E self
        { method_name := "evaluateJavascript"
          arguments := EncodableValue.string js_string } result =
      { view := { self with
          webview_instance_ :=
            some (E.exec (LWE.Call.EvaluateJavaScript js_string { res := some result }) inst) }
        replies := []
        calls := [LWE.Call.EvaluateJavaScript js_string { res := some result }]
        fault := none } := by
  simp [HandleMethodCall, hlive, WebView.invoke]

/-- `Dispose` on a live view. -/
theorem Dispose_live {σ : Type} (E : LWE.WebContainer σ) (self : WebView σ) (inst : σ)
    (hlive : self.webview_instance_ = some inst) :
    Dispose E self =
      { view := { self with webview_instance_ := none }
        replies := [], calls := [LWE.Call.Destroy], fault := none
        platform := [PlatformCall.FlutterUnregisterExternalTexture] } := by
  simp [Dispose, Outcome.andThen, hlive, WebView.invoke, Outcome.done]

/-- `Dispose` on a view whose engine instance is already null. -/
theorem Dispose_disposed {σ : Type} (E : LWE.WebContainer σ) (self : WebView σ)
    (hnull : self.webview_instance_ = none) :
    Dispose E self =
      { view := self, replies := [], calls := [], fault := none
        platform := [PlatformCall.FlutterUnregisterExternalTexture] } := by
  simp [Dispose, Outcome.andThen, hnull, Outcome.done]

theorem ErrorCodeToString_mapped (error_code : Int) (h : 1 ≤ error_code ∧ error_code ≤ 15) :
    ∃ s, ErrorCodeToString error_code = Except.ok s ∧ s ≠ "" := by
  obtain ⟨h1, h2⟩ := h
  interval_cases error_code <;> exact ⟨_, rfl, by decide⟩

theorem ErrorCodeToString_unmapped (error_code : Int)
    (h : ¬ (1 ≤ error_code ∧ error_code ≤ 15)) :
    ErrorCodeToString error_code =
      Except.error (Fault.invalid_argument
        ("Could not find a string for errorCode: " ++ toString error_code)) := by
  have v : ∀ t : RequestErrorType, 0 ≤ t.value ∧ t.value ≤ 15 := by
    intro t
    cases t <;> decide
  unfold ErrorCodeToString
  have e1 : RequestErrorType.AuthenticationError.value = 4 := rfl
  have e2 : RequestErrorType.BadURLError.value = 12 := rfl
  have e3 : RequestErrorType.ConnectError.value = 6 := rfl
  have e4 : RequestErrorType.FailedSSLHandshakeError.value = 11 := rfl
  have e5 : RequestErrorType.FileError.value = 13 := rfl
  have e6 : RequestErrorType.FileNotFoundError.value = 14 := rfl
  have e7 : RequestErrorType.HostLookupError.value = 2 := rfl
  have e8 : RequestErrorType.IOError.value = 7 := rfl
  have e9 : RequestErrorType.ProxyAuthenticationError.value = 5 := rfl
  have e10 : RequestErrorType.RedirectLoopError.value = 9 := rfl
  have e11 : RequestErrorType.TimeoutError.value = 8 := rfl
  have e12 : RequestErrorType.TooManyRequestError.value = 15 := rfl
  have e13 : RequestErrorType.UnknownError.value = 1 := rfl
  have e14 : RequestErrorType.UnsupportedAuthSchemeError.value = 3 := rfl
  have e15 : RequestErrorType.UnsupportedSchemeError.value = 10 := rfl
  rw [e1, e2, e3, e4, e5, e6, e7, e8, e9, e10, e11, e12, e13, e14, e15]
  have n1 : error_code ≠ 4 := by omega
  have n2 : error_code ≠ 12 := by omega
  have n3 : error_code ≠ 6 := by omega
  have n4 : error_code ≠ 11 := by omega
  have n5 : error_code ≠ 13 := by omega
  have n6 : error_code ≠ 14 := by omega
  have n7 : error_code ≠ 2 := by omega
  have n8 : error_code ≠ 7 := by omega
  have n9 : error_code ≠ 5 := by omega
  have n10 : error_code ≠ 9 := by omega
  have n11 : error_code ≠ 8 := by omega
  have n12 : error_code ≠ 15 := by omega
  have n13 : error_code ≠ 1 := by omega
  have n14 : error_code ≠ 3 := by omega
  have n15 : error_code ≠ 10 := by omega
  simp only [n1, n2, n3, n4, n5, n6, n7, n8, n9, n10, n11, n12, n13, n14, n15, if_false]

/-- C11 (counterexample): `evaluateJavascript("1+1")` is dispatched on a live
view, the view is disposed, and then the completion callback handed to the
engine is invoked with "2": the pending result receives Success("2"). -/
theorem completion_after_dispose_delivers :
    (Session.run refEngine (Session.start refView)
      [Event.methodCall
          { method_name := "evaluateJavascript", arguments := EncodableValue.string "1+1" }
          ⟨7⟩,
       Event.dispose]).view.webview_instance_ = none ∧
    (Session.run refEngine (Session.start refView)
      [Event.methodCall
          { method_name := "evaluateJavascript", arguments := EncodableValue.string "1+1" }
          ⟨7⟩,
       Event.dispose]).calls =
      [LWE.Call.EvaluateJavaScript "1+1" { res := some ⟨7⟩ }, LWE.Call.Destroy] ∧
    (Session.run refEngine (Session.start refView)
      [Event.methodCall
          { method_name := "evaluateJavascript", arguments := EncodableValue.string "1+1" }
          ⟨7⟩,
       Event.dispose,
       Event.completion { res := some ⟨7⟩ } "2"]).delivered =
      [(⟨7⟩, Reply.Success (EncodableValue.string "2"))] := by
  refine ⟨rfl, rfl, rfl⟩

/-- C11 (amended): when a live view is disposed after `evaluateJavascript` was
dispatched, the dispatch and `Dispose` deliver no result, `Dispose` destroys the
engine instance and sets the pointer to null; a completion callback that is
invoked after that still answers the pending result with Success of the
string it is given. -/
theorem dispose_does_not_suppress_completion {σ : Type} (E : LWE.WebContainer σ)
    (self : WebView σ) (inst : σ) (js_string value : String) (result : MethodResult)
    (hlive : self.webview_instance_ = some inst) :
    (Session.run E (Session.start self)
      [Event.methodCall
          { method_name := "evaluateJavascript"
            arguments := EncodableValue.string js_string } result,
       Event.dispose]).delivered = [] ∧
    (Session.run E (Session.start self)
      [Event.methodCall
          { method_name := "evaluateJavascript"
            arguments := EncodableValue.string js_string } result,
       Event.dispose]).view.webview_instance_ = none ∧
    (Session.run E (Session.start self)
      [Event.methodCall
          { method_name := "evaluateJavascript"
            arguments := EncodableValue.string js_string } result,
       Event.dispose]).calls =
      [LWE.Call.EvaluateJavaScript js_string { res := some result }, LWE.Call.Destroy] ∧
    (Session.run E (Session.start self)
      [Event.methodCall
          { method_name := "evaluateJavascript"
            arguments := EncodableValue.string js_string } result,
       Event.dispose,
       Event.completion { res := some result } value]).delivered =
      [(result, Reply.Success (EncodableValue.string value))] := by
  have hcall := HandleMethodCall_evaluateJavascript_string E self inst js_string result hlive
  have hdisp := Dispose_live E
    { self with
      webview_instance_ :=
        some (E.exec (LWE.Call.EvaluateJavaScript js_string { res := some result }) inst) }
    (E.exec (LWE.Call.EvaluateJavaScript js_string { res := some result }) inst) rfl
  simp [Session.run, Session.step, Session.start, hcall, hdisp,
    EvaluateJavaScriptCallback.call]

theorem dispose_does_not_suppress_completion_witness :
    refView.webview_instance_ = some RefEngine.init ∧
    (Session.run refEngine (Session.start refView)
      [Event.methodCall
          { method_name := "evaluateJavascript"
            arguments := EncodableValue.string "1+1" } ⟨7⟩,
       Event.dispose]).delivered = [] ∧
    (Session.run refEngine (Session.start refView)
      [Event.methodCall
          { method_name := "evaluateJavascript"
            arguments := EncodableValue.string "1+1" } ⟨7⟩,
       Event.dispose,
       Event.completion { res := some ⟨7⟩ } "2"]).delivered =
      [(⟨7⟩, Reply.Success (EncodableValue.string "2"))] :=
  have h := dispose_does_not_suppress_completion refEngine refView RefEngine.init "1+1" "2"
    ⟨7⟩ rfl
  ⟨rfl, h.1, h.2.2.2⟩

/-- C12: `EcoreEventKeyToKeyValue` returns a key value for every key name and
both values of the shift flag, and for a key name that is none of the compared
names and no single digit or ASCII letter it returns UnidentifiedKey for both
shift values; this covers the empty name, the name Select and every name of one
character that is not alphanumeric. -/
theorem EcoreEventKeyToKeyValue_total_unidentified (K : LWE.KeyValues) (s : String)
    (shift : Bool) :
    (∃ key : LWE.KeyValue, EcoreEventKeyToKeyValue K s shift = key) ∧
    (s ∉ enumeratedKeyNames → (∀ c, s = String.singleton c → c.isAlphanum = false) →
      EcoreEventKeyToKeyValue K s true = K.UnidentifiedKey ∧
      EcoreEventKeyToKeyValue K s false = K.UnidentifiedKey) ∧
    EcoreEventKeyToKeyValue K "" shift = K.UnidentifiedKey ∧
    EcoreEventKeyToKeyValue K "Select" shift = K.UnidentifiedKey ∧
    (∀ c : Char, c.isAlphanum = false →
      EcoreEventKeyToKeyValue K (String.singleton c) shift = K.UnidentifiedKey) := by
  refine ⟨⟨_, rfl⟩, ?_, ?_, ?_, ?_⟩
  · intro hname hchar
    exact ⟨EcoreEventKeyToKeyValue_other K s true hname hchar,
      EcoreEventKeyToKeyValue_other K s false hname hchar⟩
  · apply EcoreEventKeyToKeyValue_other K "" shift (by decide)
    intro c hc
    have := congrArg String.length hc
    simp [String.singleton] at this
  · apply EcoreEventKeyToKeyValue_other K "Select" shift (by decide)
    intro c hc
    have := congrArg String.length hc
    simp only [String.singleton, String.length_push, String.length_empty] at this
    exact absurd this (by decide)
  · intro c hc
    apply EcoreEventKeyToKeyValue_other K (String.singleton c) shift
      (singleton_not_enumerated c)
    intro d hd
    have hcd : c = d := by
      have := congrArg String.data hd
      simpa [String.singleton, String.push] using this
    rw [← hcd]
    exact hc

theorem EcoreEventKeyToKeyValue_total_unidentified_witness :
    "Menu" ∉ enumeratedKeyNames ∧
    (∀ c, "Menu" = String.singleton c → c.isAlphanum = false) ∧
    EcoreEventKeyToKeyValue refKeyValues "Menu" true = refKeyValues.UnidentifiedKey ∧
    EcoreEventKeyToKeyValue refKeyValues "Menu" false = refKeyValues.UnidentifiedKey ∧
    EcoreEventKeyToKeyValue refKeyValues "#" true = refKeyValues.UnidentifiedKey :=
  have hchar : ∀ c, "Menu" = String.singleton c → c.isAlphanum = false := by
    intro c hc
    have := congrArg String.length hc
    simp only [String.singleton, String.length_push, String.length_empty] at this
    exact absurd this (by decide)
  have h := EcoreEventKeyToKeyValue_total_unidentified refKeyValues "Menu" true
  ⟨by decide, hchar, (h.2.1 (by decide) hchar).1, (h.2.1 (by decide) hchar).2,
    (EcoreEventKeyToKeyValue_total_unidentified refKeyValues "#" true).2.2.2.2 (Char.ofNat 35)
      (by decide)⟩

/-- C13: for every lowercase ASCII letter c with uppercase form C, the key of c
with shift pressed is the key of C without shift, given that the code of
LowerAKey lies exactly 32 above the code of AKey. -/
theorem EcoreEventKeyToKeyValue_letter_shift (K : LWE.KeyValues) (c : Char)
    (hc : 'a' ≤ c ∧ c ≤ 'z') (hcodes : K.LowerAKey = K.AKey + 32) :
    EcoreEventKeyToKeyValue K (String.singleton c) true =
      EcoreEventKeyToKeyValue K (String.singleton c.toUpper) false := by
  have hup := Char.toUpper_toNat_of_lower c hc
  have h1 := (Char.le_iff_toNat _ _).mp hc.1
  have h2 := (Char.le_iff_toNat _ _).mp hc.2
  have ha : ('a' : Char).toNat = 97 := rfl
  have hz : ('z' : Char).toNat = 122 := rfl
  rw [ha] at h1
  rw [hz] at h2
  have hC : 'A' ≤ c.toUpper ∧ c.toUpper ≤ 'Z' := by
    rw [Char.le_iff_toNat, Char.le_iff_toNat]
    have hA : ('A' : Char).toNat = 65 := rfl
    have hZ : ('Z' : Char).toNat = 90 := rfl
    rw [hA, hZ]
    omega
  rw [EcoreEventKeyToKeyValue_lower K c true hc, EcoreEventKeyToKeyValue_upper K _ false hC]
  simp only [if_true, Bool.false_eq_true, if_false]
  have hcast : (c.toNat : Int) = (c.toUpper.toNat : Int) + 32 := by
    rw [← hup]
    push_cast
    rfl
  rw [hcodes, hcast]
  ring

theorem EcoreEventKeyToKeyValue_letter_shift_witness :
    ('a' ≤ 'a' ∧ 'a' ≤ 'z') ∧ refKeyValues.LowerAKey = refKeyValues.AKey + 32 ∧
    EcoreEventKeyToKeyValue refKeyValues "a" true =
      EcoreEventKeyToKeyValue refKeyValues "A" false :=
  ⟨by decide, by decide,
    EcoreEventKeyToKeyValue_letter_shift refKeyValues 'a' (by decide) (by decide)⟩

/-- C14: `ErrorCodeToString` returns a string, and never the empty one, exactly
for the codes 1 to 15, the values of the enumerators UnknownError to
TooManyRequestError; for every other integer, among them 0 (NoError) and all
negative codes, it throws invalid_argument. -/
theorem ErrorCodeToString_closed (error_code : Int) :
    ((1 ≤ error_code ∧ error_code ≤ 15) →
      ∃ s, ErrorCodeToString error_code = Except.ok s ∧ s ≠ "") ∧
    (¬ (1 ≤ error_code ∧ error_code ≤ 15) →
      ErrorCodeToString error_code =
        Except.error (Fault.invalid_argument
          ("Could not find a string for errorCode: " ++ toString error_code))) ∧
    ((∃ s, ErrorCodeToString error_code = Except.ok s) ↔
      ∃ t : RequestErrorType, t ≠ RequestErrorType.NoError ∧ t.value = error_code) ∧
    RequestErrorType.NoError.value = 0 ∧
    RequestErrorType.UnknownError.value = 1 ∧
    RequestErrorType.TooManyRequestError.value = 15 := by
  refine ⟨ErrorCodeToString_mapped error_code, ErrorCodeToString_unmapped error_code, ?_,
    rfl, rfl, rfl⟩
  constructor
  · rintro ⟨s, hs⟩
    by_cases hr : 1 ≤ error_code ∧ error_code ≤ 15
    · obtain ⟨h1, h2⟩ := hr
      interval_cases error_code
      · exact ⟨RequestErrorType.UnknownError, by decide, rfl⟩
      · exact ⟨RequestErrorType.HostLookupError, by decide, rfl⟩
      · exact ⟨RequestErrorType.UnsupportedAuthSchemeError, by decide, rfl⟩
      · exact ⟨RequestErrorType.AuthenticationError, by decide, rfl⟩
      · exact ⟨RequestErrorType.ProxyAuthenticationError, by decide, rfl⟩
      · exact ⟨RequestErrorType.ConnectError, by decide, rfl⟩
      · exact ⟨RequestErrorType.IOError, by decide, rfl⟩
      · exact ⟨RequestErrorType.TimeoutError, by decide, rfl⟩
      · exact ⟨RequestErrorType.RedirectLoopError, by decide, rfl⟩
      · exact ⟨RequestErrorType.UnsupportedSchemeError, by decide, rfl⟩
      · exact ⟨RequestErrorType.FailedSSLHandshakeError, by decide, rfl⟩
      · exact ⟨RequestErrorType.BadURLError, by decide, rfl⟩
      · exact ⟨RequestErrorType.FileError, by decide, rfl⟩
      · exact ⟨RequestErrorType.FileNotFoundError, by decide, rfl⟩
      · exact ⟨RequestErrorType.TooManyRequestError, by decide, rfl⟩
    · rw [ErrorCodeToString_unmapped error_code hr] at hs
      cases hs
  · rintro ⟨t, hne, ht⟩
    subst ht
    cases t
    · exact absurd rfl hne
    all_goals exact ⟨_, rfl⟩

theorem ErrorCodeToString_closed_witness :
    ErrorCodeToString 8 = Except.ok "timeout" ∧
    ErrorCodeToString 0 =
      Except.error (Fault.invalid_argument "Could not find a string for errorCode: 0") ∧
    ErrorCodeToString (-1) =
      Except.error (Fault.invalid_argument "Could not find a string for errorCode: -1") ∧
    ErrorCodeToString 16 =
      Except.error (Fault.invalid_argument "Could not find a string for errorCode: 16") :=
  ⟨rfl,
    (ErrorCodeToString_closed 0).2.1 (by decide),
    (ErrorCodeToString_closed (-1)).2.1 (by decide),
    (ErrorCodeToString_closed 16).2.1 (by decide)⟩

/-- C15: for every url, when the reply to the navigationRequest is
Success(true) and the engine instance of the view is live, the result handler
makes exactly one engine call, LoadURL with that url; when the reply is
Success(false) it makes no engine call; and with a null engine instance
Success(true) makes none either. -/
theorem NavigationRequestResult_decision {σ : Type} (E : LWE.WebContainer σ) (url : String)
    (webview : WebView σ) (inst : σ) (hlive : webview.webview_instance_ = some inst) :
    NavigationRequestResult.SuccessInternal E { url_ := url, webview_ := true } webview
        (some (EncodableValue.bool true)) =
      { view := { webview with
          webview_instance_ := some (E.exec (LWE.Call.LoadURL url) inst) }
        replies := [], calls := [LWE.Call.LoadURL url], fault := none } ∧
    NavigationRequestResult.SuccessInternal E { url_ := url, webview_ := true } webview
        (some (EncodableValue.bool false)) =
      { view := webview, replies := [], calls := [], fault := none } ∧
    (∀ disposed : WebView σ, disposed.webview_instance_ = none →
      NavigationRequestResult.SuccessInternal E { url_ := url, webview_ := true } disposed
          (some (EncodableValue.bool true)) =
        { view := disposed, replies := [], calls := [], fault := none }) := by
  refine ⟨?_, ?_, ?_⟩
  · simp [NavigationRequestResult.SuccessInternal, NavigationRequestResult.LoadUrl, hlive,
      WebView.invoke]
  · simp [NavigationRequestResult.SuccessInternal, Outcome.done]
  · intro disposed hnull
    simp [NavigationRequestResult.SuccessInternal, NavigationRequestResult.LoadUrl, hnull,
      Outcome.done]

theorem NavigationRequestResult_decision_witness :
    refView.webview_instance_ = some RefEngine.init ∧
    (NavigationRequestResult.SuccessInternal refEngine
        { url_ := "https://flutter.dev", webview_ := true } refView
        (some (EncodableValue.bool true))).calls = [LWE.Call.LoadURL "https://flutter.dev"] ∧
    (NavigationRequestResult.SuccessInternal refEngine
        { url_ := "https://flutter.dev", webview_ := true } refView
        (some (EncodableValue.bool false))).calls = [] :=
  have h := NavigationRequestResult_decision refEngine "https://flutter.dev" refView
    RefEngine.init rfl
  ⟨rfl, by rw [h.1], by rw [h.2.1]⟩

/-- C17: for every url the navigation-intercept handler returns false and sends
nothing when has_navigation_delegate_ is false; when it is true the handler
sends exactly one invocation, navigationRequest, whose payload is the map with
the two entries url (the url) and isForMainFrame (true) and whose result handler
holds that url, and returns true. -/
theorem ShouldOverrideUrlLoadingHandler_spec {σ : Type} (self : WebView σ) (url : String) :
    (self.has_navigation_delegate_ = false →
      ShouldOverrideUrlLoadingHandler self url =
        { outbound := [], result := Except.ok false }) ∧
    (self.has_navigation_delegate_ = true →
      ShouldOverrideUrlLoadingHandler self url =
        { outbound :=
            [{ method := "navigationRequest"
               arguments := EncodableValue.map
                 [(EncodableValue.string "isForMainFrame", EncodableValue.bool true),
                  (EncodableValue.string "url", EncodableValue.string url)]
               on_result := some { url_ := url, webview_ := true } }]
          result := Except.ok true }) := by
  constructor
  · intro h
    simp [ShouldOverrideUrlLoadingHandler, h]
  · intro h
    simp [ShouldOverrideUrlLoadingHandler, h, navigationRequest_map]

theorem ShouldOverrideUrlLoadingHandler_spec_witness :
    ShouldOverrideUrlLoadingHandler refView "https://flutter.dev" =
      { outbound := [], result := Except.ok false } ∧
    ShouldOverrideUrlLoadingHandler { refView with has_navigation_delegate_ := true }
        "https://flutter.dev" =
      { outbound :=
          [{ method := "navigationRequest"
             arguments := EncodableValue.map
               [(EncodableValue.string "isForMainFrame", EncodableValue.bool true),
                (EncodableValue.string "url", EncodableValue.string "https://flutter.dev")]
             on_result := some { url_ := "https://flutter.dev", webview_ := true } }]
        result := Except.ok true } :=
  ⟨(ShouldOverrideUrlLoadingHandler_spec refView "https://flutter.dev").1 rfl,
    (ShouldOverrideUrlLoadingHandler_spec { refView with has_navigation_delegate_ := true }
      "https://flutter.dev").2 rfl⟩

/-- C18: for every url, the page-started handler sends exactly one invocation,
onPageStarted, and the page-loaded handler exactly one, onPageFinished; the
payload of each is the map with the single entry url, mapped to that url. -/
theorem page_handlers_spec (url : String) :
    OnPageStartedHandler url =
      { outbound :=
          [{ method := "onPageStarted"
             arguments := EncodableValue.map
               [(EncodableValue.string "url", EncodableValue.string url)] }]
        result := Except.ok () } ∧
    OnPageLoadedHandler url =
      { outbound :=
          [{ method := "onPageFinished"
             arguments := EncodableValue.map
               [(EncodableValue.string "url", EncodableValue.string url)] }]
        result := Except.ok () } := by
  constructor
  · simp [OnPageStartedHandler, EncodableMap.insert_nil]
  · simp [OnPageLoadedHandler, EncodableMap.insert_nil]

/-- C19 (counterexample): for a resource error with code 16 the handler sends
no invocation at all; the invalid_argument thrown by `ErrorCodeToString`
leaves it. -/
theorem OnReceivedErrorHandler_unmapped_code :
    OnReceivedErrorHandler
        { GetErrorCode := 16, GetDescription := "too many redirects"
          GetUrl := "https://flutter.dev" } =
      { outbound := []
        result := Except.error
          (Fault.invalid_argument "Could not find a string for errorCode: 16") } := by
  rfl

/-- C19 (amended): for every engine resource error whose code is one of 1 to 15
the handler sends exactly one invocation, onWebResourceError, whose payload has
exactly the four keys description, errorCode, errorType and failingUrl, with
errorType the string `ErrorCodeToString` returns for the code and the other
three copied from the error; for every other code it sends nothing and the
invalid_argument of `ErrorCodeToString` leaves the handler. -/
theorem OnReceivedErrorHandler_spec (e : LWE.ResourceError) :
    ((1 ≤ e.GetErrorCode ∧ e.GetErrorCode ≤ 15) →
      ∃ error_type, ErrorCodeToString e.GetErrorCode = Except.ok error_type ∧
        OnReceivedErrorHandler e =
          { outbound :=
              [{ method := "onWebResourceError"
                 arguments := EncodableValue.map
                   [(EncodableValue.string "description",
                      EncodableValue.string e.GetDescription),
                    (EncodableValue.string "errorCode", EncodableValue.int32 e.GetErrorCode),
                    (EncodableValue.string "errorType", EncodableValue.string error_type),
                    (EncodableValue.string "failingUrl", EncodableValue.string e.GetUrl)] }]
            result := Except.ok () }) ∧
    (¬ (1 ≤ e.GetErrorCode ∧ e.GetErrorCode ≤ 15) →
      OnReceivedErrorHandler e =
        { outbound := []
          result := Except.error (Fault.invalid_argument
            ("Could not find a string for errorCode: " ++ toString e.GetErrorCode)) }) := by
  constructor
  · intro h
    obtain ⟨error_type, hok, _⟩ := ErrorCodeToString_mapped e.GetErrorCode h
    refine ⟨error_type, hok, ?_⟩
    simp only [OnReceivedErrorHandler, hok, onWebResourceError_map]
  · intro h
    simp only [OnReceivedErrorHandler, ErrorCodeToString_unmapped e.GetErrorCode h]

theorem OnReceivedErrorHandler_spec_witness :
    (1 ≤ (8 : Int) ∧ (8 : Int) ≤ 15) ∧
    ∃ error_type, ErrorCodeToString 8 = Except.ok error_type ∧
      OnReceivedErrorHandler
          { GetErrorCode := 8, GetDescription := "timed out"
            GetUrl := "https://flutter.dev" } =
        { outbound :=
            [{ method := "onWebResourceError"
               arguments := EncodableValue.map
                 [(EncodableValue.string "description", EncodableValue.string "timed out"),
                  (EncodableValue.string "errorCode", EncodableValue.int32 8),
                  (EncodableValue.string "errorType", EncodableValue.string error_type),
                  (EncodableValue.string "failingUrl",
                    EncodableValue.string "https://flutter.dev")] }]
          result := Except.ok () } :=
  ⟨by decide,
    (OnReceivedErrorHandler_spec
      { GetErrorCode := 8, GetDescription := "timed out"
        GetUrl := "https://flutter.dev" }).1 (by decide)⟩

/-- C20: on a live view `RegisterJavaScriptChannelName(n)` makes the single
engine call AddJavaScriptInterface(n, "postMessage", cb); for every message m
the callback cb sends exactly one invocation, javascriptChannelMessage, whose
payload is the map with the two entries channel (n) and message (m), built by
two `std::map` insertions, and returns the string "success". -/
theorem RegisterJavaScriptChannelName_callback {σ : Type} (E : LWE.WebContainer σ)
    (self : WebView σ) (inst : σ) (name : String)
    (hlive : self.webview_instance_ = some inst) :
    ∃ cb : JavaScriptChannelCallback,
      (RegisterJavaScriptChannelName E self name).calls =
        [LWE.Call.AddJavaScriptInterface name "postMessage" cb] ∧
      (RegisterJavaScriptChannelName E self name).fault = none ∧
      ∀ message : String,
        cb.call message =
          ([{ method := "javascriptChannelMessage"
              arguments := EncodableValue.map
                [(EncodableValue.string "channel", EncodableValue.string name),
                 (EncodableValue.string "message", EncodableValue.string message)] }],
           "success") ∧
        EncodableMap.insert
            (EncodableMap.insert [] "channel" (EncodableValue.string name))
            "message" (EncodableValue.string message) =
          [(EncodableValue.string "channel", EncodableValue.string name),
           (EncodableValue.string "message", EncodableValue.string message)] := by
  refine ⟨{ name := name }, ?_, ?_, ?_⟩
  · simp [RegisterJavaScriptChannelName, WebView.invoke, hlive]
  · simp [RegisterJavaScriptChannelName, WebView.invoke, hlive]
  · intro message
    exact ⟨rfl, javascriptChannelMessage_map name message⟩

theorem RegisterJavaScriptChannelName_callback_witness :
    refView.webview_instance_ = some RefEngine.init ∧
    ∃ cb : JavaScriptChannelCallback,
      (RegisterJavaScriptChannelName refEngine refView "Toaster").calls =
        [LWE.Call.AddJavaScriptInterface "Toaster" "postMessage" cb] ∧
      cb.call "hello" =
        ([{ method := "javascriptChannelMessage"
            arguments := EncodableValue.map
              [(EncodableValue.string "channel", EncodableValue.string "Toaster"),
               (EncodableValue.string "message", EncodableValue.string "hello")] }],
         "success") := by
  obtain ⟨cb, hcalls, _, hcb⟩ :=
    RegisterJavaScriptChannelName_callback refEngine refView RefEngine.init "Toaster" rfl
  exact ⟨rfl, cb, hcalls, (hcb "hello").1⟩

/-- The `addJavascriptChannels` loop on a live view: one AddJavaScriptInterface
per string element, in order. -/
theorem addJavascriptChannelsLoop_live {σ : Type} (E : LWE.WebContainer σ)
    (name_list : EncodableList) :
    ∀ (self : WebView σ) (inst : σ), self.webview_instance_ = some inst →
      addJavascriptChannelsLoop E self name_list =
        { view := { self with
            webview_instance_ := some
              (((stringElements name_list).map (fun n =>
                  LWE.Call.AddJavaScriptInterface n "postMessage" { name := n })).foldl
                (fun e c => E.exec c e) inst) }
          replies := []
          calls := (stringElements name_list).map (fun n =>
            LWE.Call.AddJavaScriptInterface n "postMessage" { name := n })
          fault := none } := by
  induction name_list with
  | nil =>
    intro self inst h
    cases self
    simp at h
    simp [addJavascriptChannelsLoop, Outcome.done, stringElements, h]
  | cons a rest ih =>
    intro self inst h
    cases a <;> simp only [addJavascriptChannelsLoop, stringElements] <;>
      try exact ih self inst h
    rename_i s
    rw [RegisterJavaScriptChannelName, WebView.invoke_live E self inst _ h]
    have hstep := ih
      { self with
        webview_instance_ :=
          some (E.exec (LWE.Call.AddJavaScriptInterface s "postMessage" { name := s }) inst) }
      (E.exec (LWE.Call.AddJavaScriptInterface s "postMessage" { name := s }) inst) rfl
    simp [Outcome.andThen, hstep]

/-- The `removeJavascriptChannels` loop on a live view: one
RemoveJavascriptInterface per string element, in order. -/
theorem removeJavascriptChannelsLoop_live {σ : Type} (E : LWE.WebContainer σ)
    (name_list : EncodableList) :
    ∀ (self : WebView σ) (inst : σ), self.webview_instance_ = some inst →
      removeJavascriptChannelsLoop E self name_list =
        { view := { self with
            webview_instance_ := some
              (((stringElements name_list).map (fun n =>
                  LWE.Call.RemoveJavascriptInterface n "postMessage")).foldl
                (fun e c => E.exec c e) inst) }
          replies := []
          calls := (stringElements name_list).map (fun n =>
            LWE.Call.RemoveJavascriptInterface n "postMessage")
          fault := none } := by
  induction name_list with
  | nil =>
    intro self inst h
    cases self
    simp at h
    simp [removeJavascriptChannelsLoop, Outcome.done, stringElements, h]
  | cons a rest ih =>
    intro self inst h
    cases a <;> simp only [removeJavascriptChannelsLoop, stringElements] <;>
      try exact ih self inst h
    rename_i s
    rw [WebView.invoke_live E self inst _ h]
    have hstep := ih
      { self with
        webview_instance_ :=
          some (E.exec (LWE.Call.RemoveJavascriptInterface s "postMessage") inst) }
      (E.exec (LWE.Call.RemoveJavascriptInterface s "postMessage") inst) rfl
    simp [Outcome.andThen, hstep]

/-- The `addJavascriptChannels` branch on a live view with a list argument. -/
theorem HandleMethodCall_addJavascriptChannels_list {σ : Type} (E : LWE.WebContainer σ)
    (self : WebView σ) (inst : σ) (name_list : EncodableList) (result : MethodResult)
    (hlive : self.webview_instance_ = some inst) :
    HandleMethodCall E self
        { method_name := "addJavascriptChannels"
          arguments := EncodableValue.list name_list } result =
      { view := { self with
          webview_instance_ := some
            (((stringElements name_list).map (fun n =>
                LWE.Call.AddJavaScriptInterface n "postMessage" { name := n })).foldl
              (fun e c => E.exec c e) inst) }
        replies := [Reply.Success EncodableValue.null]
        calls := (stringElements name_list).map (fun n =>
          LWE.Call.AddJavaScriptInterface n "postMessage" { name := n })
        fault := none } := by
  simp [HandleMethodCall, hlive, addJavascriptChannelsLoop_live E name_list self inst hlive,
    Outcome.andThen, WebView.reply]

/-- The `removeJavascriptChannels` branch on a live view with a list argument. -/
theorem HandleMethodCall_removeJavascriptChannels_list {σ : Type} (E : LWE.WebContainer σ)
    (self : WebView σ) (inst : σ) (name_list : EncodableList) (result : MethodResult)
    (hlive : self.webview_instance_ = some inst) :
    HandleMethodCall E self
        { method_name := "removeJavascriptChannels"
          arguments := EncodableValue.list name_list } result =
      { view := { self with
          webview_instance_ := some
            (((stringElements name_list).map (fun n =>
                LWE.Call.RemoveJavascriptInterface n "postMessage")).foldl
              (fun e c => E.exec c e) inst) }
        replies := [Reply.Success EncodableValue.null]
        calls := (stringElements name_list).map (fun n =>
          LWE.Call.RemoveJavascriptInterface n "postMessage")
        fault := none } := by
  simp [HandleMethodCall, hlive, removeJavascriptChannelsLoop_live E name_list self inst hlive,
    Outcome.andThen, WebView.reply]

/-- The reference engine gains the name on AddJavaScriptInterface. -/
theorem RefEngine.channelNames_add (m : String) (cb : JavaScriptChannelCallback)
    (e : RefEngine) :
    RefEngine.channelNames
        (refEngine.exec (LWE.Call.AddJavaScriptInterface m "postMessage" cb) e) =
      insert m (RefEngine.channelNames e) := by
  ext x
  simp only [RefEngine.channelNames, refEngine, RefEngine.exec, List.mem_toFinset,
    List.mem_map, List.mem_filter, Finset.mem_insert, decide_eq_true_eq, List.filter_cons,
    ne_eq, decide_not, Bool.not_eq_true', decide_eq_false_iff_not, if_true, List.mem_cons]
  constructor
  · rintro ⟨i, hi, hx⟩
    rcases hi with hi | ⟨⟨hin, _⟩, hpm⟩
    · left
      rw [← hx, hi]
    · right
      exact ⟨i, ⟨hin, hpm⟩, hx⟩
  · rintro (hx | ⟨i, ⟨hin, hpm⟩, hx⟩)
    · exact ⟨(m, "postMessage"), Or.inl rfl, hx.symm⟩
    · by_cases hxm : x = m
      · exact ⟨(m, "postMessage"), Or.inl rfl, hxm.symm⟩
      · refine ⟨i, Or.inr ⟨⟨hin, ?_⟩, hpm⟩, hx⟩
        intro hi
        apply hxm
        rw [← hx, hi]

/-- The reference engine loses the name on RemoveJavascriptInterface. -/
theorem RefEngine.channelNames_remove (m : String) (e : RefEngine) :
    RefEngine.channelNames
        (refEngine.exec (LWE.Call.RemoveJavascriptInterface m "postMessage") e) =
      (RefEngine.channelNames e).erase m := by
  ext x
  simp only [RefEngine.channelNames, refEngine, RefEngine.exec, List.mem_toFinset,
    List.mem_map, List.mem_filter, Finset.mem_erase, decide_eq_true_eq,
    ne_eq, decide_not, Bool.not_eq_true', decide_eq_false_iff_not]
  constructor
  · rintro ⟨i, ⟨⟨hin, hne⟩, hpm⟩, hx⟩
    refine ⟨?_, i, ⟨hin, hpm⟩, hx⟩
    intro hxm
    apply hne
    rw [← hpm, ← hxm, ← hx]
  · rintro ⟨hxm, i, ⟨hin, hpm⟩, hx⟩
    refine ⟨i, ⟨⟨hin, ?_⟩, hpm⟩, hx⟩
    intro hi
    apply hxm
    rw [← hx, hi]

/-- The flag computed from a sequence of event types, one event at a time. -/
theorem lastButtonEventIsDown_cons (initial : Bool) (t : Int) (ts : List Int) :
    lastButtonEventIsDown initial (t :: ts) =
      lastButtonEventIsDown (if t = 0 then true else if t = 2 then false else initial) ts := by
  unfold lastButtonEventIsDown
  rw [List.reverse_cons, List.find?_append]
  cases hfind : ts.reverse.find? (fun t => decide (t = 0 ∨ t = 2)) with
  | some u => simp
  | none =>
    by_cases h0 : t = 0
    · simp [h0]
    · by_cases h2 : t = 2
      · simp [h2]
      · simp [h0, h2]

/-- `Touch` on a live view, by event type. -/
theorem Touch_live {σ : Type} (E : LWE.WebContainer σ) (self : WebView σ) (inst : σ)
    (type button : Int) (x y dx dy : Double) (hlive : self.webview_instance_ = some inst) :
    Touch E self type button x y dx dy =
      if type = 0 then
        { view := { self with
            webview_instance_ := some (E.exec
              (LWE.Call.DispatchMouseDownEvent LWE.MouseButtonValue.LeftButton
                LWE.MouseButtonsValue.LeftButtonDown x y) inst)
            is_mouse_lbutton_down_ := true }
          replies := []
          calls := [LWE.Call.DispatchMouseDownEvent LWE.MouseButtonValue.LeftButton
            LWE.MouseButtonsValue.LeftButtonDown x y]
          fault := none }
      else if type = 1 then
        { view := { self with
            webview_instance_ := some (E.exec
              (LWE.Call.DispatchMouseMoveEvent
                (if self.is_mouse_lbutton_down_ then LWE.MouseButtonValue.LeftButton
                  else LWE.MouseButtonValue.NoButton)
                (if self.is_mouse_lbutton_down_ then LWE.MouseButtonsValue.LeftButtonDown
                  else LWE.MouseButtonsValue.NoButtonDown) x y) inst) }
          replies := []
          calls := [LWE.Call.DispatchMouseMoveEvent
            (if self.is_mouse_lbutton_down_ then LWE.MouseButtonValue.LeftButton
              else LWE.MouseButtonValue.NoButton)
            (if self.is_mouse_lbutton_down_ then LWE.MouseButtonsValue.LeftButtonDown
              else LWE.MouseButtonsValue.NoButtonDown) x y]
          fault := none }
      else if type = 2 then
        { view := { self with
            webview_instance_ := some (E.exec
              (LWE.Call.DispatchMouseUpEvent LWE.MouseButtonValue.NoButton
                LWE.MouseButtonsValue.NoButtonDown x y) inst)
            is_mouse_lbutton_down_ := false }
          replies := []
          calls := [LWE.Call.DispatchMouseUpEvent LWE.MouseButtonValue.NoButton
            LWE.MouseButtonsValue.NoButtonDown x y]
          fault := none }
      else { view := self, replies := [], calls := [], fault := none } := by
  unfold Touch
  split_ifs <;> simp [WebView.invoke, hlive, Outcome.andThen, Outcome.done]

/-- One `Touch` on a live view ends normally, keeps the engine instance, and
updates the flag as the event type says. -/
theorem Touch_step {σ : Type} (E : LWE.WebContainer σ) (self : WebView σ)
    (type button : Int) (x y dx dy : Double) (hlive : self.Live) :
    (Touch E self type button x y dx dy).fault = none ∧
    (Touch E self type button x y dx dy).view.Live ∧
    (Touch E self type button x y dx dy).view.is_mouse_lbutton_down_ =
      (if type = 0 then true else if type = 2 then false
        else self.is_mouse_lbutton_down_) := by
  obtain ⟨inst, hinst⟩ := hlive
  rw [Touch_live E self inst type button x y dx dy hinst]
  by_cases h0 : type = 0
  · simp [h0, WebView.Live]
  · by_cases h1 : type = 1
    · simp [h1, WebView.Live]
    · by_cases h2 : type = 2
      · simp [h2, WebView.Live]
      · simp [h0, h1, h2, WebView.Live, hinst]

/-- After a sequence of `Touch` calls on a live view the flag is the one
computed from the event types. -/
theorem touchAll_flag {σ : Type} (E : LWE.WebContainer σ) (events : List TouchEvent) :
    ∀ self : WebView σ, self.Live →
      (touchAll E self events).fault = none ∧
      (touchAll E self events).view.Live ∧
      (touchAll E self events).view.is_mouse_lbutton_down_ =
        lastButtonEventIsDown self.is_mouse_lbutton_down_ (events.map (fun e => e.type)) := by
  induction events with
  | nil =>
    intro self hlive
    exact ⟨rfl, hlive, rfl⟩
  | cons e rest ih =>
    intro self hlive
    obtain ⟨s1, s2, s3⟩ := Touch_step E self e.type e.button e.x e.y e.dx e.dy hlive
    obtain ⟨r1, r2, r3⟩ := ih _ s2
    simp only [touchAll, List.map_cons, lastButtonEventIsDown_cons]
    rw [Outcome.andThen_of_ok _ _ s1]
    exact ⟨r1, r2, by rw [← s3]; exact r3⟩

/-- The key of a one-character name that is a digit, without shift. -/
theorem EcoreEventKeyToKeyValue_digit (K : LWE.KeyValues) (c : Char)
    (h : '0' ≤ c ∧ c ≤ '9') :
    EcoreEventKeyToKeyValue K (String.singleton c) false = K.Digit0Key + (c.toNat : Int) - 48 := by
  have h2 := (Char.le_iff_toNat _ _).mp h.2
  have h9 : ('9' : Char).toNat = 57 := rfl
  have h0 : ('0' : Char).toNat = 48 := rfl
  rw [h9] at h2
  obtain ⟨hsize, hhead⟩ := singleton_strlen_head c (by omega)
  have hmem := singleton_not_enumerated c
  simp only [enumeratedKeyNames, List.mem_cons, List.mem_singleton, not_or, List.mem_nil_iff,
    not_false_eq_true, and_true] at hmem
  simp only [EcoreEventKeyToKeyValue, hmem, hsize, hhead, h, if_true, if_false,
    and_self, h0, Nat.cast_ofNat, Bool.false_eq_true]

/-- Assigning to a key that the map does not hold is an insertion. -/
theorem flutter.EncodableMap.assign_of_absent (m : EncodableMap) (key : String)
    (value : EncodableValue) (habsent : m.any (fun kv => EncodableMap.keyIs key kv.1) = false) :
    EncodableMap.assign m key value = EncodableMap.insert m key value := by
  simp only [EncodableMap.assign, EncodableMap.insert, habsent, Bool.false_eq_true, if_false]

/-- The map that one round of the loop of `GetAvailableCameras` builds, in key
order. -/
theorem camera_entry_map (name lensFacing : String) (angle : Int) :
    EncodableMap.assign
        (EncodableMap.assign
          (EncodableMap.assign [] "name" (EncodableValue.string name))
          "sensorOrientation" (EncodableValue.int32 angle))
        "lensFacing" (EncodableValue.string lensFacing) =
      [(EncodableValue.string "lensFacing", EncodableValue.string lensFacing),
       (EncodableValue.string "name", EncodableValue.string name),
       (EncodableValue.string "sensorOrientation", EncodableValue.int32 angle)] := by
  have h1 : "name" < "sensorOrientation" := by simp; decide
  have h2 : ¬ "name" < "lensFacing" := by simp; decide
  have hname : EncodableMap.assign [] "name" (EncodableValue.string name) =
      [(EncodableValue.string "name", EncodableValue.string name)] := by
    rw [EncodableMap.assign_of_absent [] _ _ rfl, EncodableMap.insert_nil]
  have hsensor : EncodableMap.assign
      [(EncodableValue.string "name", EncodableValue.string name)]
      "sensorOrientation" (EncodableValue.int32 angle) =
      [(EncodableValue.string "name", EncodableValue.string name),
       (EncodableValue.string "sensorOrientation", EncodableValue.int32 angle)] := by
    rw [EncodableMap.assign_of_absent _ _ _ (by simp [EncodableMap.keyIs]),
      EncodableMap.insert_cons_string _ _ _ _ _ (by decide)]
    simp [h1, EncodableMap.insert_nil]
  rw [hname, hsensor,
    EncodableMap.assign_of_absent _ _ _ (by simp [EncodableMap.keyIs]),
    EncodableMap.insert_cons_string _ _ _ _ _ (by decide)]
  simp [h2, EncodableMap.keyIs]

/-- The list that the loop of `GetAvailableCameras` builds has one entry per
round, and the entry of round `j` is the map of the camera `i + j`. -/
theorem GetAvailableCameras_loop_spec {κ : Type} (N : CameraEnums) (C : CameraApi κ)
    (remaining : Nat) :
    ∀ (i : Nat) (default_camera : CameraDevice) (w : κ),
      (CameraDevice.GetAvailableCameras.loop N C remaining i default_camera w).length =
          remaining ∧
        ∀ j, j < remaining → ∃ angle : Int,
          (CameraDevice.GetAvailableCameras.loop N C remaining i default_camera w)[j]? =
            some (EncodableValue.map
              [(EncodableValue.string "lensFacing",
                  EncodableValue.string (if i + j = 0 then "back" else "front")),
               (EncodableValue.string "name",
                  EncodableValue.string ("camera" ++ toString (i + j + 1))),
               (EncodableValue.string "sensorOrientation", EncodableValue.int32 angle)]) := by
  induction remaining with
  | zero =>
    intro i default_camera w
    exact ⟨rfl, fun j hj => absurd hj (Nat.not_lt_zero j)⟩
  | succ n ih =>
    intro i default_camera w
    unfold CameraDevice.GetAvailableCameras.loop
    simp only [camera_entry_map]
    refine ⟨by simp [(ih _ _ _).1], ?_⟩
    intro j hj
    cases j with
    | zero => exact ⟨(CameraDevice.GetLensOrientation C default_camera w).ret, by simp⟩
    | succ j =>
      obtain ⟨angle, hangle⟩ := (ih (i + 1) _ _).2 j (by omega)
      refine ⟨angle, ?_⟩
      rw [List.getElem?_cons_succ, hangle]
      have hidx : i + 1 + j = i + (j + 1) := by omega
      simp [hidx]

/-- `StopPreview` leaves the handle and the texture registrar alone and neither
destroys nor unregisters. -/
theorem CameraDevice.StopPreview_keeps {κ : Type} (C : CameraApi κ) (self : CameraDevice)
    (w : κ) :
    (self.StopPreview C w).device.handle_ = self.handle_ ∧
      (self.StopPreview C w).device.texture_registrar_ = self.texture_registrar_ ∧
      (self.StopPreview C w).calls.countP CameraCall.isDestroy = 0 ∧
      (self.StopPreview C w).calls.countP CameraCall.isUnregister = 0 := by
  unfold CameraDevice.StopPreview
  cases hstop : (C.camera_stop_preview self.handle_ w).1 <;>
    simp [hstop, CameraDevice.GetState, CameraCall.isDestroy, CameraCall.isUnregister]

theorem CameraDevice.Dispose.preview_keeps {κ : Type} (N : CameraEnums) (C : CameraApi κ)
    (self : CameraDevice) (w : κ) :
    (CameraDevice.Dispose.preview N C self w).device.handle_ = self.handle_ ∧
      (CameraDevice.Dispose.preview N C self w).device.texture_registrar_ =
        self.texture_registrar_ ∧
      (CameraDevice.Dispose.preview N C self w).calls.countP CameraCall.isDestroy = 0 ∧
      (CameraDevice.Dispose.preview N C self w).calls.countP CameraCall.isUnregister = 0 := by
  obtain ⟨h1, h2, h3, h4⟩ := CameraDevice.StopPreview_keeps C self w
  unfold CameraDevice.Dispose.preview
  by_cases hstate : self.state_ = N.kPreview
  · simp [hstate, CameraDevice.UnsetMediaPacketPreviewCb, h1, h2, h3, h4,
      CameraCall.isDestroy, CameraCall.isUnregister]
  · simp [hstate]

/-- `DestroyCameraHandle` nulls the handle, keeps the texture registrar, and
destroys the handle exactly when there is one. -/
theorem CameraDevice.DestroyCameraHandle_spec {κ : Type} (C : CameraApi κ)
    (self : CameraDevice) (w : κ) :
    (self.DestroyCameraHandle C w).device.handle_ = none ∧
      (self.DestroyCameraHandle C w).device.texture_registrar_ = self.texture_registrar_ ∧
      (self.DestroyCameraHandle C w).calls.countP CameraCall.isDestroy =
        (if self.handle_.isSome then 1 else 0) ∧
      (self.DestroyCameraHandle C w).calls.countP CameraCall.isUnregister = 0 := by
  unfold CameraDevice.DestroyCameraHandle
  cases hh : self.handle_ <;> simp [hh, CameraCall.isDestroy, CameraCall.isUnregister]

/-- One call of `Dispose`: both resources are null afterwards, the handle is
destroyed exactly when there was one, and the texture is unregistered exactly
when the registrar was set. -/
theorem CameraDevice.Dispose_once {κ : Type} (N : CameraEnums) (C : CameraApi κ)
    (self : CameraDevice) (w : κ) :
    (self.Dispose N C w).device.handle_ = none ∧
      (self.Dispose N C w).device.texture_registrar_ = false ∧
      (self.Dispose N C w).calls.countP CameraCall.isDestroy =
        (if self.handle_.isSome then 1 else 0) ∧
      (self.Dispose N C w).calls.countP CameraCall.isUnregister =
        (if self.texture_registrar_ then 1 else 0) := by
  obtain ⟨p1, p2, p3, p4⟩ := CameraDevice.Dispose.preview_keeps N C self w
  obtain ⟨d1, d2, d3, d4⟩ := CameraDevice.DestroyCameraHandle_spec C
    (CameraDevice.Dispose.preview N C self w).device
    (CameraDevice.Dispose.preview N C self w).world
  have hunfold : self.Dispose N C w =
      (if ((CameraDevice.Dispose.preview N C self w).device.DestroyCameraHandle C
            (CameraDevice.Dispose.preview N C self w).world).device.texture_registrar_ then
        { device := { ((CameraDevice.Dispose.preview N C self w).device.DestroyCameraHandle C
              (CameraDevice.Dispose.preview N C self w).world).device with
              texture_registrar_ := false }
          world := ((CameraDevice.Dispose.preview N C self w).device.DestroyCameraHandle C
              (CameraDevice.Dispose.preview N C self w).world).world
          calls := (CameraDevice.Dispose.preview N C self w).calls ++
            ((CameraDevice.Dispose.preview N C self w).device.DestroyCameraHandle C
              (CameraDevice.Dispose.preview N C self w).world).calls ++
            (if ((CameraDevice.Dispose.preview N C self w).device.DestroyCameraHandle C
              (CameraDevice.Dispose.preview N C self w).world).device.orientation_manager_
              then [CameraCall.OrientationManager_Stop] else []) ++
            [CameraCall.FlutterUnregisterExternalTexture
              ((CameraDevice.Dispose.preview N C self w).device.DestroyCameraHandle C
                (CameraDevice.Dispose.preview N C self w).world).device.texture_id_]
          ret := () }
      else
        { device := ((CameraDevice.Dispose.preview N C self w).device.DestroyCameraHandle C
              (CameraDevice.Dispose.preview N C self w).world).device
          world := ((CameraDevice.Dispose.preview N C self w).device.DestroyCameraHandle C
              (CameraDevice.Dispose.preview N C self w).world).world
          calls := (CameraDevice.Dispose.preview N C self w).calls ++
            ((CameraDevice.Dispose.preview N C self w).device.DestroyCameraHandle C
              (CameraDevice.Dispose.preview N C self w).world).calls ++
            (if ((CameraDevice.Dispose.preview N C self w).device.DestroyCameraHandle C
              (CameraDevice.Dispose.preview N C self w).world).device.orientation_manager_
              then [CameraCall.OrientationManager_Stop] else [])
          ret := () } : CameraOutcome κ Unit) := by
    unfold CameraDevice.Dispose CameraDevice.Dispose.preview
    by_cases hstate : self.state_ = N.kPreview <;> simp [hstate]
  rw [hunfold]
  rw [p1] at d3
  rw [p2] at d2
  have horient : ∀ b : Bool,
      (if b then [CameraCall.OrientationManager_Stop] else []).countP CameraCall.isDestroy = 0 ∧
      (if b then [CameraCall.OrientationManager_Stop] else []).countP
        CameraCall.isUnregister = 0 := by
    intro b
    cases b <;> simp [CameraCall.isDestroy, CameraCall.isUnregister]
  cases hreg : self.texture_registrar_ <;>
    simp [d1, d2, d3, d4, p3, p4, hreg, horient, CameraCall.isDestroy,
      CameraCall.isUnregister, List.countP_append]

/-- Calls of `Dispose` on an object whose handle and texture registrar are
already null destroy and unregister nothing and leave both null. -/
theorem CameraDevice.disposeTimes_disposed {κ : Type} (N : CameraEnums) (C : CameraApi κ)
    (n : Nat) :
    ∀ (self : CameraDevice) (w : κ), self.handle_ = none → self.texture_registrar_ = false →
      (CameraDevice.disposeTimes N C n self w).calls.countP CameraCall.isDestroy = 0 ∧
      (CameraDevice.disposeTimes N C n self w).calls.countP CameraCall.isUnregister = 0 ∧
      (CameraDevice.disposeTimes N C n self w).device.handle_ = none ∧
      (CameraDevice.disposeTimes N C n self w).device.texture_registrar_ = false := by
  induction n with
  | zero =>
    intro self w hh hr
    exact ⟨rfl, rfl, hh, hr⟩
  | succ n ih =>
    intro self w hh hr
    obtain ⟨o1, o2, o3, o4⟩ := CameraDevice.Dispose_once N C self w
    obtain ⟨r1, r2, r3, r4⟩ := ih (self.Dispose N C w).device (self.Dispose N C w).world o1 o2
    rw [hh] at o3
    rw [hr] at o4
    simp only [CameraDevice.disposeTimes, List.countP_append]
    exact ⟨by rw [o3, r1]; rfl, by rw [o4, r2]; rfl, r3, r4⟩

/-- How often a run of calls of `Dispose` destroys the handle and unregisters
the texture: once if there is at least one call and the resource was set,
never otherwise. -/
theorem CameraDevice.disposeTimes_counts {κ : Type} (N : CameraEnums) (C : CameraApi κ)
    (n : Nat) (self : CameraDevice) (w : κ) :
    (CameraDevice.disposeTimes N C n self w).calls.countP CameraCall.isDestroy =
        (if 0 < n ∧ self.handle_.isSome then 1 else 0) ∧
      (CameraDevice.disposeTimes N C n self w).calls.countP CameraCall.isUnregister =
        (if 0 < n ∧ self.texture_registrar_ = true then 1 else 0) := by
  cases n with
  | zero => exact ⟨rfl, rfl⟩
  | succ n =>
    obtain ⟨o1, o2, o3, o4⟩ := CameraDevice.Dispose_once N C self w
    obtain ⟨r1, r2, _, _⟩ := CameraDevice.disposeTimes_disposed N C n
      (self.Dispose N C w).device (self.Dispose N C w).world o1 o2
    simp only [CameraDevice.disposeTimes, List.countP_append]
    rw [o3, o4, r1, r2]
    simp

/-- One loop iteration of the two `ApplySettings` on the same entry: from a live
view of the lightweight engine both end the same way, and the flag
`has_navigation_delegate_` stays equal if it was equal. -/
theorem ApplySettings.entry_agree {σ τ : Type} (E : LWE.WebContainer σ) (lwe : WebView σ)
    (ewk : EWK.WebView τ) (key val : EncodableValue) (hlive : lwe.Live) :
    (ApplySettings.entry E lwe key val).fault = (EWK.ApplySettings.entry ewk key val).fault ∧
    (EWK.ApplySettings.entry ewk key val).replies = [] ∧
    (lwe.has_navigation_delegate_ = ewk.has_navigation_delegate_ →
      (ApplySettings.entry E lwe key val).view.has_navigation_delegate_ =
        (EWK.ApplySettings.entry ewk key val).view.has_navigation_delegate_) := by
  obtain ⟨inst, hinst⟩ := hlive
  unfold ApplySettings.entry EWK.ApplySettings.entry
  cases key <;> simp [Outcome.done, EWK.Outcome.done]
  split_ifs <;> (try cases val) <;> simp [Outcome.done, EWK.Outcome.done, hinst]

/-- The two `ApplySettings` on the same settings map: from a live view of the
lightweight engine both throw the same exception or both return, and the flag
`has_navigation_delegate_` ends equal if it started equal. -/
theorem ApplySettings_agree {σ τ : Type} (E : LWE.WebContainer σ)
    (settings : EncodableMap) :
    ∀ (lwe : WebView σ) (ewk : EWK.WebView τ), lwe.Live →
      (ApplySettings E lwe settings).fault = (EWK.ApplySettings ewk settings).fault ∧
      (EWK.ApplySettings ewk settings).replies = [] ∧
      (lwe.has_navigation_delegate_ = ewk.has_navigation_delegate_ →
        (ApplySettings E lwe settings).view.has_navigation_delegate_ =
          (EWK.ApplySettings ewk settings).view.has_navigation_delegate_) := by
  induction settings with
  | nil =>
    intro lwe ewk _
    exact ⟨rfl, rfl, fun h => h⟩
  | cons kv rest ih =>
    intro lwe ewk hlive
    obtain ⟨key, val⟩ := kv
    obtain ⟨e1, e2, e3⟩ := ApplySettings.entry_agree E lwe ewk key val hlive
    obtain ⟨_, l2, _⟩ := ApplySettings.entry_live E lwe key val hlive
    obtain ⟨r1, r2, r3⟩ := ih (ApplySettings.entry E lwe key val).view
      (EWK.ApplySettings.entry ewk key val).view l2
    simp only [ApplySettings, EWK.ApplySettings, Outcome.andThen, EWK.Outcome.andThen]
    cases hf : (EWK.ApplySettings.entry ewk key val).fault with
    | none =>
      rw [hf] at e1
      simp only [e1]
      exact ⟨r1, by simp [e2, r2], fun h => r3 (e3 h)⟩
    | some f =>
      rw [hf] at e1
      simp only [e1]
      exact ⟨hf.symm, e2, e3⟩

/-- The loop of `addJavascriptChannels` of the WebKit branch makes no reply and
ends normally. -/
theorem EWK.addJavascriptChannelsLoop_silent {τ : Type} (W : EWK.Api τ)
    (name_list : EncodableList) :
    ∀ self : EWK.WebView τ,
      (EWK.addJavascriptChannelsLoop W self name_list).replies = [] ∧
      (EWK.addJavascriptChannelsLoop W self name_list).fault = none := by
  induction name_list with
  | nil => intro self; exact ⟨rfl, rfl⟩
  | cons v rest ih =>
    intro self
    cases v <;> simp only [EWK.addJavascriptChannelsLoop] <;> try exact ih self
    rename_i name
    obtain ⟨r1, r2⟩ := ih (EWK.RegisterJavaScriptChannelName W self name).view
    simp [EWK.Outcome.andThen, EWK.RegisterJavaScriptChannelName, EWK.WebView.invoke] at r1 r2 ⊢
    exact ⟨r1, r2⟩

/-- The kinds of the replies of the two dispatchers to `updateSettings` are the
same on live views, and neither call faults. -/
theorem updateSettings_kinds_agree {σ τ : Type} (E : LWE.WebContainer σ) (W : EWK.Api τ)
    (lwe : WebView σ) (ewk : EWK.WebView τ) (inst : σ) (obj : τ)
    (arguments : EncodableValue) (result : MethodResult)
    (hl : lwe.webview_instance_ = some inst) (he : ewk.webview_instance_ = some obj) :
    (HandleMethodCall E lwe { method_name := "updateSettings", arguments := arguments }
        result).fault = none ∧
    (EWK.HandleMethodCall W ewk { method_name := "updateSettings", arguments := arguments }
        result).fault = none ∧
    (HandleMethodCall E lwe { method_name := "updateSettings", arguments := arguments }
        result).replies.map Reply.kind =
      (EWK.HandleMethodCall W ewk { method_name := "updateSettings", arguments := arguments }
        result).replies.map Reply.kind := by
  simp only [HandleMethodCall, EWK.HandleMethodCall, hl, he]
  cases arguments <;> simp [WebView.reply, EWK.WebView.reply]
  rename_i settings
  split_ifs with hlen
  · obtain ⟨a1, _, a3⟩ := ApplySettings_live E settings lwe ⟨inst, hl⟩
    obtain ⟨g1, g2, _⟩ := ApplySettings_agree E settings lwe ewk ⟨inst, hl⟩
    rcases a3 with a3 | ⟨what, a3⟩
    · have g3 : (EWK.ApplySettings ewk settings).fault = none := by rw [← g1, a3]
      simp [a3, g3, a1, g2, Outcome.andThen, EWK.Outcome.andThen, Reply.kind]
    · have g3 : (EWK.ApplySettings ewk settings).fault =
          some (Fault.invalid_argument what) := by rw [← g1, a3]
      simp [a3, g3, a1, g2, Reply.kind]
  · simp [Reply.kind]

theorem EWK.Outcome.andThen_reply_ewk {τ : Type} (o : EWK.Outcome τ) (r : Reply)
    (h1 : o.replies = []) (h2 : o.fault = none) :
    (o.andThen (fun view => view.reply r)).replies = [r] ∧
    (o.andThen (fun view => view.reply r)).fault = none := by
  simp [EWK.Outcome.andThen, h1, h2, EWK.WebView.reply]

/-- A state-changing call of the lightweight engine followed by a reply, and
the matching call of WebKit followed by a reply of the same kind. -/
theorem invoke_reply_agree {σ τ : Type} (E : LWE.WebContainer σ) (W : EWK.Api τ)
    (lwe : WebView σ) (ewk : EWK.WebView τ) (c : LWE.Call) (d : EWK.Call) (r s : Reply)
    (hlive : lwe.Live) (hkind : r.kind = s.kind) :
    ((lwe.invoke E c).andThen (fun view => view.reply r)).fault = none ∧
    ((ewk.invoke W d).andThen (fun view => view.reply s)).fault = none ∧
    ((lwe.invoke E c).andThen (fun view => view.reply r)).replies.map Reply.kind =
      ((ewk.invoke W d).andThen (fun view => view.reply s)).replies.map Reply.kind := by
  obtain ⟨l1, l2, _, _⟩ := Outcome.andThen_reply _ r (WebView.invoke_quiet E lwe c hlive)
  obtain ⟨e1, e2⟩ := EWK.Outcome.andThen_reply_ewk (ewk.invoke W d) s rfl rfl
  rw [l1, e1]
  exact ⟨l2, e2, by simp [hkind]⟩

/-- C21: on a live view `addJavascriptChannels` and `removeJavascriptChannels`
are answered with Success for every argument.  For a list argument the engine
gets one AddJavaScriptInterface (one RemoveJavascriptInterface) of the
postMessage interface for each string element, in list order and once per
occurrence, the other elements being skipped; for any other argument no engine
call is made and the view is unchanged. -/
theorem javascriptChannels_dispatch {σ : Type} (E : LWE.WebContainer σ) (self : WebView σ)
    (inst : σ) (arguments : EncodableValue) (result : MethodResult)
    (hlive : self.webview_instance_ = some inst) :
    (∀ name_list, arguments = EncodableValue.list name_list →
      HandleMethodCall E self
          { method_name := "addJavascriptChannels", arguments := arguments } result =
        { view := { self with
            webview_instance_ := some
              (((stringElements name_list).map (fun n =>
                  LWE.Call.AddJavaScriptInterface n "postMessage" { name := n })).foldl
                (fun e c => E.exec c e) inst) }
          replies := [Reply.Success EncodableValue.null]
          calls := (stringElements name_list).map (fun n =>
            LWE.Call.AddJavaScriptInterface n "postMessage" { name := n })
          fault := none } ∧
      HandleMethodCall E self
          { method_name := "removeJavascriptChannels", arguments := arguments } result =
        { view := { self with
            webview_instance_ := some
              (((stringElements name_list).map (fun n =>
                  LWE.Call.RemoveJavascriptInterface n "postMessage")).foldl
                (fun e c => E.exec c e) inst) }
          replies := [Reply.Success EncodableValue.null]
          calls := (stringElements name_list).map (fun n =>
            LWE.Call.RemoveJavascriptInterface n "postMessage")
          fault := none }) ∧
    ((∀ name_list, arguments ≠ EncodableValue.list name_list) →
      HandleMethodCall E self
          { method_name := "addJavascriptChannels", arguments := arguments } result =
        { view := self, replies := [Reply.Success EncodableValue.null], calls := []
          fault := none } ∧
      HandleMethodCall E self
          { method_name := "removeJavascriptChannels", arguments := arguments } result =
        { view := self, replies := [Reply.Success EncodableValue.null], calls := []
          fault := none }) := by
  constructor
  · intro name_list harg
    subst harg
    exact ⟨HandleMethodCall_addJavascriptChannels_list E self inst name_list result hlive,
      HandleMethodCall_removeJavascriptChannels_list E self inst name_list result hlive⟩
  · intro hnot
    cases arguments <;> simp [HandleMethodCall, hlive, WebView.reply]
    rename_i l
    exact absurd rfl (hnot l)

theorem javascriptChannels_dispatch_witness :
    refView.webview_instance_ = some RefEngine.init ∧
    (HandleMethodCall refEngine refView
        { method_name := "addJavascriptChannels"
          arguments := EncodableValue.list
            [EncodableValue.string "A", EncodableValue.int32 3, EncodableValue.string "B",
             EncodableValue.string "A"] } ⟨0⟩).calls =
      [LWE.Call.AddJavaScriptInterface "A" "postMessage" { name := "A" },
       LWE.Call.AddJavaScriptInterface "B" "postMessage" { name := "B" },
       LWE.Call.AddJavaScriptInterface "A" "postMessage" { name := "A" }] ∧
    (HandleMethodCall refEngine refView
        { method_name := "removeJavascriptChannels"
          arguments := EncodableValue.string "A" } ⟨0⟩).calls = [] :=
  have h := javascriptChannels_dispatch refEngine refView RefEngine.init
  ⟨rfl,
    by rw [((h (EncodableValue.list
        [EncodableValue.string "A", EncodableValue.int32 3, EncodableValue.string "B",
         EncodableValue.string "A"]) ⟨0⟩ rfl).1 _ rfl).1]; rfl,
    by rw [((h (EncodableValue.string "A") ⟨0⟩ rfl).2 (fun _ hl => by cases hl)).2]⟩

/-- C22 (counterexample): the name Toaster is registered; after
`addJavascriptChannels [Toaster]` followed by `removeJavascriptChannels
[Toaster]` no name is registered, so the set differs from what it was. -/
theorem add_then_remove_registered_name :
    RefEngine.channelNames { RefEngine.init with interfaces := [("Toaster", "postMessage")] } =
      {"Toaster"} ∧
    ((HandleMethodCall refEngine
        (HandleMethodCall refEngine
          { refView with
            webview_instance_ :=
              some { RefEngine.init with interfaces := [("Toaster", "postMessage")] } }
          { method_name := "addJavascriptChannels"
            arguments := EncodableValue.list [EncodableValue.string "Toaster"] } ⟨0⟩).view
        { method_name := "removeJavascriptChannels"
          arguments := EncodableValue.list [EncodableValue.string "Toaster"] }
        ⟨1⟩).view.webview_instance_.map RefEngine.channelNames) = some ∅ := by
  constructor
  · decide
  · decide

/-- C22 (amended): on a live view and for an engine whose set of registered
names gains n on AddJavaScriptInterface(n, postMessage) and loses n on
RemoveJavascriptInterface(n, postMessage), `addJavascriptChannels [n]` followed
by `removeJavascriptChannels [n]` leaves the registered names equal to the
prior set without n; this is the prior set whenever n was not registered
before. -/
theorem add_then_remove_channel {σ : Type} (E : LWE.WebContainer σ)
    (names : σ → Finset String) (self : WebView σ) (inst : σ) (n : String)
    (r1 r2 : MethodResult) (hlive : self.webview_instance_ = some inst)
    (hadd : ∀ (m : String) (cb : JavaScriptChannelCallback) (e : σ),
      names (E.exec (LWE.Call.AddJavaScriptInterface m "postMessage" cb) e) =
        insert m (names e))
    (hremove : ∀ (m : String) (e : σ),
      names (E.exec (LWE.Call.RemoveJavascriptInterface m "postMessage") e) =
        (names e).erase m) :
    ∃ inst2,
      (HandleMethodCall E
        (HandleMethodCall E self
          { method_name := "addJavascriptChannels"
            arguments := EncodableValue.list [EncodableValue.string n] } r1).view
        { method_name := "removeJavascriptChannels"
          arguments := EncodableValue.list [EncodableValue.string n] }
        r2).view.webview_instance_ = some inst2 ∧
      names inst2 = (names inst).erase n ∧
      (n ∉ names inst → names inst2 = names inst) := by
  rw [HandleMethodCall_addJavascriptChannels_list E self inst _ r1 hlive]
  rw [HandleMethodCall_removeJavascriptChannels_list E _ _ _ r2 rfl]
  refine ⟨_, rfl, ?_, ?_⟩
  · simp [stringElements, hadd, hremove]
  · intro hn
    simp [stringElements, hadd, hremove, hn]

theorem add_then_remove_channel_witness :
    refView.webview_instance_ = some RefEngine.init ∧
    "Toaster" ∉ RefEngine.channelNames RefEngine.init ∧
    ∃ inst2,
      (HandleMethodCall refEngine
        (HandleMethodCall refEngine refView
          { method_name := "addJavascriptChannels"
            arguments := EncodableValue.list [EncodableValue.string "Toaster"] } ⟨0⟩).view
        { method_name := "removeJavascriptChannels"
          arguments := EncodableValue.list [EncodableValue.string "Toaster"] }
        ⟨1⟩).view.webview_instance_ = some inst2 ∧
      RefEngine.channelNames inst2 = RefEngine.channelNames RefEngine.init := by
  obtain ⟨inst2, h1, _, h3⟩ :=
    add_then_remove_channel refEngine RefEngine.channelNames refView RefEngine.init "Toaster"
      ⟨0⟩ ⟨1⟩ rfl RefEngine.channelNames_add RefEngine.channelNames_remove
  exact ⟨rfl, by decide, inst2, h1, h3 (by decide)⟩

/-- C23: `HandleCookieMethodCall` makes exactly one reply for every method name
and argument: Error with the code "Not Webview created" when the engine instance
is null; with a live instance, Success(true) after clearing the cookies of the
engine for clearCookies, and NotImplemented for every other name. -/
theorem HandleCookieMethodCall_spec {σ : Type} (self : WebView σ)
    (method_call : MethodCall) (result : MethodResult) :
    (self.webview_instance_ = none →
      HandleCookieMethodCall self method_call result =
        { view := self, replies := [Reply.Error "Not Webview created" ""], calls := []
          fault := none }) ∧
    (self.Live → method_call.method_name = "clearCookies" →
      HandleCookieMethodCall self method_call result =
        { view := self, replies := [Reply.Success (EncodableValue.bool true)], calls := []
          fault := none, platform := [PlatformCall.ClearCookies] }) ∧
    (self.Live → method_call.method_name ≠ "clearCookies" →
      HandleCookieMethodCall self method_call result =
        { view := self, replies := [Reply.NotImplemented], calls := [], fault := none }) ∧
    ∃ r, (HandleCookieMethodCall self method_call result).replies = [r] := by
  refine ⟨?_, ?_, ?_, ?_⟩
  · intro h
    simp [HandleCookieMethodCall, h, WebView.reply]
  · rintro ⟨inst, h⟩ hname
    simp [HandleCookieMethodCall, h, hname]
  · rintro ⟨inst, h⟩ hname
    simp [HandleCookieMethodCall, h, hname, WebView.reply]
  · cases h : self.webview_instance_ with
    | none => exact ⟨Reply.Error "Not Webview created" "", by
        simp [HandleCookieMethodCall, h, WebView.reply]⟩
    | some inst =>
      by_cases hname : method_call.method_name = "clearCookies"
      · exact ⟨Reply.Success (EncodableValue.bool true), by
          simp [HandleCookieMethodCall, h, hname]⟩
      · exact ⟨Reply.NotImplemented, by
          simp [HandleCookieMethodCall, h, hname, WebView.reply]⟩

theorem HandleCookieMethodCall_spec_witness :
    HandleCookieMethodCall ({ refView with webview_instance_ := none } : WebView RefEngine)
        { method_name := "clearCookies", arguments := EncodableValue.null } ⟨0⟩ =
      { view := { refView with webview_instance_ := none }
        replies := [Reply.Error "Not Webview created" ""], calls := [], fault := none } ∧
    HandleCookieMethodCall refView
        { method_name := "clearCookies", arguments := EncodableValue.null } ⟨0⟩ =
      { view := refView, replies := [Reply.Success (EncodableValue.bool true)], calls := []
        fault := none, platform := [PlatformCall.ClearCookies] } ∧
    HandleCookieMethodCall refView
        { method_name := "setCookie", arguments := EncodableValue.null } ⟨0⟩ =
      { view := refView, replies := [Reply.NotImplemented], calls := [], fault := none } :=
  ⟨(HandleCookieMethodCall_spec ({ refView with webview_instance_ := none } : WebView RefEngine)
      { method_name := "clearCookies", arguments := EncodableValue.null } ⟨0⟩).1 rfl,
    (HandleCookieMethodCall_spec refView
      { method_name := "clearCookies", arguments := EncodableValue.null } ⟨0⟩).2.1
      ⟨RefEngine.init, rfl⟩ rfl,
    (HandleCookieMethodCall_spec refView
      { method_name := "setCookie", arguments := EncodableValue.null } ⟨0⟩).2.2.1
      ⟨RefEngine.init, rfl⟩ (by decide)⟩

/-- C24: one call of `Dispose` on a live view followed by the destructor:
the engine instance is destroyed once, but the texture is unregistered twice,
once by each of the two runs of `Dispose`. -/
theorem Dispose_then_destructor_unregisters_twice :
    ((Dispose refEngine refView).andThen (fun view => WebView_destructor refEngine view)).platform =
      [PlatformCall.FlutterUnregisterExternalTexture,
       PlatformCall.FlutterUnregisterExternalTexture] ∧
    ((Dispose refEngine refView).andThen (fun view => WebView_destructor refEngine view)).calls =
      [LWE.Call.Destroy] ∧
    (WebView_destructor refEngine refView).platform =
      [PlatformCall.FlutterUnregisterExternalTexture] ∧
    (WebView_destructor refEngine refView).calls = [LWE.Call.Destroy] := by
  refine ⟨rfl, rfl, rfl, rfl⟩

/-- C25: for every device count that the camera reports,
`CameraDevice::GetAvailableCameras` returns a list with exactly that many maps,
none for a count of zero or less; the entry at index `i` has exactly the keys
lensFacing, name and sensorOrientation, its name is "camera" followed by the
decimal of `i + 1`, and its lensFacing is "back" for index 0 and "front" for
every later index. -/
theorem GetAvailableCameras_spec {κ : Type} (N : CameraEnums) (C : CameraApi κ)
    (default_camera : CameraDevice) (w : κ) :
    ∃ cameras : List EncodableValue,
      CameraDevice.GetAvailableCameras N C default_camera w = EncodableValue.list cameras ∧
      cameras.length = (C.camera_get_device_count default_camera.handle_ w).toNat ∧
      (C.camera_get_device_count default_camera.handle_ w ≤ 0 → cameras = []) ∧
      ∀ i, i < cameras.length → ∃ angle : Int,
        cameras[i]? = some (EncodableValue.map
          [(EncodableValue.string "lensFacing",
              EncodableValue.string (if i = 0 then "back" else "front")),
           (EncodableValue.string "name",
              EncodableValue.string ("camera" ++ toString (i + 1))),
           (EncodableValue.string "sensorOrientation", EncodableValue.int32 angle)]) := by
  obtain ⟨hlen, hentry⟩ := GetAvailableCameras_loop_spec N C
    (C.camera_get_device_count default_camera.handle_ w).toNat 0 default_camera w
  refine ⟨_, rfl, hlen, ?_, ?_⟩
  · intro hcount
    apply List.eq_nil_of_length_eq_zero
    exact hlen.trans (Int.toNat_eq_zero.mpr hcount)
  · intro i hi
    obtain ⟨angle, hangle⟩ := hentry i (hlen ▸ hi)
    refine ⟨angle, ?_⟩
    rw [Nat.zero_add] at hangle
    exact hangle

theorem GetAvailableCameras_spec_witness :
    ∃ cameras : List EncodableValue,
      CameraDevice.GetAvailableCameras refCameraEnums refCameraApi refCameraDevice 0 =
        EncodableValue.list cameras ∧
      cameras.length = 2 ∧
      ∃ angle : Int,
        cameras[1]? = some (EncodableValue.map
          [(EncodableValue.string "lensFacing", EncodableValue.string "front"),
           (EncodableValue.string "name",
              EncodableValue.string ("camera" ++ toString (1 + 1))),
           (EncodableValue.string "sensorOrientation", EncodableValue.int32 angle)]) := by
  obtain ⟨cameras, hlist, hlen, _, hentry⟩ :=
    GetAvailableCameras_spec refCameraEnums refCameraApi refCameraDevice 0
  have hlen2 : cameras.length = 2 := hlen
  obtain ⟨angle, hangle⟩ := hentry 1 (by rw [hlen2]; decide)
  exact ⟨cameras, hlist, hlen2, angle, hangle⟩

/-- C26 (counterexample): on the sample key table the shifted key of the digit 1
lies 980 above its unshifted key and that of the digit 2 lies 960 above, so no
single offset serves all digits. -/
theorem EcoreEventKeyToKeyValue_digit_no_offset :
    ¬ ∃ k : Int, ∀ c : Char, '0' ≤ c ∧ c ≤ '9' →
      EcoreEventKeyToKeyValue refKeyValues (String.singleton c) true =
        EcoreEventKeyToKeyValue refKeyValues (String.singleton c) false + k := by
  rintro ⟨k, hk⟩
  have h1 := hk '1' (by decide)
  have h2 := hk '2' (by decide)
  have e1 : EcoreEventKeyToKeyValue refKeyValues (String.singleton '1') true = 1029 := rfl
  have e2 : EcoreEventKeyToKeyValue refKeyValues (String.singleton '1') false = 49 := rfl
  have e3 : EcoreEventKeyToKeyValue refKeyValues (String.singleton '2') true = 1010 := rfl
  have e4 : EcoreEventKeyToKeyValue refKeyValues (String.singleton '2') false = 50 := rfl
  rw [e1, e2] at h1
  rw [e3, e4] at h2
  have h1i : (1029 : Int) = 49 + k := h1
  have h2i : (1010 : Int) = 50 + k := h2
  omega

/-- C26 (amended): for a one-character key name the unshifted key is the class
base key plus the offset of the character: Digit0Key for digits, LowerAKey for
lowercase letters, AKey for uppercase letters.  For letters the shifted key is
the unshifted key plus a fixed offset, -32 for lowercase and +32 for uppercase
letters.  For digits the shifted key is one of ten enumerated keys, chosen by
the digit. -/
theorem EcoreEventKeyToKeyValue_shift_offsets (K : LWE.KeyValues) :
    (∀ c : Char, 'a' ≤ c ∧ c ≤ 'z' →
      EcoreEventKeyToKeyValue K (String.singleton c) false =
        K.LowerAKey + ((c.toNat : Int) - ('a'.toNat : Int)) ∧
      EcoreEventKeyToKeyValue K (String.singleton c) true =
        EcoreEventKeyToKeyValue K (String.singleton c) false + (-32)) ∧
    (∀ c : Char, 'A' ≤ c ∧ c ≤ 'Z' →
      EcoreEventKeyToKeyValue K (String.singleton c) false =
        K.AKey + ((c.toNat : Int) - ('A'.toNat : Int)) ∧
      EcoreEventKeyToKeyValue K (String.singleton c) true =
        EcoreEventKeyToKeyValue K (String.singleton c) false + 32) ∧
    (∀ c : Char, '0' ≤ c ∧ c ≤ '9' →
      EcoreEventKeyToKeyValue K (String.singleton c) false =
        K.Digit0Key + ((c.toNat : Int) - ('0'.toNat : Int))) ∧
    EcoreEventKeyToKeyValue K "1" true = K.ExclamationMarkKey ∧
    EcoreEventKeyToKeyValue K "2" true = K.AtMarkKey ∧
    EcoreEventKeyToKeyValue K "3" true = K.SharpMarkKey ∧
    EcoreEventKeyToKeyValue K "4" true = K.DollarMarkKey ∧
    EcoreEventKeyToKeyValue K "5" true = K.PercentMarkKey ∧
    EcoreEventKeyToKeyValue K "6" true = K.CaretMarkKey ∧
    EcoreEventKeyToKeyValue K "7" true = K.AmpersandMarkKey ∧
    EcoreEventKeyToKeyValue K "8" true = K.AsteriskMarkKey ∧
    EcoreEventKeyToKeyValue K "9" true = K.LeftParenthesisMarkKey ∧
    EcoreEventKeyToKeyValue K "0" true = K.RightParenthesisMarkKey := by
  have ha : (('a' : Char).toNat : Int) = 97 := rfl
  have hA : (('A' : Char).toNat : Int) = 65 := rfl
  have h0 : (('0' : Char).toNat : Int) = 48 := rfl
  refine ⟨?_, ?_, ?_, rfl, rfl, rfl, rfl, rfl, rfl, rfl, rfl, rfl, rfl⟩
  · intro c hc
    rw [EcoreEventKeyToKeyValue_lower K c false hc, EcoreEventKeyToKeyValue_lower K c true hc,
      ha]
    simp only [if_true, Bool.false_eq_true, if_false]
    exact ⟨add_sub_assoc _ _ _, sub_eq_add_neg _ _⟩
  · intro c hc
    rw [EcoreEventKeyToKeyValue_upper K c false hc, EcoreEventKeyToKeyValue_upper K c true hc,
      hA]
    simp only [if_true, Bool.false_eq_true, if_false]
    exact ⟨add_sub_assoc _ _ _, trivial⟩
  · intro c hc
    rw [EcoreEventKeyToKeyValue_digit K c hc, h0]
    exact add_sub_assoc _ _ _

theorem EcoreEventKeyToKeyValue_shift_offsets_witness :
    ('a' ≤ 'q' ∧ 'q' ≤ 'z') ∧
    EcoreEventKeyToKeyValue refKeyValues "q" false = 113 ∧
    EcoreEventKeyToKeyValue refKeyValues "q" true = 113 + (-32) ∧
    EcoreEventKeyToKeyValue refKeyValues "7" false = 55 :=
  have h := EcoreEventKeyToKeyValue_shift_offsets refKeyValues
  ⟨by decide, (h.1 (Char.ofNat 113) (by decide)).1,
    (h.1 (Char.ofNat 113) (by decide)).2,
    h.2.2.1 (Char.ofNat 55) (by decide)⟩

/-- C27: on a live view that starts with is_mouse_lbutton_down_ false, after
every sequence of `Touch` events the flag is true exactly when the most recent
event of type 0 or 2 was of type 0, and false if there was none.  A move event
(type 1) is forwarded with LeftButton / LeftButtonDown when the flag is true and
with NoButton / NoButtonDown when it is false, and keeps the flag; an event of
any other type than 0, 1, 2 makes no engine call and leaves the view as it
is. -/
theorem Touch_button_flag {σ : Type} (E : LWE.WebContainer σ) (self : WebView σ) (inst : σ)
    (hlive : self.webview_instance_ = some inst) :
    (self.is_mouse_lbutton_down_ = false →
      ∀ events : List TouchEvent,
        (touchAll E self events).fault = none ∧
        (touchAll E self events).view.is_mouse_lbutton_down_ =
          lastButtonEventIsDown false (events.map (fun e => e.type))) ∧
    (∀ (button : Int) (x y dx dy : Double),
      (self.is_mouse_lbutton_down_ = true →
        (Touch E self 1 button x y dx dy).calls =
          [LWE.Call.DispatchMouseMoveEvent LWE.MouseButtonValue.LeftButton
            LWE.MouseButtonsValue.LeftButtonDown x y]) ∧
      (self.is_mouse_lbutton_down_ = false →
        (Touch E self 1 button x y dx dy).calls =
          [LWE.Call.DispatchMouseMoveEvent LWE.MouseButtonValue.NoButton
            LWE.MouseButtonsValue.NoButtonDown x y]) ∧
      (Touch E self 1 button x y dx dy).view.is_mouse_lbutton_down_ =
        self.is_mouse_lbutton_down_) ∧
    (∀ (type button : Int) (x y dx dy : Double), type ≠ 0 → type ≠ 1 → type ≠ 2 →
      Touch E self type button x y dx dy =
        { view := self, replies := [], calls := [], fault := none }) := by
  refine ⟨?_, ?_, ?_⟩
  · intro hflag events
    obtain ⟨h1, _, h3⟩ := touchAll_flag E events self ⟨inst, hlive⟩
    rw [hflag] at h3
    exact ⟨h1, h3⟩
  · intro button x y dx dy
    rw [Touch_live E self inst 1 button x y dx dy hlive]
    refine ⟨?_, ?_, ?_⟩
    · intro hflag
      simp [hflag]
    · intro hflag
      simp [hflag]
    · simp
  · intro type button x y dx dy h0 h1 h2
    rw [Touch_live E self inst type button x y dx dy hlive]
    simp [h0, h1, h2]

theorem Touch_button_flag_witness :
    refView.webview_instance_ = some RefEngine.init ∧
    refView.is_mouse_lbutton_down_ = false ∧
    (touchAll refEngine refView
      [{ type := 0, button := 0, x := ⟨0⟩, y := ⟨0⟩, dx := ⟨0⟩, dy := ⟨0⟩ },
       { type := 1, button := 0, x := ⟨0⟩, y := ⟨0⟩, dx := ⟨0⟩, dy := ⟨0⟩ },
       { type := 7, button := 0, x := ⟨0⟩, y := ⟨0⟩, dx := ⟨0⟩, dy := ⟨0⟩ }]).view.is_mouse_lbutton_down_
      = true ∧
    (touchAll refEngine refView
      [{ type := 0, button := 0, x := ⟨0⟩, y := ⟨0⟩, dx := ⟨0⟩, dy := ⟨0⟩ },
       { type := 2, button := 0, x := ⟨0⟩, y := ⟨0⟩, dx := ⟨0⟩, dy := ⟨0⟩ },
       { type := 1, button := 0, x := ⟨0⟩, y := ⟨0⟩, dx := ⟨0⟩, dy := ⟨0⟩ }]).view.is_mouse_lbutton_down_
      = false :=
  have h := (Touch_button_flag refEngine refView RefEngine.init rfl).1 rfl
  ⟨rfl, rfl, by rw [(h _).2]; rfl, by rw [(h _).2]; rfl⟩

/-- C28: on a focused live view a key-down event named Select schedules two idle
callbacks in order: one that dispatches EnterKey down, press and up and then
runs `HidePanel`, and the ordinary one, which dispatches key-down and key-press
with UnidentifiedKey.  For Cancel the first callback only runs `HidePanel` and
the second carries UnidentifiedKey; for XF86Exit the first only runs
`HidePanel` and the second carries TVExitKey.  Every other key name schedules
only the ordinary callback, with the key of the key mapping. -/
theorem DispatchKeyDownEvent_callbacks {σ : Type} (K : LWE.KeyValues)
    (E : LWE.WebContainer σ) (self : WebView σ) (inst : σ) (modifiers : Nat)
    (hlive : self.webview_instance_ = some inst) (hfocus : self.is_focused_ = true) :
    (DispatchKeyDownEvent K E self { keyname := "Select", modifiers := modifiers }).calls =
      [LWE.Call.AddIdleCallback IdleCallback.selectKey,
       LWE.Call.AddIdleCallback (IdleCallback.keyDown K.UnidentifiedKey)] ∧
    (DispatchKeyDownEvent K E self { keyname := "Cancel", modifiers := modifiers }).calls =
      [LWE.Call.AddIdleCallback IdleCallback.hidePanel,
       LWE.Call.AddIdleCallback (IdleCallback.keyDown K.UnidentifiedKey)] ∧
    (DispatchKeyDownEvent K E self { keyname := "XF86Exit", modifiers := modifiers }).calls =
      [LWE.Call.AddIdleCallback IdleCallback.hidePanel,
       LWE.Call.AddIdleCallback (IdleCallback.keyDown K.TVExitKey)] ∧
    (∀ key_name : String, key_name ≠ "Select" → key_name ≠ "Cancel" →
      key_name ≠ "XF86Exit" →
      (DispatchKeyDownEvent K E self { keyname := key_name, modifiers := modifiers }).calls =
        [LWE.Call.AddIdleCallback (IdleCallback.keyDown
          (EcoreEventKeyToKeyValue K key_name (decide (modifiers % 2 = 1))))]) ∧
    (IdleCallback.run K E self IdleCallback.selectKey).calls =
      [LWE.Call.DispatchKeyDownEvent K.EnterKey, LWE.Call.DispatchKeyPressEvent K.EnterKey,
       LWE.Call.DispatchKeyUpEvent K.EnterKey] ∧
    (IdleCallback.run K E self IdleCallback.selectKey).platform = (HidePanel self).platform ∧
    IdleCallback.run K E self IdleCallback.hidePanel = HidePanel self ∧
    (HidePanel self).calls = [] ∧
    (self.context_ = true →
      (HidePanel self).platform =
        [PlatformCall.ecore_imf_context_reset, PlatformCall.ecore_imf_context_focus_out,
         PlatformCall.ecore_imf_context_input_panel_hide]) ∧
    (∀ key_value : Int,
      (IdleCallback.run K E self (IdleCallback.keyDown key_value)).calls =
        [LWE.Call.DispatchKeyDownEvent key_value, LWE.Call.DispatchKeyPressEvent key_value]) := by
  have hselect : ∀ b, EcoreEventKeyToKeyValue K "Select" b = K.UnidentifiedKey := fun _ => rfl
  have hcancel : ∀ b, EcoreEventKeyToKeyValue K "Cancel" b = K.UnidentifiedKey := fun _ => rfl
  have hexit : ∀ b, EcoreEventKeyToKeyValue K "XF86Exit" b = K.TVExitKey := fun _ => rfl
  refine ⟨?_, ?_, ?_, ?_, ?_, ?_, rfl, ?_, ?_, ?_⟩
  · simp [DispatchKeyDownEvent, hfocus, WebView.invoke, hlive, Outcome.andThen, hselect]
  · simp [DispatchKeyDownEvent, hfocus, WebView.invoke, hlive, Outcome.andThen, hcancel]
  · simp [DispatchKeyDownEvent, hfocus, WebView.invoke, hlive, Outcome.andThen, hexit]
  · intro key_name h1 h2 h3
    simp [DispatchKeyDownEvent, hfocus, WebView.invoke, hlive, Outcome.andThen, h1, h2, h3,
      Outcome.done]
  · simp only [IdleCallback.run, WebView.invoke, hlive, Outcome.andThen, HidePanel]
    cases self.context_ <;> simp [Outcome.done]
  · simp only [IdleCallback.run, WebView.invoke, hlive, Outcome.andThen, HidePanel]
    cases self.context_ <;> simp [Outcome.done]
  · simp only [HidePanel]
    cases self.context_ <;> simp [Outcome.done]
  · intro hcontext
    simp [HidePanel, hcontext]
  · intro key_value
    simp [IdleCallback.run, WebView.invoke, hlive, Outcome.andThen]

theorem DispatchKeyDownEvent_callbacks_witness :
    (DispatchKeyDownEvent refKeyValues refEngine { refView with is_focused_ := true }
        { keyname := "Select", modifiers := 0 }).calls =
      [LWE.Call.AddIdleCallback IdleCallback.selectKey,
       LWE.Call.AddIdleCallback (IdleCallback.keyDown refKeyValues.UnidentifiedKey)] ∧
    (DispatchKeyDownEvent refKeyValues refEngine { refView with is_focused_ := true }
        { keyname := "Return", modifiers := 0 }).calls =
      [LWE.Call.AddIdleCallback (IdleCallback.keyDown refKeyValues.EnterKey)] :=
  have h := DispatchKeyDownEvent_callbacks refKeyValues refEngine
    { refView with is_focused_ := true } RefEngine.init 0 rfl rfl
  ⟨h.1, by rw [h.2.2.2.1 "Return" (by decide) (by decide) (by decide)]; rfl⟩

/-- C29: `CameraDevice::Dispose` is idempotent on the resources it owns.  For
every number of calls in a row, the destructor's call included, from every
object and whatever the camera framework does, `camera_destroy` is called at
most once and `FlutterUnregisterExternalTexture` is called at most once; the
first call leaves `handle_` and `texture_registrar_` null, and the calls after
it destroy and unregister nothing. -/
theorem CameraDevice_Dispose_idempotent {κ : Type} (N : CameraEnums) (C : CameraApi κ)
    (n : Nat) (self : CameraDevice) (w : κ) :
    (CameraDevice.disposeTimes N C n self w).calls.countP CameraCall.isDestroy ≤ 1 ∧
      (CameraDevice.disposeTimes N C n self w).calls.countP CameraCall.isUnregister ≤ 1 ∧
      (self.Dispose N C w).device.handle_ = none ∧
      (self.Dispose N C w).device.texture_registrar_ = false ∧
      (CameraDevice.disposeTimes N C n (self.Dispose N C w).device
          (self.Dispose N C w).world).calls.countP CameraCall.isDestroy = 0 ∧
      (CameraDevice.disposeTimes N C n (self.Dispose N C w).device
          (self.Dispose N C w).world).calls.countP CameraCall.isUnregister = 0 := by
  obtain ⟨c1, c2⟩ := CameraDevice.disposeTimes_counts N C n self w
  obtain ⟨o1, o2, _, _⟩ := CameraDevice.Dispose_once N C self w
  obtain ⟨r1, r2, _, _⟩ := CameraDevice.disposeTimes_disposed N C n
    (self.Dispose N C w).device (self.Dispose N C w).world o1 o2
  refine ⟨?_, ?_, o1, o2, r1, r2⟩
  · rw [c1]
    split <;> omega
  · rw [c2]
    split <;> omega

/-- C30: on live views the dispatcher of the lightweight engine and the
dispatcher of the WebKit branch both return normally for every method name and
every argument, and the kinds of the replies they make before returning are
the same unless the method is removeJavascriptChannels, clearCache, getScrollX
or getScrollY, which the first answers with one Success and the second with one
NotImplemented.  For evaluateJavascript with a string neither replies before
returning; the lightweight engine is handed a completion callback that answers
the result object with Success, the WebKit callback answers nothing.  The two
`ApplySettings` end with the same exception or both normally on every settings
map and leave `has_navigation_delegate_` equal if it was equal.  On views with
a null instance neither dispatcher replies. -/
theorem dispatchers_agree {σ τ : Type} (E : LWE.WebContainer σ) (W : EWK.Api τ)
    (lwe : WebView σ) (ewk : EWK.WebView τ) (inst : σ) (obj : τ)
    (method_call : MethodCall) (result : MethodResult)
    (hl : lwe.webview_instance_ = some inst) (he : ewk.webview_instance_ = some obj) :
    (HandleMethodCall E lwe method_call result).fault = none ∧
    (EWK.HandleMethodCall W ewk method_call result).fault = none ∧
    (method_call.method_name ∈ differingMethods →
      (HandleMethodCall E lwe method_call result).replies.map Reply.kind =
          [ReplyKind.Success] ∧
        (EWK.HandleMethodCall W ewk method_call result).replies.map Reply.kind =
          [ReplyKind.NotImplemented]) ∧
    (method_call.method_name ∉ differingMethods →
      (HandleMethodCall E lwe method_call result).replies.map Reply.kind =
        (EWK.HandleMethodCall W ewk method_call result).replies.map Reply.kind) ∧
    (∀ js, method_call.method_name = "evaluateJavascript" →
      method_call.arguments = EncodableValue.string js →
        (HandleMethodCall E lwe method_call result).replies = [] ∧
        (EWK.HandleMethodCall W ewk method_call result).replies = [] ∧
        (HandleMethodCall E lwe method_call result).calls =
          [LWE.Call.EvaluateJavaScript js { res := some result }] ∧
        (EWK.HandleMethodCall W ewk method_call result).calls =
          [EWK.Call.ewk_view_script_execute js] ∧
        ∀ value,
          EvaluateJavaScriptCallback.call { res := some result } value =
            some (result, Reply.Success (EncodableValue.string value)) ∧
          EWK.OnEvaluateJavaScript value = none) ∧
    (∀ settings,
      (ApplySettings E lwe settings).fault = (EWK.ApplySettings ewk settings).fault ∧
      (lwe.has_navigation_delegate_ = ewk.has_navigation_delegate_ →
        (ApplySettings E lwe settings).view.has_navigation_delegate_ =
          (EWK.ApplySettings ewk settings).view.has_navigation_delegate_)) ∧
    (HandleMethodCall E { lwe with webview_instance_ := none } method_call result).replies =
      [] ∧
    (EWK.HandleMethodCall W { ewk with webview_instance_ := none } method_call
      result).replies = [] := by
  obtain ⟨method_name, arguments⟩ := method_call
  have hlive : lwe.Live := ⟨inst, hl⟩
  have hsettings := fun settings => ApplySettings_agree E settings lwe ewk hlive
  have hpair := fun c d => invoke_reply_agree E W lwe ewk c d
    (Reply.Success EncodableValue.null) (Reply.Success EncodableValue.null) hlive rfl
  have hmain :
      (HandleMethodCall E lwe { method_name := method_name, arguments := arguments }
          result).fault = none ∧
      (EWK.HandleMethodCall W ewk { method_name := method_name, arguments := arguments }
          result).fault = none ∧
      (method_name ∈ differingMethods →
        (HandleMethodCall E lwe { method_name := method_name, arguments := arguments }
            result).replies.map Reply.kind = [ReplyKind.Success] ∧
          (EWK.HandleMethodCall W ewk { method_name := method_name, arguments := arguments }
            result).replies.map Reply.kind = [ReplyKind.NotImplemented]) ∧
      (method_name ∉ differingMethods →
        (HandleMethodCall E lwe { method_name := method_name, arguments := arguments }
            result).replies.map Reply.kind =
          (EWK.HandleMethodCall W ewk { method_name := method_name, arguments := arguments }
            result).replies.map Reply.kind) := by
    by_cases hname : method_name ∈ dispatchTable
    · simp only [dispatchTable, List.mem_cons, List.mem_singleton, List.mem_nil_iff, or_false]
        at hname
      rcases hname with h | h | h | h | h | h | h | h | h | h | h | h | h | h | h | h | h <;>
        subst h
      · simpa [HandleMethodCall, EWK.HandleMethodCall, hl, he, differingMethods] using
          hpair (LWE.Call.LoadURL _) (EWK.Call.ewk_view_url_set _)
      · have := updateSettings_kinds_agree E W lwe ewk inst obj arguments result hl he
        simpa [differingMethods] using this
      · simp [HandleMethodCall, EWK.HandleMethodCall, hl, he, differingMethods, Reply.kind]
      · simp [HandleMethodCall, EWK.HandleMethodCall, hl, he, differingMethods, Reply.kind]
      · simpa [HandleMethodCall, EWK.HandleMethodCall, hl, he, differingMethods] using
          hpair LWE.Call.GoBack EWK.Call.ewk_view_back
      · simpa [HandleMethodCall, EWK.HandleMethodCall, hl, he, differingMethods] using
          hpair LWE.Call.GoForward EWK.Call.ewk_view_forward
      · simpa [HandleMethodCall, EWK.HandleMethodCall, hl, he, differingMethods] using
          hpair LWE.Call.Reload EWK.Call.ewk_view_reload
      · simp [HandleMethodCall, EWK.HandleMethodCall, hl, he, differingMethods, Reply.kind]
      · simp [HandleMethodCall, EWK.HandleMethodCall, hl, he, differingMethods, Reply.kind]
      · cases arguments <;>
          simp [HandleMethodCall, EWK.HandleMethodCall, hl, he, differingMethods, Reply.kind,
            WebView.reply, EWK.WebView.reply, WebView.invoke, EWK.WebView.invoke]
      · cases arguments <;>
          simp [HandleMethodCall, EWK.HandleMethodCall, hl, he, differingMethods, Reply.kind,
            WebView.reply, EWK.WebView.reply]
        rename_i name_list
        obtain ⟨l1, l2, _, _⟩ := Outcome.andThen_reply _ (Reply.Success EncodableValue.null)
          (addJavascriptChannelsLoop_quiet E name_list lwe hlive)
        obtain ⟨e1, e2⟩ := EWK.Outcome.andThen_reply_ewk _ (Reply.Success EncodableValue.null)
          (EWK.addJavascriptChannelsLoop_silent W name_list ewk).1
          (EWK.addJavascriptChannelsLoop_silent W name_list ewk).2
        simp only [WebView.reply, EWK.WebView.reply] at l1 l2 e1 e2
        rw [l1, e1]
        exact ⟨l2, e2, rfl⟩
      · cases arguments <;>
          simp [HandleMethodCall, EWK.HandleMethodCall, hl, he, differingMethods, Reply.kind,
            WebView.reply, EWK.WebView.reply]
        rename_i name_list
        obtain ⟨l1, l2, _, _⟩ := Outcome.andThen_reply _ (Reply.Success EncodableValue.null)
          (removeJavascriptChannelsLoop_quiet E name_list lwe hlive)
        simp only [WebView.reply] at l1 l2
        rw [l1]
        exact ⟨l2, rfl⟩
      · obtain ⟨l1, l2, _, _⟩ := Outcome.andThen_reply _ (Reply.Success EncodableValue.null)
          (WebView.invoke_quiet E lwe LWE.Call.ClearCache hlive)
        simp [HandleMethodCall, EWK.HandleMethodCall, hl, he, differingMethods, Reply.kind,
          EWK.WebView.reply, l1, l2]
      · simpa [HandleMethodCall, EWK.HandleMethodCall, hl, he, differingMethods] using
          hpair (LWE.Call.ScrollTo _ _) (EWK.Call.ewk_view_scroll_set _ _)
      · simpa [HandleMethodCall, EWK.HandleMethodCall, hl, he, differingMethods] using
          hpair (LWE.Call.ScrollBy _ _) (EWK.Call.ewk_view_scroll_by _ _)
      · simp [HandleMethodCall, EWK.HandleMethodCall, hl, he, differingMethods, Reply.kind,
          EWK.WebView.reply]
      · simp [HandleMethodCall, EWK.HandleMethodCall, hl, he, differingMethods, Reply.kind,
          EWK.WebView.reply]
    · simp only [dispatchTable, List.mem_cons, List.mem_singleton, List.mem_nil_iff, or_false,
        not_or] at hname
      obtain ⟨n1, n2, n3, n4, n5, n6, n7, n8, n9, n10, n11, n12, n13, n14, n15, n16, n17⟩ :=
        hname
      simp [HandleMethodCall, EWK.HandleMethodCall, hl, he, differingMethods, Reply.kind,
        WebView.reply, EWK.WebView.reply, n1, n2, n3, n4, n5, n6, n7, n8, n9, n10, n11, n12,
        n13, n14, n15, n16, n17]
  refine ⟨hmain.1, hmain.2.1, hmain.2.2.1, hmain.2.2.2, ?_,
    fun settings => ⟨(hsettings settings).1, (hsettings settings).2.2⟩,
    by simp [HandleMethodCall, Outcome.done], by simp [EWK.HandleMethodCall, EWK.Outcome.done]⟩
  intro js hname harg
  simp only at hname harg
  subst hname harg
  simp [HandleMethodCall, EWK.HandleMethodCall, hl, he, WebView.invoke, EWK.WebView.invoke,
    EvaluateJavaScriptCallback.call, EWK.OnEvaluateJavaScript]

theorem dispatchers_agree_witness :
    refView.webview_instance_ = some RefEngine.init ∧
    refEwkView.webview_instance_ = some "about:blank" ∧
    (HandleMethodCall refEngine refView
        { method_name := "getScrollX", arguments := .null } ⟨0⟩).replies.map Reply.kind =
      [ReplyKind.Success] ∧
    (EWK.HandleMethodCall refEwk refEwkView
        { method_name := "getScrollX", arguments := .null } ⟨0⟩).replies.map Reply.kind =
      [ReplyKind.NotImplemented] :=
  have h := dispatchers_agree refEngine refEwk refView refEwkView RefEngine.init "about:blank"
    { method_name := "getScrollX", arguments := .null } ⟨0⟩ rfl rfl
  ⟨rfl, rfl, h.2.2.1 (by decide)⟩
